import Mathlib

/-!
# SOL: solar sensor node (jwachlin/SOL)

A shallow embedding of the EEPROM-backed parts of the two firmware variants
(`src/SOL/SOL.cpp`, first generation, and `R2/src/SOL_V2/SOL_V2.cpp`):
the byte store primitives, the credential store, the circular record log,
the provisioning code and the wake cycle `SOL_task`.

Conventions of the embedding
* `uint8_t`, `uint16_t`, `uint32_t` values are `Nat`s; every conversion to a
  narrower type is an explicit `% 2^w`.
* The EEPROM is a total map from 16-bit addresses to bytes.
* A `data_packet_t` is seven 32-bit words; its memory image is the 28 bytes
  of those words, least significant byte first (the ESP32 is little endian).
  The `float` fields are carried as their 32-bit images.
* Everything the firmware obtains from the outside (wake cause, sensor
  values, portal result, connection results, client byte streams) is an
  explicit input.
-/

namespace SOL

/-! ## Byte store adapter -/

/-- The EEPROM contents, by address. -/
abbrev Store := Nat → Nat

/-- Function `void SOL_writeEEPROMByte(uint16_t address, uint8_t data)`. -/
def SOL_writeEEPROMByte (s : Store) (address data : Nat) : Store :=
  fun a => if a = address % 65536 then data % 256 else s a

/-- Function `uint8_t SOL_readEEPROMByte(uint16_t address)`. -/
def SOL_readEEPROMByte (s : Store) (address : Nat) : Nat :=
  s (address % 65536) % 256

/-- The byte writes `(address, data)` issued, in order, by the loop of
`SOL_writeEEPROMNByte(address, data, size)`:
`for (i = 0; i < size; i++) SOL_writeEEPROMByte(address+i, *(data+i))`. -/
def writesNByte (address : Nat) (data : List Nat) (size : Nat) : List (Nat × Nat) :=
  (List.range size).map fun i => (address + i, data.getD i 0)

/-- Carry out a sequence of byte writes, first to last. -/
def applyWrites (s : Store) (ws : List (Nat × Nat)) : Store :=
  ws.foldl (fun st w => SOL_writeEEPROMByte st w.1 w.2) s

/-- Function `void SOL_writeEEPROMNByte(uint16_t address, uint8_t * data, uint16_t size)`. -/
def SOL_writeEEPROMNByte (s : Store) (address : Nat) (data : List Nat) (size : Nat) : Store :=
  applyWrites s (writesNByte address data size)

/-- Function `void SOL_readEEPROMNByte(uint16_t address, uint8_t * data, uint16_t size)`:
the `size` bytes read into `data`. -/
def SOL_readEEPROMNByte (s : Store) (address size : Nat) : List Nat :=
  (List.range size).map fun i => SOL_readEEPROMByte s (address + i)

/-- The two bytes of a `uint16_t` object, as `(uint8_t *) &v` sees them. -/
def bytesOfU16 (v : Nat) : List Nat := [v % 256, v / 256 % 256]

/-- The `uint16_t` value held by two bytes in memory. -/
def u16OfBytes (bs : List Nat) : Nat := bs.getD 0 0 + 256 * bs.getD 1 0

/-- The four bytes of a 32-bit object. -/
def bytesOfU32 (v : Nat) : List Nat :=
  [v % 256, v / 256 % 256, v / 65536 % 256, v / 16777216 % 256]

/-- The 32-bit value held by four bytes starting at offset `k` of a memory image. -/
def u32OfBytes (bs : List Nat) (k : Nat) : Nat :=
  bs.getD k 0 + 256 * bs.getD (k + 1) 0 + 65536 * bs.getD (k + 2) 0
    + 16777216 * bs.getD (k + 3) 0

/-! ## Credential store (the same code in both variants) -/

/-- The addresses of the credential fields. `SOL_V2.h` fixes them for the second
generation (`V2.layout`); the header of the first generation is not part of
the sources, so its addresses stay a parameter there. -/
structure Layout where
  EEPROM_ADDRESS_WIFI_CREDENTIALS_AVAILABLE : Nat
  EEPROM_ADDRESS_WIFI_SSID_START : Nat
  EEPROM_ADDRESS_WIFI_PSWD_START : Nat
  EEPROM_ADDRESS_WIFI_SSID_LENGTH : Nat
  EEPROM_ADDRESS_WIFI_PSWD_LENGTH : Nat
deriving DecidableEq, Repr

/-- The static variables `ssid_length`, `ssid[64]`, `pswd_length`, `pswd[64]`
that `SOL_hasWiFiCredentials` loads; the arrays are given by index. -/
structure Credentials where
  ssid_length : Nat
  ssid : Nat → Nat
  pswd_length : Nat
  pswd : Nat → Nat

/-- The loop `for (uint8_t i = 0; i < n; i++) buf[i] =
SOL_readEEPROMByte(start + i)`. -/
def loadBytes (s : Store) (start n : Nat) (buf : Nat → Nat) : Nat → Nat :=
  (List.range n).foldl (fun b i => Function.update b i (SOL_readEEPROMByte s (start + i))) buf

/-- Function `uint8_t SOL_hasWiFiCredentials()`: the returned value and the static
variables afterwards. -/
def SOL_hasWiFiCredentials (L : Layout) (s : Store) (g : Credentials) : Nat × Credentials :=
  let hasCred := SOL_readEEPROMByte s L.EEPROM_ADDRESS_WIFI_CREDENTIALS_AVAILABLE
  if hasCred = 1 then
    let ssid_length := SOL_readEEPROMByte s L.EEPROM_ADDRESS_WIFI_SSID_LENGTH
    let pswd_length := SOL_readEEPROMByte s L.EEPROM_ADDRESS_WIFI_PSWD_LENGTH
    let ssid_length := if ssid_length > 64 then 64 else ssid_length
    let pswd_length := if pswd_length > 64 then 64 else pswd_length
    (hasCred,
      { ssid_length := ssid_length
        ssid := loadBytes s L.EEPROM_ADDRESS_WIFI_SSID_START ssid_length g.ssid
        pswd_length := pswd_length
        pswd := loadBytes s L.EEPROM_ADDRESS_WIFI_PSWD_START pswd_length g.pswd })
  else (0, g)

/-- The byte writes of the persistence step of `SOL_startProvisioning`, in
program order (`SOL_V2.cpp` lines 316-326, `SOL.cpp` lines 385-402): password
length, SSID length, password bytes, SSID bytes, availability flag. The
lengths are `uint8_t len = string.length()`. -/
def credentialWrites (L : Layout) (ssid pswd : List Nat) : List (Nat × Nat) :=
  let len_ssid := ssid.length % 256
  let len_pswd := pswd.length % 256
  [(L.EEPROM_ADDRESS_WIFI_PSWD_LENGTH, len_pswd), (L.EEPROM_ADDRESS_WIFI_SSID_LENGTH, len_ssid)]
    ++ writesNByte L.EEPROM_ADDRESS_WIFI_PSWD_START pswd len_pswd
    ++ writesNByte L.EEPROM_ADDRESS_WIFI_SSID_START ssid len_ssid
    ++ [(L.EEPROM_ADDRESS_WIFI_CREDENTIALS_AVAILABLE, 1)]

/-- The persistence step of `SOL_startProvisioning`. -/
def persistCredentials (L : Layout) (s : Store) (ssid pswd : List Nat) : Store :=
  let len_ssid := ssid.length % 256
  let len_pswd := pswd.length % 256
  let s := SOL_writeEEPROMByte s L.EEPROM_ADDRESS_WIFI_PSWD_LENGTH len_pswd
  let s := SOL_writeEEPROMByte s L.EEPROM_ADDRESS_WIFI_SSID_LENGTH len_ssid
  let s := SOL_writeEEPROMNByte s L.EEPROM_ADDRESS_WIFI_PSWD_START pswd len_pswd
  let s := SOL_writeEEPROMNByte s L.EEPROM_ADDRESS_WIFI_SSID_START ssid len_ssid
  SOL_writeEEPROMByte s L.EEPROM_ADDRESS_WIFI_CREDENTIALS_AVAILABLE 1

/-- The availability flag has an address of its own: none of the writes of
the length bytes and of the (at most 255) password and SSID bytes lands on it. -/
def Layout.flagSeparate (L : Layout) : Prop :=
  L.EEPROM_ADDRESS_WIFI_PSWD_LENGTH % 65536 ≠ L.EEPROM_ADDRESS_WIFI_CREDENTIALS_AVAILABLE % 65536 ∧
  L.EEPROM_ADDRESS_WIFI_SSID_LENGTH % 65536 ≠ L.EEPROM_ADDRESS_WIFI_CREDENTIALS_AVAILABLE % 65536 ∧
  (∀ i, i < 256 → (L.EEPROM_ADDRESS_WIFI_PSWD_START + i) % 65536
      ≠ L.EEPROM_ADDRESS_WIFI_CREDENTIALS_AVAILABLE % 65536) ∧
  (∀ i, i < 256 → (L.EEPROM_ADDRESS_WIFI_SSID_START + i) % 65536
      ≠ L.EEPROM_ADDRESS_WIFI_CREDENTIALS_AVAILABLE % 65536)

instance (L : Layout) : Decidable L.flagSeparate := by
  unfold Layout.flagSeparate; infer_instance

/-- The static credential variables before anything was loaded. -/
def noCredentials : Credentials := ⟨0, fun _ => 0, 0, fun _ => 0⟩

/-- The bytes of an ASCII text. -/
def bytes (text : String) : List Nat := text.toList.map Char.toNat

/-- What `SOL_hasWiFiCredentials` reports for a store, from unset static
variables: the returned value, the two lengths and the loaded parts of
`ssid[]` and `pswd[]`. -/
def loadedCredentials (L : Layout) (s : Store) : Nat × Nat × List Nat × Nat × List Nat :=
  let r := SOL_hasWiFiCredentials L s noCredentials
  (r.1, r.2.ssid_length, (List.range r.2.ssid_length).map r.2.ssid,
    r.2.pswd_length, (List.range r.2.pswd_length).map r.2.pswd)

namespace V2

/-! ## EEPROM layout of SOL_V2 (`SOL_V2.h`) -/

def EEPROM_ADDRESS_WIFI_CREDENTIALS_AVAILABLE : Nat := 0x0000
def EEPROM_ADDRESS_WIFI_SSID_START : Nat := 0x0001
def EEPROM_ADDRESS_WIFI_SSID_END : Nat := 0x0041
def EEPROM_ADDRESS_WIFI_PSWD_START : Nat := 0x0042
def EEPROM_ADDRESS_WIFI_PSWD_END : Nat := 0x006A
def EEPROM_ADDRESS_WIFI_SSID_LENGTH : Nat := 0x006B
def EEPROM_ADDRESS_WIFI_PSWD_LENGTH : Nat := 0x006C
def EEPROM_ADDRESS_NEXT_STORAGE_ADDRESS : Nat := 0x006D
def EEPROM_ADDRESS_DATA_RANGE_START_ADDRESS : Nat := 0x006F
def EEPROM_ADDRESS_DATA_RANGE_END_ADDRESS : Nat := 0x0FA0
def SLEEP_TIME_SECONDS : Nat := 30
def SENSE_COUNT_TO_SEND : Nat := 4

/-- The record type of `SOL_V2.h`; the `float` fields hold their 32-bit images. -/
structure data_packet_t where
  timestamp : Nat
  peak_power_mW : Nat
  peak_current_mA : Nat
  peak_voltage_V : Nat
  temp_celsius : Nat
  batt_v : Nat
  ID : Nat
deriving DecidableEq, Repr

/-- The value of `sizeof(data_packet_t)`: seven 4-byte members. -/
def sizeof_data_packet_t : Nat := 28

/-- The memory image `(uint8_t *) &data` of a record. -/
def data_packet_t.toBytes (d : data_packet_t) : List Nat :=
  bytesOfU32 d.timestamp ++ bytesOfU32 d.peak_power_mW ++ bytesOfU32 d.peak_current_mA
    ++ bytesOfU32 d.peak_voltage_V ++ bytesOfU32 d.temp_celsius ++ bytesOfU32 d.batt_v
    ++ bytesOfU32 d.ID

/-- The record whose memory image is `bs`. -/
def data_packet_t.ofBytes (bs : List Nat) : data_packet_t where
  timestamp := u32OfBytes bs 0
  peak_power_mW := u32OfBytes bs 4
  peak_current_mA := u32OfBytes bs 8
  peak_voltage_V := u32OfBytes bs 12
  temp_celsius := u32OfBytes bs 16
  batt_v := u32OfBytes bs 20
  ID := u32OfBytes bs 24

/-! ## Circular log of SOL_V2 -/

/-- The persisted cursor: `SOL_readEEPROMNByte(EEPROM_ADDRESS_NEXT_STORAGE_ADDRESS,
(uint8_t *)&next_storage_address, 2)`. -/
def readNextStorageAddress (s : Store) : Nat :=
  u16OfBytes (SOL_readEEPROMNByte s EEPROM_ADDRESS_NEXT_STORAGE_ADDRESS 2)

/-- The address the storage step of `SOL_generateDataPacket` writes the record
at (`SOL_V2.cpp` lines 518-526): the persisted cursor, or the start of the
range when `next_storage_address + sizeof(data_packet_t) >=
EEPROM_ADDRESS_DATA_RANGE_END_ADDRESS`. -/
def writeAddress (s : Store) : Nat :=
  let next_storage_address := readNextStorageAddress s
  if next_storage_address + sizeof_data_packet_t ≥ EEPROM_ADDRESS_DATA_RANGE_END_ADDRESS then
    EEPROM_ADDRESS_DATA_RANGE_START_ADDRESS
  else next_storage_address

/-- The storage step of `SOL_generateDataPacket` (`SOL_V2.cpp` lines 517-536). -/
def storeDataPacket (s : Store) (data : data_packet_t) : Store :=
  let next_storage_address := writeAddress s
  let s := SOL_writeEEPROMNByte s next_storage_address data.toBytes sizeof_data_packet_t
  let next_storage_address := (next_storage_address + sizeof_data_packet_t) % 65536
  SOL_writeEEPROMNByte s EEPROM_ADDRESS_NEXT_STORAGE_ADDRESS (bytesOfU16 next_storage_address) 2

/-- The count `uint16_t datapoints = (next_storage_address -
EEPROM_ADDRESS_DATA_RANGE_START_ADDRESS) / sizeof(data_packet_t)` of `SOL_task`:
the difference is an `int`, converted to the 32-bit unsigned type of `sizeof`
for the division, and the quotient is narrowed to 16 bits. -/
def datapoints (s : Store) : Nat :=
  ((readNextStorageAddress s + 4294967296 - EEPROM_ADDRESS_DATA_RANGE_START_ADDRESS)
      % 4294967296 / sizeof_data_packet_t) % 65536

/-- Function `data_packet_t SOL_getDataPacket(uint16_t start_address)`. -/
def SOL_getDataPacket (s : Store) (start_address : Nat) : data_packet_t :=
  data_packet_t.ofBytes (SOL_readEEPROMNByte s start_address sizeof_data_packet_t)

/-- The loop `for (uint16_t dp = first; dp < next_storage_address; dp +=
sizeof(data_packet_t))` of `SOL_upload`, collecting the records
`SOL_getDataPacket(dp)`; `none` when `fuel` iterations do not reach the exit. -/
def readLoop (s : Store) (next_storage_address : Nat) : Nat → Nat → Option (List data_packet_t)
  | 0, _ => none
  | fuel + 1, dp =>
    if dp < next_storage_address then
      (readLoop s next_storage_address fuel ((dp + sizeof_data_packet_t) % 65536)).map
        (SOL_getDataPacket s dp :: ·)
    else some []

/-- The records that `SOL_upload` reads: the loop started at
`EEPROM_ADDRESS_DATA_RANGE_START_ADDRESS` and run against the persisted cursor.
A 16-bit counter stepping by 28 returns to its start after 16384 steps, so
65536 iterations are more than the loop can take. -/
def pendingRecords (s : Store) : Option (List data_packet_t) :=
  readLoop s (readNextStorageAddress s) 65536 EEPROM_ADDRESS_DATA_RANGE_START_ADDRESS

/-- The cursor reset of `SOL_upload` and `SOL_startProvisioning`:
`uint16_t next_storage = EEPROM_ADDRESS_DATA_RANGE_START_ADDRESS;
SOL_writeEEPROMNByte(EEPROM_ADDRESS_NEXT_STORAGE_ADDRESS, (uint8_t *) &next_storage, 2)`. -/
def resetNextStorageAddress (s : Store) : Store :=
  SOL_writeEEPROMNByte s EEPROM_ADDRESS_NEXT_STORAGE_ADDRESS
    (bytesOfU16 EEPROM_ADDRESS_DATA_RANGE_START_ADDRESS) 2

/-- The two byte writes of the cursor reset. -/
def cursorResetWrites : List (Nat × Nat) :=
  writesNByte EEPROM_ADDRESS_NEXT_STORAGE_ADDRESS
    (bytesOfU16 EEPROM_ADDRESS_DATA_RANGE_START_ADDRESS) 2

/-- The store after the storage step has run once for each record, in order. -/
def appendAll (s : Store) (records : List data_packet_t) : Store :=
  records.foldl storeDataPacket s

/-- The credential addresses of `SOL_V2.h`. -/
def layout : Layout where
  EEPROM_ADDRESS_WIFI_CREDENTIALS_AVAILABLE := EEPROM_ADDRESS_WIFI_CREDENTIALS_AVAILABLE
  EEPROM_ADDRESS_WIFI_SSID_START := EEPROM_ADDRESS_WIFI_SSID_START
  EEPROM_ADDRESS_WIFI_PSWD_START := EEPROM_ADDRESS_WIFI_PSWD_START
  EEPROM_ADDRESS_WIFI_SSID_LENGTH := EEPROM_ADDRESS_WIFI_SSID_LENGTH
  EEPROM_ADDRESS_WIFI_PSWD_LENGTH := EEPROM_ADDRESS_WIFI_PSWD_LENGTH

/-- An empty log: the store that the cursor reset leaves from a zeroed EEPROM. -/
def emptyLog : Store := resetNextStorageAddress fun _ => 0

/-- Two records with distinct contents. -/
def twoRecords : List data_packet_t :=
  [⟨1500000030, 1, 2, 3, 4, 5, 6⟩, ⟨1500000060, 7, 8, 9, 10, 11, 12⟩]

/-- A store whose cursor is 3947, the last slot in which a record fits. -/
def lastSlotStore : Store :=
  SOL_writeEEPROMNByte (fun _ => 0) EEPROM_ADDRESS_NEXT_STORAGE_ADDRESS (bytesOfU16 3947) 2

/-- An erased EEPROM: every byte 0xFF. -/
def erased : Store := fun _ => 255

/-- A store that holds the credentials ("Old", "oldpw"), persisted from an
erased EEPROM. -/
def oldCredentialsStore : Store :=
  persistCredentials layout erased (bytes "Old") (bytes "oldpw")

/-! ## The wake cycle of SOL_V2 -/

/-- What a wake cycle does that is visible outside the EEPROM, in order. -/
inductive Event where
  | startProvisioning
  | generateDataPacket (data : data_packet_t)
  | connectToWiFi (connected : Bool)
  | upload
  | uploadDataPacket (data : data_packet_t)
  | set_time_from_ntp
  | deepsleep (len : Nat)
deriving DecidableEq, Repr

/-- The EEPROM, the variables kept in RTC memory (`sleepCount`, `lastNTPTime`),
the static variables of `SOL_V2.cpp`, and the events so far. -/
structure State where
  eeprom : Store
  sleepCount : Nat
  lastNTPTime : Nat
  cred : Credentials
  device_ID : Nat
  trace : List Event

/-- What one wake cycle receives from outside the firmware. -/
structure Inputs where
  /-- The wake cause is `ESP_SLEEP_WAKEUP_TOUCHPAD`. -/
  touch : Bool
  /-- The result of `wifiManager.startConfigPortal`: `none` when it returns
  false, otherwise the SSID and the password the portal hands back. -/
  portal : Option (List Nat × List Nat)
  /-- The sweep maxima, the temperature and the battery voltage as computed
  from the sensors (32-bit `float` images). -/
  peak_power_mW : Nat
  peak_current_mA : Nat
  peak_voltage_V : Nat
  temp_celsius : Nat
  batt_v : Nat
  /-- The result of `SOL_connectToWiFi(10)` in `SOL_task`. -/
  connect : Bool
  /-- The result of `SOL_connectToWiFi(10)` in `SOL_set_time_from_ntp`. -/
  ntpConnect : Bool
  /-- The time `time(&now)` when `getLocalTime` succeeds. -/
  ntpNow : Option Nat

/-- Function `void SOL_set_time_from_ntp(void)`. -/
def SOL_set_time_from_ntp (inp : Inputs) (st : State) : State :=
  let st := { st with trace := st.trace ++ [Event.set_time_from_ntp] }
  let r := SOL_hasWiFiCredentials layout st.eeprom st.cred
  let st := { st with cred := r.2 }
  if r.1 ≠ 0 then
    let st := { st with trace := st.trace ++ [Event.connectToWiFi inp.ntpConnect] }
    if inp.ntpConnect then
      match inp.ntpNow with
      | some now => { st with lastNTPTime := now % 4294967296 }
      | none => st
    else st
  else st

/-- Function `void SOL_startProvisioning(void)` of `SOL_V2.cpp`. -/
def SOL_startProvisioning (inp : Inputs) (st : State) : State :=
  let st := { st with trace := st.trace ++ [Event.startProvisioning] }
  match inp.portal with
  | some (connected_ssid, connected_pswd) =>
    let e := persistCredentials layout st.eeprom connected_ssid connected_pswd
    let e := resetNextStorageAddress e
    SOL_set_time_from_ntp inp { st with eeprom := e }
  | none => st

/-- The record that `SOL_generateDataPacket` fills in (`SOL_V2.cpp` lines
488-497) from the sensor values, the retained time base and the device
identity; the arithmetic of `timestamp` is `uint32_t`. -/
def generatedPacket (inp : Inputs) (lastNTPTime sleepCount device_ID : Nat) : data_packet_t where
  batt_v := inp.batt_v
  timestamp := (lastNTPTime + (sleepCount * SLEEP_TIME_SECONDS) % 4294967296) % 4294967296
  peak_power_mW := inp.peak_power_mW
  peak_current_mA := inp.peak_current_mA
  peak_voltage_V := inp.peak_voltage_V
  temp_celsius := inp.temp_celsius
  ID := device_ID

/-- Function `void SOL_generateDataPacket(void)` of `SOL_V2.cpp`: the record is filled
in, then stored. -/
def SOL_generateDataPacket (inp : Inputs) (st : State) : State :=
  let data := generatedPacket inp st.lastNTPTime st.sleepCount st.device_ID
  { st with
    eeprom := storeDataPacket st.eeprom data
    trace := st.trace ++ [Event.generateDataPacket data] }

/-- Function `void SOL_upload(void)` of `SOL_V2.cpp`: the records are read, which has
no effect since the call of `SOL_uploadDataPacket` is commented out in the
source and the read loop always ends (`readLoop_terminates`); then the cursor
is reset. -/
def SOL_upload (st : State) : State :=
  { st with
    eeprom := resetNextStorageAddress st.eeprom
    trace := st.trace ++ [Event.upload] }

/-- Function `void SOL_deepsleep(int len)`. -/
def SOL_deepsleep (len : Nat) (st : State) : State :=
  { st with trace := st.trace ++ [Event.deepsleep len] }

/-- Function `void SOL_task()` of `SOL_V2.cpp`: one complete wake cycle. -/
def SOL_task (st : State) (inp : Inputs) : State :=
  let st := { st with sleepCount := (st.sleepCount + 1) % 4294967296 }
  let st :=
    if inp.touch then SOL_startProvisioning inp st
    else
      let r := SOL_hasWiFiCredentials layout st.eeprom st.cred
      let st := { st with cred := r.2 }
      if r.1 ≠ 0 then
        let st := SOL_generateDataPacket inp st
        if datapoints st.eeprom ≥ SENSE_COUNT_TO_SEND then
          let st := { st with trace := st.trace ++ [Event.connectToWiFi inp.connect] }
          if inp.connect then
            let st := SOL_upload st
            let st := SOL_set_time_from_ntp inp st
            { st with sleepCount := 0 }
          else st
        else st
      else st
  SOL_deepsleep SLEEP_TIME_SECONDS st

/-- The state of a device whose EEPROM is erased (every byte 0xFF). -/
def erasedState : State where
  eeprom := erased
  sleepCount := 0
  lastNTPTime := 0
  cred := ⟨0, fun _ => 0, 0, fun _ => 0⟩
  device_ID := 7
  trace := []

/-- A timer wake with fixed sensor values in which no connection succeeds. -/
def timerWake : Inputs where
  touch := false
  portal := none
  peak_power_mW := 1
  peak_current_mA := 2
  peak_voltage_V := 3
  temp_celsius := 4
  batt_v := 5
  connect := false
  ntpConnect := false
  ntpNow := none

/-- A touch wake in which the portal hands back the given SSID and password. -/
def touchWake (ssid pswd : List Nat) : Inputs :=
  { timerWake with touch := true, portal := some (ssid, pswd) }

/-- A provisioning cycle followed by two sampling cycles. -/
def provisionThenSample : List Inputs :=
  [touchWake (bytes "MyNet") (bytes "secret123"), timerWake, timerWake]

/-- The state after a sequence of complete wake cycles. -/
def runCycles (st : State) (cycles : List Inputs) : State :=
  cycles.foldl SOL_task st

/-- The cursor condition of the log: inside the record range and a whole
number of records above its start. -/
def cursorAligned (c : Nat) : Prop :=
  EEPROM_ADDRESS_DATA_RANGE_START_ADDRESS ≤ c ∧ c < EEPROM_ADDRESS_DATA_RANGE_END_ADDRESS ∧
    (c - EEPROM_ADDRESS_DATA_RANGE_START_ADDRESS) % sizeof_data_packet_t = 0

instance (c : Nat) : Decidable (cursorAligned c) := by
  unfold cursorAligned; infer_instance

/-- The event is a call of `SOL_connectToWiFi`. -/
def Event.isConnectToWiFi : Event → Bool
  | .connectToWiFi _ => true
  | _ => false

/-- The event is a run of `SOL_generateDataPacket`. -/
def Event.isGenerateDataPacket : Event → Bool
  | .generateDataPacket _ => true
  | _ => false

/-- The event is a run of `SOL_upload`. -/
def Event.isUpload : Event → Bool
  | .upload => true
  | _ => false

/-- The event is a call of `SOL_uploadDataPacket`. -/
def Event.isUploadDataPacket : Event → Bool
  | .uploadDataPacket _ => true
  | _ => false

/-- The events of one wake cycle: what `SOL_task` adds to the trace. -/
def cycleEvents (st : State) (inp : Inputs) : List Event :=
  (SOL_task st inp).trace.drop st.trace.length

/-- The events of `SOL_set_time_from_ntp` run on the EEPROM `e`: the
connection is attempted when `SOL_hasWiFiCredentials` returns 1. -/
def ntpEvents (inp : Inputs) (e : Store) : List Event :=
  Event.set_time_from_ntp ::
    (if SOL_readEEPROMByte e EEPROM_ADDRESS_WIFI_CREDENTIALS_AVAILABLE = 1
      then [Event.connectToWiFi inp.ntpConnect] else [])

/-- The record that a timer wake in state `st` builds. -/
def taskPacket (st : State) (inp : Inputs) : data_packet_t :=
  generatedPacket inp st.lastNTPTime ((st.sleepCount + 1) % 4294967296) st.device_ID

/-- A device that has just been provisioned with ("MyNet", "secret123"). -/
def provisionedState : State :=
  SOL_task erasedState (touchWake (bytes "MyNet") (bytes "secret123"))

/-- A timer wake in which every connection attempt succeeds and the network
time is 1700000000. -/
def timerWakeOnline : Inputs :=
  { timerWake with connect := true, ntpConnect := true, ntpNow := some 1700000000 }

/-- A device after three timer wakes without connection since provisioning. -/
def threeSampled : State := runCycles provisionedState [timerWake, timerWake, timerWake]

/-- A device after a threshold cycle whose connection attempt failed. -/
def afterFailedThreshold : State := SOL_task threeSampled timerWake

/-- A timer wake in which the connection attempt of `SOL_task` succeeds and
the one of `SOL_set_time_from_ntp` fails. -/
def timerWakeNoNtp : Inputs :=
  { timerWake with connect := true }


end V2

/-! ## Provisioning of the first generation (`SOL.cpp`) -/

namespace V1

/-- The variables of the capture of one client connection in
`SOL_startProvisioning`. `stopped` records that the per-character loop was left
through `break`. -/
structure Capture where
  current_line : List Nat
  net_ssid : List Nat
  net_pswd : List Nat
  ssid_state : Nat
  pswd_state : Nat
  stopped : Bool
deriving DecidableEq, Repr

/-- The EEPROM, the flag `finished` and the capture while a client is served. -/
structure Client where
  eeprom : Store
  finished : Nat
  cap : Capture

/-- The test `current_line.endsWith(text)`. -/
def endsWith (line : List Nat) (text : String) : Bool :=
  (bytes text).isSuffixOf line

/-- Lines 336-344 of `SOL.cpp`: a line feed clears `current_line`, a carriage
return is dropped, any other character is added to the line. -/
def readLine (c : Nat) (st : Capture) : Capture :=
  if c = 10 then { st with current_line := [] }
  else if c ≠ 13 then { st with current_line := st.current_line ++ [c] }
  else st

/-- Lines 346-357 of `SOL.cpp`, "SSID assembly". -/
def assembleSsid (c : Nat) (st : Capture) : Capture :=
  let st := if st.ssid_state = 1 ∧ endsWith st.current_line "&" then
    { st with ssid_state := 2 } else st
  let st := if st.ssid_state = 1 then { st with net_ssid := st.net_ssid ++ [c] } else st
  let st := if endsWith st.current_line "SSID=" then { st with ssid_state := 1 } else st
  st

/-- Lines 359-370 of `SOL.cpp`, "PASSWORD assembly". -/
def assemblePswd (c : Nat) (st : Capture) : Capture :=
  let st := if st.pswd_state = 1 ∧ endsWith st.current_line "&" then
    { st with pswd_state := 2 } else st
  let st := if st.pswd_state = 1 then { st with net_pswd := st.net_pswd ++ [c] } else st
  let st := if endsWith st.current_line "PASSWORD=" then { st with pswd_state := 1 } else st
  st

/-- Lines 311-370 of `SOL.cpp`: what one received character `c` does to the
line buffer and to the two captures. A line feed on an empty line ends the
request: the form is sent and the loop is left through `break`. -/
def captureChar (c : Nat) (st : Capture) : Capture :=
  if c = 10 ∧ st.current_line.length = 0 then { st with stopped := true }
  else assemblePswd c (assembleSsid c (readLine c st))

/-- Lines 311-414 of `SOL.cpp`: the body of the per-character loop for one
received character; the credentials are persisted when both captures are
terminated. -/
def clientChar (L : Layout) (c : Nat) (st : Client) : Client :=
  let cap := captureChar c st.cap
  if !cap.stopped ∧ cap.pswd_state = 2 ∧ cap.ssid_state = 2 then
    { eeprom := persistCredentials L st.eeprom cap.net_ssid cap.net_pswd
      finished := 1
      cap := cap }
  else { st with cap := cap }

/-- The per-character loop `while (client.connected() && ... && !finished)`
over the characters the client delivers before it disconnects or the
provisioning time is over. -/
def clientLoop (L : Layout) : List Nat → Client → Client
  | [], st => st
  | c :: cs, st =>
    if st.finished ≠ 0 ∨ st.cap.stopped then st
    else clientLoop L cs (clientChar L c st)

/-- The capture variables when the per-character loop starts on a new client. -/
def freshCapture : Capture where
  current_line := []
  net_ssid := []
  net_pswd := []
  ssid_state := 0
  pswd_state := 0
  stopped := false

/-- What `SOL_startProvisioning` leaves behind: the EEPROM, `finished`, and the
strings `net_ssid` and `net_pswd`. -/
structure Provisioned where
  eeprom : Store
  finished : Nat
  net_ssid : List Nat
  net_pswd : List Nat

/-- One turn of the outer loop `while (... && !finished)` that gets a client. -/
def serveClient (L : Layout) (p : Provisioned) (stream : List Nat) : Provisioned :=
  if p.finished ≠ 0 then p
  else
    let st := clientLoop L stream { eeprom := p.eeprom, finished := p.finished, cap := freshCapture }
    { eeprom := st.eeprom, finished := st.finished, net_ssid := st.cap.net_ssid,
      net_pswd := st.cap.net_pswd }

/-- Function `void SOL_startProvisioning(void)` of `SOL.cpp`, run against the clients
that connect before `PROVISION_TIMEOUT`, each given by the characters it
delivers. -/
def SOL_startProvisioning (L : Layout) (eeprom : Store) (clients : List (List Nat)) : Provisioned :=
  clients.foldl (serveClient L) { eeprom := eeprom, finished := 0, net_ssid := [], net_pswd := [] }

/-- The byte stream "SSID=" ++ ssid ++ "&PASSWORD=" ++ pswd ++ "&" of a client
that submits the form. -/
def request (ssid pswd : List Nat) : List Nat :=
  bytes "SSID=" ++ ssid ++ bytes "&PASSWORD=" ++ pswd ++ bytes "&"

/-- The capture while the SSID is read: the line is "SSID=" and the part `s1`
of the SSID read so far. -/
def capB (s1 : List Nat) : Capture := ⟨bytes "SSID=" ++ s1, s1, [], 1, 0, false⟩

/-- The capture between the SSID and the password: the SSID `s` is terminated
and `w` is what was read after its "&". -/
def capC (s w : List Nat) : Capture := ⟨bytes "SSID=" ++ (s ++ (38 :: w)), s, [], 2, 0, false⟩

/-- The capture while the password is read. -/
def capD (s p1 : List Nat) : Capture :=
  ⟨bytes "SSID=" ++ (s ++ (38 :: (bytes "PASSWORD=" ++ p1))), s, p1, 2, 1, false⟩

/-- The capture when both the SSID and the password are terminated. -/
def capE (s p : List Nat) : Capture :=
  ⟨bytes "SSID=" ++ (s ++ (38 :: (bytes "PASSWORD=" ++ (p ++ [38])))), s, p, 2, 2, false⟩

/-- Four clients none of which completes a capture: a plain page request, one
stream without "PASSWORD=", one without "SSID=", and one whose password is not
terminated. -/
def incompleteRequests : List (List Nat) :=
  [bytes "GET / HTTP/1.1\r\n\r\n", bytes "SSID=MyNet&", bytes "PASSWORD=secret123&",
    bytes "SSID=MyNet&PASSWORD=secret123"]

/-- A stream as the line buffer sees it: carriage returns are left out. -/
def withoutCR (stream : List Nat) : List Nat := stream.filter fun c => decide (c ≠ 13)

/-- The capture variables after the characters `received`, the persistence
step left aside. -/
def captured (received : List Nat) : Capture :=
  received.foldl (fun st c => captureChar c st) freshCapture

/-- The captures are both terminated at some point of the stream: after one
of its characters, inside the loop, `ssid_state` and `pswd_state` are both 2. -/
def bothTerminated (stream : List Nat) : Bool :=
  stream.inits.any fun received =>
    !(captured received).stopped && (captured received).ssid_state == 2
      && (captured received).pswd_state == 2

/-- The stream, carriage returns left out, holds the token `tok` with an "&"
somewhere after it. -/
def ampAfter (tok : String) (stream : List Nat) : Bool :=
  (withoutCR stream).tails.any fun t =>
    (bytes tok).isPrefixOf t && (t.drop (bytes tok).length).contains 38

/-- A client stream in which a carriage return stands inside each of the two
tokens: as received it holds neither "SSID=" nor "PASSWORD=". -/
def splitTokenRequest : List Nat := bytes "SS\rID=MyNet&PASS\rWORD=secret123&"


/-! ## The wake cycle of the first generation (`SOL.cpp`) -/

/-- The constants of `SOL.h` that the wake cycle of `SOL.cpp` uses. The header
is not among the sources, so they are parameters. -/
structure Config where
  layout : Layout
  EEPROM_ADDRESS_LAST_STORAGE_ADDRESS : Nat
  EEPROM_ADDRESS_DATA_RANGE_START_ADDRESS : Nat
  EEPROM_ADDRESS_DATA_RANGE_END_ADDRESS : Nat
  sizeof_data_packet_t : Nat
  SENSE_COUNT_TO_SEND : Nat
  SLEEP_TIME_SECONDS : Nat
deriving DecidableEq, Repr

/-- What a wake cycle of the first generation does that is visible outside the
EEPROM, in order. A record is given by its memory image; `uploadDataPacket`
carries the image read from the EEPROM, the identity put into its `ID` member
and whether the server was reached. -/
inductive Event where
  | startProvisioning
  | generateDataPacket (data : List Nat)
  | connectToWiFi (connected : Bool)
  | upload
  | uploadDataPacket (data : List Nat) (ID : Nat) (delivered : Bool)
  | deepsleep (len : Nat)
deriving DecidableEq, Repr

/-- The EEPROM, the static variables of `SOL.cpp` and the events so far. -/
structure State where
  eeprom : Store
  touched : Nat
  cred : Credentials
  device_ID : Nat
  trace : List Event

/-- What one wake cycle of the first generation receives from outside. -/
structure Inputs where
  /-- The clients that connect while `SOL_startProvisioning` listens. -/
  clients : List (List Nat)
  /-- The memory image of the record that the sweep of
  `SOL_generateDataPacket` produces. -/
  data : List Nat
  /-- The result of `SOL_connectToWiFi(10)`. -/
  connect : Bool
  /-- Whether the call number `i` of `SOL_uploadDataPacket` in `SOL_upload`
  reaches the server. -/
  delivered : Nat → Bool

/-- The persisted cursor of the first generation:
`SOL_readEEPROMNByte(EEPROM_ADDRESS_LAST_STORAGE_ADDRESS,
(uint8_t *)&last_storage_address, 2)`. -/
def readLastStorageAddress (cfg : Config) (s : Store) : Nat :=
  u16OfBytes (SOL_readEEPROMNByte s cfg.EEPROM_ADDRESS_LAST_STORAGE_ADDRESS 2)

/-- The address at which the storage step of `SOL_generateDataPacket` writes
(`SOL.cpp` lines 589-598): the cursor advanced by one record size in 16 bits,
or the start of the range when that address plus one record size reaches the
end address. -/
def newStorageAddress (cfg : Config) (s : Store) : Nat :=
  let new_storage_address := readLastStorageAddress cfg s
  let new_storage_address := (new_storage_address + cfg.sizeof_data_packet_t) % 65536
  if new_storage_address + cfg.sizeof_data_packet_t ≥ cfg.EEPROM_ADDRESS_DATA_RANGE_END_ADDRESS
  then cfg.EEPROM_ADDRESS_DATA_RANGE_START_ADDRESS % 65536
  else new_storage_address

/-- The storage step of `SOL_generateDataPacket` (`SOL.cpp` lines 588-607). -/
def storeDataPacket (cfg : Config) (s : Store) (data : List Nat) : Store :=
  let new_storage_address := newStorageAddress cfg s
  let s := SOL_writeEEPROMNByte s new_storage_address data (cfg.sizeof_data_packet_t % 65536)
  SOL_writeEEPROMNByte s cfg.EEPROM_ADDRESS_LAST_STORAGE_ADDRESS
    (bytesOfU16 new_storage_address) 2

/-- The count `uint16_t datapoints = (last_storage_address -
EEPROM_ADDRESS_DATA_RANGE_START_ADDRESS) / sizeof(data_packet_t)` of `SOL_task`
in `SOL.cpp`: an `int` difference converted to the 32-bit unsigned type of
`sizeof`, divided, and narrowed to 16 bits. -/
def datapoints (cfg : Config) (s : Store) : Nat :=
  ((readLastStorageAddress cfg s + 4294967296 - cfg.EEPROM_ADDRESS_DATA_RANGE_START_ADDRESS)
      % 4294967296 / cfg.sizeof_data_packet_t) % 65536

/-- Function `data_packet_t SOL_getDataPacket(uint16_t start_address)` of
`SOL.cpp`: the memory image read. -/
def SOL_getDataPacket (cfg : Config) (s : Store) (start_address : Nat) : List Nat :=
  SOL_readEEPROMNByte s start_address (cfg.sizeof_data_packet_t % 65536)

/-- The loop `for (uint16_t dp = first_storage_address; dp <=
last_storage_address+1; dp += sizeof(data_packet_t))` of `SOL_upload` in
`SOL.cpp`, collecting the images `SOL_getDataPacket(dp-1)`; `none` when `fuel`
iterations do not reach the exit. -/
def uploadLoop (cfg : Config) (s : Store) (last_storage_address : Nat) :
    Nat → Nat → Option (List (List Nat))
  | 0, _ => none
  | fuel + 1, dp =>
    if dp ≤ last_storage_address + 1 then
      (uploadLoop cfg s last_storage_address fuel
          ((dp + cfg.sizeof_data_packet_t) % 65536)).map
        (SOL_getDataPacket cfg s ((dp + 65535) % 65536) :: ·)
    else some []

/-- The images that `SOL_upload` of `SOL.cpp` reads, in order. The 16-bit loop
counter is periodic, so a loop that has not ended after 65536 iterations never
ends; the result is then `none`. -/
def pendingImages (cfg : Config) (s : Store) : Option (List (List Nat)) :=
  uploadLoop cfg s (readLastStorageAddress cfg s) 65537
    ((cfg.EEPROM_ADDRESS_DATA_RANGE_START_ADDRESS + cfg.sizeof_data_packet_t) % 65536)

/-- The cursor reset of `SOL_upload` in `SOL.cpp`: `uint16_t last_storage =
EEPROM_ADDRESS_DATA_RANGE_START_ADDRESS-1`, written to the cursor field. -/
def resetLastStorageAddress (cfg : Config) (s : Store) : Store :=
  SOL_writeEEPROMNByte s cfg.EEPROM_ADDRESS_LAST_STORAGE_ADDRESS
    (bytesOfU16 ((cfg.EEPROM_ADDRESS_DATA_RANGE_START_ADDRESS + 65535) % 65536)) 2

/-- The calls of `SOL_uploadDataPacket` that `SOL_upload` makes for the images
read: each with `data.ID = device_ID`, the call number `i` reaching the server
or not as `delivered i` says. -/
def uploadEvents (device_ID : Nat) (delivered : Nat → Bool) (images : List (List Nat)) :
    List Event :=
  (List.range images.length).map fun i =>
    Event.uploadDataPacket (images.getD i []) device_ID (delivered i)

/-- Function `void SOL_upload(void)` of `SOL.cpp`: every image is handed to
`SOL_uploadDataPacket`, which returns nothing, then the cursor is reset;
`none` when the loop does not end. -/
def SOL_upload (cfg : Config) (inp : Inputs) (st : State) : Option State :=
  (pendingImages cfg st.eeprom).map fun images =>
    { st with
      eeprom := resetLastStorageAddress cfg st.eeprom
      trace := st.trace ++ Event.upload :: uploadEvents st.device_ID inp.delivered images }

/-- The call of `SOL_startProvisioning` in `SOL_task` of `SOL.cpp`. -/
def provision (cfg : Config) (inp : Inputs) (st : State) : State :=
  { st with
    eeprom := (SOL_startProvisioning cfg.layout st.eeprom inp.clients).eeprom
    trace := st.trace ++ [Event.startProvisioning] }

/-- Function `void SOL_generateDataPacket(void)` of `SOL.cpp`: the record of
the sweep is stored. -/
def SOL_generateDataPacket (cfg : Config) (inp : Inputs) (st : State) : State :=
  { st with
    eeprom := storeDataPacket cfg st.eeprom inp.data
    trace := st.trace ++ [Event.generateDataPacket inp.data] }

/-- Function `void SOL_deepsleep(int len)` of `SOL.cpp`. -/
def SOL_deepsleep (len : Nat) (st : State) : State :=
  { st with trace := st.trace ++ [Event.deepsleep len] }

/-- The part of `SOL_task` of `SOL.cpp` that follows the provisioning (lines
110-138): sampling and upload when credentials are available. -/
def senseAndUpload (cfg : Config) (inp : Inputs) (st : State) : Option State :=
  let r := SOL_hasWiFiCredentials cfg.layout st.eeprom st.cred
  let st := { st with cred := r.2 }
  if r.1 ≠ 0 then
    let st := SOL_generateDataPacket cfg inp st
    if datapoints cfg st.eeprom ≥ cfg.SENSE_COUNT_TO_SEND then
      let st := { st with trace := st.trace ++ [Event.connectToWiFi inp.connect] }
      if inp.connect then SOL_upload cfg inp st else some st
    else some st
  else some st

/-- Function `void SOL_task()` of `SOL.cpp`: one complete wake cycle; `none`
when the loop of `SOL_upload` does not end. The test of `touched` is followed
by the test of `SOL_hasWiFiCredentials` without an `else`. -/
def SOL_task (cfg : Config) (st : State) (inp : Inputs) : Option State :=
  let st := if st.touched = 1 then { provision cfg inp st with touched := 0 } else st
  (senseAndUpload cfg inp st).map (SOL_deepsleep cfg.SLEEP_TIME_SECONDS)

/-- An example of values for the constants of `SOL.h`: the addresses that
`SOL_V2.h` gives to the same fields, and a record of six 4-byte members, the
ones that `SOL_generateDataPacket` of `SOL.cpp` assigns. -/
def exampleConfig : Config where
  layout := V2.layout
  EEPROM_ADDRESS_LAST_STORAGE_ADDRESS := 0x006D
  EEPROM_ADDRESS_DATA_RANGE_START_ADDRESS := 0x006F
  EEPROM_ADDRESS_DATA_RANGE_END_ADDRESS := 0x0FA0
  sizeof_data_packet_t := 24
  SENSE_COUNT_TO_SEND := 4
  SLEEP_TIME_SECONDS := 30

/-- A record image of 24 bytes. -/
def exampleImage (b : Nat) : List Nat := List.replicate 24 b

/-- A touched device without credentials whose log is empty: an erased
EEPROM after the cursor reset. -/
def touchedState : State where
  eeprom := resetLastStorageAddress exampleConfig V2.erased
  touched := 1
  cred := noCredentials
  device_ID := 7
  trace := []

/-- A cycle in which one client submits the form with ("MyNet", "secret123")
and no connection succeeds. -/
def formSubmitted : Inputs where
  clients := [bytes "SSID=MyNet&PASSWORD=secret123&"]
  data := exampleImage 1
  connect := false
  delivered := fun _ => false

/-- A log of the first generation that holds two records appended after a
cursor reset. -/
def twoPending : State where
  eeprom := storeDataPacket exampleConfig
    (storeDataPacket exampleConfig (resetLastStorageAddress exampleConfig V2.erased)
      (exampleImage 1)) (exampleImage 2)
  touched := 0
  cred := noCredentials
  device_ID := 7
  trace := []

/-- An upload in which the network is joined and no call of
`SOL_uploadDataPacket` reaches the server. -/
def serverUnreachable : Inputs where
  clients := []
  data := exampleImage 3
  connect := true
  delivered := fun _ => false

/-- The store after the storage step of `SOL_generateDataPacket` of `SOL.cpp`
has run once for each record image, in order. -/
def appendAll (cfg : Config) (s : Store) (images : List (List Nat)) : Store :=
  images.foldl (storeDataPacket cfg) s

end V1

/-! ## Real-time clock MCP7940 (`mcp7940_sol.cpp`) -/

namespace MCP7940

/-- The seven bytes `raw_data[0..6]` that `setRTCTime` sends to the registers
starting at `MCP7940_SECONDS`. The arguments are `uint8_t`, `year` is
`uint16_t`; the arithmetic is `int` and each result is stored in a `uint8_t`. -/
def setRTCTime (seconds minutes hour date month year : Nat) : List Nat :=
  let seconds := seconds % 256
  let minutes := minutes % 256
  let hour := hour % 256
  let date := date % 256
  let month := month % 256
  let year := year % 65536
  let ten_seconds := seconds / 10
  let raw_data0 := (((ten_seconds &&& 0xF) <<< 4) + ((seconds - 10 * ten_seconds) &&& 0xF)) % 256
  let raw_data0 := raw_data0 ||| (1 <<< 7)
  let ten_minutes := minutes / 10
  let raw_data1 := (((ten_minutes &&& 0xF) <<< 4) + ((minutes - 10 * ten_minutes) &&& 0xF)) % 256
  let ten_hour := hour / 10
  let raw_data2 := (((ten_hour &&& 0x1) <<< 4) + ((hour - 10 * ten_hour) &&& 0xF)) % 256
  let raw_data3 := 0
  let ten_date := date / 10
  let raw_data4 := (((ten_date &&& 0x3) <<< 4) + ((date - 10 * ten_date) &&& 0xF)) % 256
  let ten_month := month / 10
  let raw_data5 := (((ten_month &&& 0x1) <<< 4) + ((month - 10 * ten_month) &&& 0xF)) % 256
  let ten_year := (year / 10) % 256
  let raw_data6 := (((ten_year &&& 0xF) <<< 4) + ((year - 10 * ten_year) &&& 0xF)) % 256
  [raw_data0, raw_data1, raw_data2, raw_data3, raw_data4, raw_data5, raw_data6]

/-- The local variables of `getRTCTime` after `// Parse raw data`. -/
structure ParsedTime where
  seconds : Nat
  minutes : Nat
  hour : Nat
  date : Nat
  month : Nat
  year : Nat
deriving DecidableEq, Repr

/-- The parsing step of `getRTCTime` (lines 113-118) on the seven bytes read
from the registers. -/
def parseRawData (raw_data : List Nat) : ParsedTime where
  seconds := (raw_data.getD 0 0 &&& 0xF) + 10 * ((raw_data.getD 0 0 &&& 0x70) >>> 4)
  minutes := (raw_data.getD 1 0 &&& 0xF) + 10 * ((raw_data.getD 1 0 &&& 0x70) >>> 4)
  hour := (raw_data.getD 2 0 &&& 0xF) + 10 * ((raw_data.getD 2 0 &&& 0x10) >>> 4)
  date := (raw_data.getD 4 0 &&& 0xF) + 10 * ((raw_data.getD 4 0 &&& 0x30) >>> 4)
  month := (raw_data.getD 5 0 &&& 0xF) + 10 * ((raw_data.getD 5 0 &&& 0x10) >>> 4)
  year := (raw_data.getD 6 0 &&& 0xF) + 10 * ((raw_data.getD 6 0 &&& 0xF0) >>> 4)

/-- Function `uint32_t getRTCTime(void)` on the seven bytes read from the
registers: the returned `current_time`, in `uint32_t` arithmetic. -/
def getRTCTime (raw_data : List Nat) : Nat :=
  let t := parseRawData raw_data
  let current_time := t.seconds
  let current_time := (current_time + t.minutes * 60) % 4294967296
  let current_time := (current_time + t.hour * 3600) % 4294967296
  let current_time := (current_time + t.date * 86400) % 4294967296
  let current_time := (current_time + t.month * 2592000) % 4294967296
  (current_time + t.year * 31104000) % 4294967296

end MCP7940

/-! # Theorems -/

/-! ## Byte store -/

theorem read_write_same (s : Store) (address data : Nat) :
    SOL_readEEPROMByte (SOL_writeEEPROMByte s address data) address = data % 256 := by
  simp [SOL_readEEPROMByte, SOL_writeEEPROMByte]

theorem write_other (s : Store) (address data a : Nat) (h : a ≠ address % 65536) :
    SOL_writeEEPROMByte s address data a = s a := by
  simp [SOL_writeEEPROMByte, h]

theorem applyWrites_append (s : Store) (ws vs : List (Nat × Nat)) :
    applyWrites s (ws ++ vs) = applyWrites (applyWrites s ws) vs := by
  simp [applyWrites, List.foldl_append]

theorem applyWrites_frame (ws : List (Nat × Nat)) (s : Store) (a : Nat)
    (h : ∀ w ∈ ws, a ≠ w.1 % 65536) : applyWrites s ws a = s a := by
  induction ws generalizing s with
  | nil => rfl
  | cons w ws ih =>
    have h1 : a ≠ w.1 % 65536 := h w (List.mem_cons_self _ _)
    have h2 : ∀ v ∈ ws, a ≠ v.1 % 65536 := fun v hv => h v (List.mem_cons_of_mem _ hv)
    show applyWrites (SOL_writeEEPROMByte s w.1 w.2) ws a = s a
    rw [ih _ h2, write_other _ _ _ _ h1]

theorem writeN_succ (s : Store) (address : Nat) (data : List Nat) (n : Nat) :
    SOL_writeEEPROMNByte s address data (n + 1)
      = SOL_writeEEPROMByte (SOL_writeEEPROMNByte s address data n) (address + n)
          (data.getD n 0) := by
  simp [SOL_writeEEPROMNByte, writesNByte, List.range_succ, applyWrites, List.foldl_append]

theorem writeN_frame (s : Store) (address : Nat) (data : List Nat) (n a : Nat)
    (h : ∀ i, i < n → a ≠ (address + i) % 65536) :
    SOL_writeEEPROMNByte s address data n a = s a := by
  induction n with
  | zero => rfl
  | succ n ih =>
    rw [writeN_succ, write_other _ _ _ _ (h n (Nat.lt_succ_self n))]
    exact ih fun i hi => h i (Nat.lt_succ_of_lt hi)

theorem writeN_hit (s : Store) (address : Nat) (data : List Nat) (n i : Nat)
    (hn : n ≤ 65536) (hi : i < n) :
    SOL_writeEEPROMNByte s address data n ((address + i) % 65536) = data.getD i 0 % 256 := by
  induction n with
  | zero => omega
  | succ n ih =>
    rw [writeN_succ]
    by_cases hin : i = n
    · subst hin
      simp [SOL_writeEEPROMByte]
    · rw [write_other _ _ _ _ (by omega)]
      exact ih (by omega) (by omega)

theorem readN_length (s : Store) (address size : Nat) :
    (SOL_readEEPROMNByte s address size).length = size := by
  simp [SOL_readEEPROMNByte]

theorem readN_getD (s : Store) (address size i : Nat) (hi : i < size) :
    (SOL_readEEPROMNByte s address size).getD i 0 = SOL_readEEPROMByte s (address + i) := by
  simp [SOL_readEEPROMNByte, List.getD_eq_getElem?_getD, hi]

theorem hasWiFiCredentials_fst (L : Layout) (s : Store) (g : Credentials) :
    (SOL_hasWiFiCredentials L s g).1
      = if SOL_readEEPROMByte s L.EEPROM_ADDRESS_WIFI_CREDENTIALS_AVAILABLE = 1 then 1 else 0 := by
  unfold SOL_hasWiFiCredentials
  by_cases h : SOL_readEEPROMByte s L.EEPROM_ADDRESS_WIFI_CREDENTIALS_AVAILABLE = 1
  · simp [h]
  · simp [h]

/-! ## Circular log of SOL_V2 -/

namespace V2

theorem readNext_eq (s : Store) :
    readNextStorageAddress s = s 109 % 256 + 256 * (s 110 % 256) := by
  simp [readNextStorageAddress, u16OfBytes, SOL_readEEPROMNByte, SOL_readEEPROMByte,
    EEPROM_ADDRESS_NEXT_STORAGE_ADDRESS, List.range_succ]

theorem readNext_lt (s : Store) : readNextStorageAddress s < 65536 := by
  rw [readNext_eq]; omega

theorem writeCursor_apply (s : Store) (v a : Nat) :
    SOL_writeEEPROMNByte s EEPROM_ADDRESS_NEXT_STORAGE_ADDRESS (bytesOfU16 v) 2 a
      = if a = 110 then v / 256 % 256 else if a = 109 then v % 256 else s a := by
  simp [SOL_writeEEPROMNByte, writesNByte, applyWrites, SOL_writeEEPROMByte, bytesOfU16,
    EEPROM_ADDRESS_NEXT_STORAGE_ADDRESS, List.range_succ]

theorem readNext_writeCursor (s : Store) (v : Nat) (hv : v < 65536) :
    readNextStorageAddress
      (SOL_writeEEPROMNByte s EEPROM_ADDRESS_NEXT_STORAGE_ADDRESS (bytesOfU16 v) 2) = v := by
  rw [readNext_eq, writeCursor_apply, writeCursor_apply]
  simp
  omega

theorem writeAddress_bound (s : Store) : writeAddress s + 28 < 4000 := by
  unfold writeAddress
  simp only [sizeof_data_packet_t, EEPROM_ADDRESS_DATA_RANGE_END_ADDRESS,
    EEPROM_ADDRESS_DATA_RANGE_START_ADDRESS]
  split <;> omega

theorem writeAddress_of_room (s : Store) (h : readNextStorageAddress s + 28 < 4000) :
    writeAddress s = readNextStorageAddress s := by
  unfold writeAddress
  simp only [sizeof_data_packet_t, EEPROM_ADDRESS_DATA_RANGE_END_ADDRESS,
    EEPROM_ADDRESS_DATA_RANGE_START_ADDRESS]
  rw [if_neg (by omega)]

theorem writeAddress_of_full (s : Store) (h : 4000 ≤ readNextStorageAddress s + 28) :
    writeAddress s = 111 := by
  unfold writeAddress
  simp only [sizeof_data_packet_t, EEPROM_ADDRESS_DATA_RANGE_END_ADDRESS,
    EEPROM_ADDRESS_DATA_RANGE_START_ADDRESS]
  rw [if_pos (by omega)]

/-- After the storage step the persisted cursor is the write address plus one
record size. -/
theorem readNext_storeDataPacket (s : Store) (data : data_packet_t) :
    readNextStorageAddress (storeDataPacket s data) = writeAddress s + 28 := by
  have h := writeAddress_bound s
  unfold storeDataPacket
  simp only [sizeof_data_packet_t]
  rw [readNext_writeCursor _ _ (Nat.mod_lt _ (by norm_num))]
  omega

/-- The storage step leaves every byte outside the record slot and the cursor
field as it was. -/
theorem storeDataPacket_frame (s : Store) (data : data_packet_t) (a : Nat)
    (h1 : a < writeAddress s ∨ writeAddress s + 28 ≤ a) (h2 : a ≠ 109) (h3 : a ≠ 110) :
    storeDataPacket s data a = s a := by
  have h := writeAddress_bound s
  unfold storeDataPacket
  simp only [sizeof_data_packet_t]
  rw [writeCursor_apply, if_neg h3, if_neg h2]
  apply writeN_frame
  intro i hi
  omega

/-- The storage step puts the memory image of the record into its slot. -/
theorem storeDataPacket_slot (s : Store) (data : data_packet_t) (i : Nat) (hi : i < 28)
    (hw : 111 ≤ writeAddress s) :
    storeDataPacket s data (writeAddress s + i) = data.toBytes.getD i 0 % 256 := by
  have h := writeAddress_bound s
  unfold storeDataPacket
  simp only [sizeof_data_packet_t]
  rw [writeCursor_apply, if_neg (by omega), if_neg (by omega)]
  have := writeN_hit s (writeAddress s) data.toBytes 28 i (by norm_num) hi
  rwa [Nat.mod_eq_of_lt (by omega)] at this

theorem toBytes_length (d : data_packet_t) : d.toBytes.length = 28 := by
  simp [data_packet_t.toBytes, bytesOfU32]

theorem toBytes_lt (d : data_packet_t) (i : Nat) : d.toBytes.getD i 0 < 256 := by
  by_cases hi : i < 28
  · simp only [data_packet_t.toBytes, bytesOfU32, List.cons_append, List.nil_append]
    interval_cases i <;> simp <;> omega
  · rw [List.getD_eq_default _ _ (by rw [toBytes_length]; omega)]
    norm_num

theorem bytesOfU32_mod (v : Nat) : bytesOfU32 (v % 4294967296) = bytesOfU32 v := by
  simp only [bytesOfU32, List.cons.injEq, and_true]
  refine ⟨?_, ?_, ?_, ?_⟩ <;> omega

/-- Reading a record back from its memory image gives the same image. -/
theorem toBytes_ofBytes (d : data_packet_t) :
    (data_packet_t.ofBytes d.toBytes).toBytes = d.toBytes := by
  have e : ∀ a b c d e f g : Nat,
      data_packet_t.ofBytes (data_packet_t.toBytes ⟨a, b, c, d, e, f, g⟩)
        = ⟨a % 4294967296, b % 4294967296, c % 4294967296, d % 4294967296,
            e % 4294967296, f % 4294967296, g % 4294967296⟩ := by
    intro a b c d e f g
    simp only [data_packet_t.ofBytes, data_packet_t.toBytes, bytesOfU32, u32OfBytes,
      List.cons_append, List.nil_append, List.getD_cons_zero, List.getD_cons_succ,
      data_packet_t.mk.injEq]
    refine ⟨?_, ?_, ?_, ?_, ?_, ?_, ?_⟩ <;> omega
  obtain ⟨a, b, c, d', e', f, g⟩ := d
  rw [e]
  simp only [data_packet_t.toBytes, bytesOfU32_mod]

/-- A slot that holds the memory image of a record reads back as that record. -/
theorem getDataPacket_of_slot (s : Store) (d : data_packet_t) (address : Nat)
    (ha : address + 28 ≤ 65536)
    (h : ∀ j, j < 28 → s (address + j) = d.toBytes.getD j 0) :
    (SOL_getDataPacket s address).toBytes = d.toBytes := by
  have hr : SOL_readEEPROMNByte s address 28 = d.toBytes := by
    apply List.ext_getElem
    · rw [readN_length, toBytes_length]
    · intro j h1 h2
      have h1' : j < 28 := by rwa [readN_length] at h1
      have e1 := readN_getD s address 28 j h1'
      have e2 := h j h1'
      have e3 := toBytes_lt d j
      rw [List.getD_eq_getElem _ 0 h1] at e1
      rw [List.getD_eq_getElem _ 0 h2] at e2 e3
      have e4 : (address + j) % 65536 = address + j := Nat.mod_eq_of_lt (by omega)
      rw [e1, SOL_readEEPROMByte, e4, e2, Nat.mod_eq_of_lt e3]
  unfold SOL_getDataPacket
  simp only [sizeof_data_packet_t]
  rw [hr, toBytes_ofBytes]

theorem appendAll_snoc (s : Store) (rs : List data_packet_t) (r : data_packet_t) :
    appendAll s (rs ++ [r]) = storeDataPacket (appendAll s rs) r := by
  simp [appendAll, List.foldl_append]

/-- While the log does not wrap, the cursor counts the appended records and
every slot below it holds the image of the record appended there. -/
theorem appendAll_spec (s : Store) (hs : readNextStorageAddress s = 111)
    (rs : List data_packet_t) (hn : rs.length ≤ 138) :
    readNextStorageAddress (appendAll s rs) = 111 + 28 * rs.length ∧
      ∀ i (hi : i < rs.length) j, j < 28 →
        appendAll s rs (111 + 28 * i + j) = rs[i].toBytes.getD j 0 := by
  induction rs using List.reverseRecOn with
  | nil => exact ⟨hs, fun i hi => absurd hi (Nat.not_lt_zero _)⟩
  | append_singleton rs r ih =>
    rw [List.length_append, List.length_singleton] at hn
    obtain ⟨hc, hd⟩ := ih (by omega)
    have hw : writeAddress (appendAll s rs) = 111 + 28 * rs.length := by
      rw [writeAddress_of_room _ (by omega), hc]
    rw [appendAll_snoc]
    refine ⟨?_, ?_⟩
    · rw [readNext_storeDataPacket, hw, List.length_append, List.length_singleton]
      omega
    · intro i hi j hj
      rw [List.length_append, List.length_singleton] at hi
      by_cases hlast : i = rs.length
      · subst hlast
        have := storeDataPacket_slot (appendAll s rs) r j hj (by omega)
        rw [hw] at this
        rw [this, List.getElem_append_right (le_refl _)]
        simp only [Nat.sub_self, List.getElem_cons_zero]
        exact Nat.mod_eq_of_lt (toBytes_lt r j)
      · have hi' : i < rs.length := by omega
        rw [storeDataPacket_frame _ _ _ (by omega) (by omega) (by omega),
          List.getElem_append_left hi']
        exact hd i hi' j hj

/-- The read loop of `SOL_upload` against an aligned cursor returns the records
of the slots from its start position up to the cursor, with fuel to spare. -/
theorem readLoop_aligned (s : Store) (n : Nat) (hn : n ≤ 138) (fuel k : Nat) (hk : k ≤ n)
    (hf : n - k < fuel) :
    readLoop s (111 + 28 * n) fuel (111 + 28 * k)
      = some ((List.range' k (n - k)).map fun i => SOL_getDataPacket s (111 + 28 * i)) := by
  induction fuel generalizing k with
  | zero => omega
  | succ fuel ih =>
    unfold readLoop
    by_cases hlt : k < n
    · rw [if_pos (by omega)]
      have e : (111 + 28 * k + sizeof_data_packet_t) % 65536 = 111 + 28 * (k + 1) := by
        simp only [sizeof_data_packet_t]; omega
      rw [e, ih (k + 1) (by omega) (by omega)]
      have e2 : n - k = (n - (k + 1)) + 1 := by omega
      rw [e2, List.range'_succ]
      rfl
    · rw [if_neg (by omega)]
      have e2 : n - k = 0 := by omega
      rw [e2]
      rfl

/-- The read loop of `SOL_upload` always ends: whatever the cursor, a counter
that starts at 0x006F and steps by 28 modulo 65536 reaches 65535 after 16380
steps at the latest. -/
theorem readLoop_terminates (s : Store) (c : Nat) (hc : c < 65536) :
    ∀ fuel k, k ≤ 16380 → 16380 - k < fuel →
      (readLoop s c fuel ((111 + 28 * k) % 65536)).isSome = true := by
  intro fuel
  induction fuel with
  | zero => intro k _ h; omega
  | succ fuel ih =>
    intro k hk hf
    unfold readLoop
    by_cases hlt : (111 + 28 * k) % 65536 < c
    · rw [if_pos hlt, Option.isSome_map']
      have hk' : k ≠ 16380 := by
        rintro rfl
        norm_num at hlt
        omega
      have e : ((111 + 28 * k) % 65536 + sizeof_data_packet_t) % 65536
          = (111 + 28 * (k + 1)) % 65536 := by
        simp only [sizeof_data_packet_t]
        omega
      rw [e]
      exact ih (k + 1) (by omega) (by omega)
    · rw [if_neg hlt]
      rfl

theorem pendingRecords_isSome (s : Store) : (pendingRecords s).isSome = true :=
  readLoop_terminates s _ (readNext_lt s) 65536 0 (by omega) (by omega)

theorem datapoints_aligned (s : Store) (n : Nat) (hn : n ≤ 138)
    (h : readNextStorageAddress s = 111 + 28 * n) : datapoints s = n := by
  unfold datapoints
  simp only [h, EEPROM_ADDRESS_DATA_RANGE_START_ADDRESS, sizeof_data_packet_t]
  have e : (111 + 28 * n + 4294967296 - 111) % 4294967296 = 28 * n := by omega
  rw [e, Nat.mul_div_cancel_left n (by norm_num : 0 < 28)]
  omega

theorem pendingRecords_aligned (s : Store) (n : Nat) (hn : n ≤ 138)
    (h : readNextStorageAddress s = 111 + 28 * n) :
    pendingRecords s = some ((List.range n).map fun i => SOL_getDataPacket s (111 + 28 * i)) := by
  unfold pendingRecords
  have := readLoop_aligned s n hn 65536 0 (Nat.zero_le _) (by omega)
  simp only [Nat.mul_zero, Nat.add_zero, Nat.sub_zero] at this
  rw [h, EEPROM_ADDRESS_DATA_RANGE_START_ADDRESS, this, List.range_eq_range']

/-- C1: SOL_V2 circular log. From a store whose cursor is the start of the
record range, for every list of at most 138 records (the capacity
`(END - START) / sizeof(data_packet_t)`), after the storage step of
`SOL_generateDataPacket` has run once per record the datapoint count of
`SOL_task` equals the number of records, and the read loop of `SOL_upload`
terminates and returns those records, byte for byte, in the order of appending. -/
theorem log_roundtrip (s : Store) (records : List data_packet_t)
    (hs : readNextStorageAddress s = EEPROM_ADDRESS_DATA_RANGE_START_ADDRESS)
    (hn : records.length ≤
      (EEPROM_ADDRESS_DATA_RANGE_END_ADDRESS - EEPROM_ADDRESS_DATA_RANGE_START_ADDRESS)
        / sizeof_data_packet_t) :
    datapoints (appendAll s records) = records.length ∧
      (pendingRecords (appendAll s records)).map (List.map data_packet_t.toBytes)
        = some (records.map data_packet_t.toBytes) := by
  have hn' : records.length ≤ 138 := hn
  obtain ⟨hc, hd⟩ := appendAll_spec s hs records hn'
  refine ⟨datapoints_aligned _ _ hn' hc, ?_⟩
  rw [pendingRecords_aligned _ _ hn' hc, Option.map_some', List.map_map]
  congr 1
  apply List.ext_getElem
  · simp
  · intro i h1 h2
    have hi : i < records.length := by simpa using h2
    simp only [List.getElem_map, List.getElem_range, Function.comp_apply]
    exact getDataPacket_of_slot _ _ _ (by omega) (hd i hi)

theorem log_roundtrip_witness :
    datapoints (appendAll emptyLog twoRecords) = 2 ∧
      (pendingRecords (appendAll emptyLog twoRecords)).map
          (List.map data_packet_t.toBytes)
        = some (twoRecords.map data_packet_t.toBytes) :=
  log_roundtrip emptyLog twoRecords (by decide) (by decide)

/-- C2: SOL_V2 circular log wraparound. From a cursor at the start of the
range, once 138 records have been appended the next storage step writes at
`EEPROM_ADDRESS_DATA_RANGE_START_ADDRESS` (the cursor is wrapped before the
write): the first slot then holds the 139th record, the persisted cursor is
start + 28 and the datapoint count is 1. -/
theorem log_wraparound (s : Store) (records : List data_packet_t) (last : data_packet_t)
    (hs : readNextStorageAddress s = EEPROM_ADDRESS_DATA_RANGE_START_ADDRESS)
    (hn : records.length = 138) :
    readNextStorageAddress (appendAll s records) = 3975 ∧
      writeAddress (appendAll s records) = EEPROM_ADDRESS_DATA_RANGE_START_ADDRESS ∧
      (SOL_getDataPacket (appendAll s (records ++ [last]))
          EEPROM_ADDRESS_DATA_RANGE_START_ADDRESS).toBytes = last.toBytes ∧
      readNextStorageAddress (appendAll s (records ++ [last]))
        = EEPROM_ADDRESS_DATA_RANGE_START_ADDRESS + 28 ∧
      datapoints (appendAll s (records ++ [last])) = 1 := by
  obtain ⟨hc, -⟩ := appendAll_spec s hs records (by omega)
  have hw : writeAddress (appendAll s records) = 111 :=
    writeAddress_of_full _ (by omega)
  have hc' : readNextStorageAddress (appendAll s (records ++ [last])) = 111 + 28 * 1 := by
    rw [appendAll_snoc, readNext_storeDataPacket, hw]
  refine ⟨by omega, hw, ?_, hc', datapoints_aligned _ 1 (by omega) hc'⟩
  rw [appendAll_snoc]
  apply getDataPacket_of_slot _ _ _ (by decide)
  intro j hj
  have := storeDataPacket_slot (appendAll s records) last j hj (by omega)
  rw [hw] at this
  rw [EEPROM_ADDRESS_DATA_RANGE_START_ADDRESS, this]
  exact Nat.mod_eq_of_lt (toBytes_lt last j)

theorem log_wraparound_witness :
    readNextStorageAddress
        (appendAll emptyLog (List.replicate 138 ⟨0, 0, 0, 0, 0, 0, 0⟩)) = 3975 ∧
      writeAddress (appendAll emptyLog (List.replicate 138 ⟨0, 0, 0, 0, 0, 0, 0⟩))
        = EEPROM_ADDRESS_DATA_RANGE_START_ADDRESS ∧
      (SOL_getDataPacket
          (appendAll emptyLog
            (List.replicate 138 ⟨0, 0, 0, 0, 0, 0, 0⟩ ++ [⟨9, 8, 7, 6, 5, 4, 3⟩]))
          EEPROM_ADDRESS_DATA_RANGE_START_ADDRESS).toBytes
        = data_packet_t.toBytes ⟨9, 8, 7, 6, 5, 4, 3⟩ ∧
      readNextStorageAddress
          (appendAll emptyLog
            (List.replicate 138 ⟨0, 0, 0, 0, 0, 0, 0⟩ ++ [⟨9, 8, 7, 6, 5, 4, 3⟩]))
        = EEPROM_ADDRESS_DATA_RANGE_START_ADDRESS + 28 ∧
      datapoints
          (appendAll emptyLog
            (List.replicate 138 ⟨0, 0, 0, 0, 0, 0, 0⟩ ++ [⟨9, 8, 7, 6, 5, 4, 3⟩])) = 1 :=
  log_wraparound emptyLog (List.replicate 138 ⟨0, 0, 0, 0, 0, 0, 0⟩)
    ⟨9, 8, 7, 6, 5, 4, 3⟩ (by decide) (by simp)

/-- C4 as stated fails: from the aligned cursor 3947 the storage step leaves
the cursor at 3975; it is not wrapped to the start although no further record
fits below the end address, and 3975 + 28 exceeds the end address. -/
theorem append_cursor_counterexample :
    cursorAligned (readNextStorageAddress lastSlotStore) ∧
      readNextStorageAddress lastSlotStore = 3947 ∧
      readNextStorageAddress (storeDataPacket lastSlotStore ⟨0, 0, 0, 0, 0, 0, 0⟩)
        = 3975 ∧
      readNextStorageAddress (storeDataPacket lastSlotStore ⟨0, 0, 0, 0, 0, 0, 0⟩)
        ≠ EEPROM_ADDRESS_DATA_RANGE_START_ADDRESS ∧
      ¬ (readNextStorageAddress (storeDataPacket lastSlotStore ⟨0, 0, 0, 0, 0, 0, 0⟩)
          + sizeof_data_packet_t ≤ EEPROM_ADDRESS_DATA_RANGE_END_ADDRESS) := by
  decide

/-- C4, amended: from an aligned cursor `c` inside the range the storage step
writes the record at `c`, or at the start of the range when `c + 28` reaches
the end address (the wrap is applied to the write address, before the write);
the persisted cursor is that write address plus one record size and is not
wrapped, so it is aligned and lies between start + 28 and the end address. -/
theorem append_cursor (s : Store) (data : data_packet_t)
    (hc : cursorAligned (readNextStorageAddress s)) :
    writeAddress s =
        (if readNextStorageAddress s + sizeof_data_packet_t <
            EEPROM_ADDRESS_DATA_RANGE_END_ADDRESS
          then readNextStorageAddress s else EEPROM_ADDRESS_DATA_RANGE_START_ADDRESS) ∧
      (SOL_getDataPacket (storeDataPacket s data) (writeAddress s)).toBytes = data.toBytes ∧
      readNextStorageAddress (storeDataPacket s data) = writeAddress s + sizeof_data_packet_t ∧
      cursorAligned (readNextStorageAddress (storeDataPacket s data)) ∧
      EEPROM_ADDRESS_DATA_RANGE_START_ADDRESS + sizeof_data_packet_t
        ≤ readNextStorageAddress (storeDataPacket s data) := by
  obtain ⟨h1, h2, h3⟩ := hc
  simp only [EEPROM_ADDRESS_DATA_RANGE_START_ADDRESS, EEPROM_ADDRESS_DATA_RANGE_END_ADDRESS,
    sizeof_data_packet_t, cursorAligned] at *
  have hb := writeAddress_bound s
  have hw : 111 ≤ writeAddress s ∧ (writeAddress s - 111) % 28 = 0 ∧
      writeAddress s = (if readNextStorageAddress s + 28 < 4000
        then readNextStorageAddress s else 111) := by
    by_cases hr : readNextStorageAddress s + 28 < 4000
    · rw [writeAddress_of_room _ hr, if_pos hr]
      exact ⟨h1, h3, rfl⟩
    · rw [writeAddress_of_full _ (by omega), if_neg hr]
      exact ⟨le_refl _, rfl, rfl⟩
  refine ⟨hw.2.2, ?_, readNext_storeDataPacket s data, ?_, ?_⟩
  · apply getDataPacket_of_slot _ _ _ (by omega)
    intro j hj
    rw [storeDataPacket_slot s data j hj hw.1]
    exact Nat.mod_eq_of_lt (toBytes_lt data j)
  · rw [readNext_storeDataPacket]
    omega
  · rw [readNext_storeDataPacket]
    omega

theorem append_cursor_witness :
    writeAddress lastSlotStore =
        (if readNextStorageAddress lastSlotStore + sizeof_data_packet_t <
            EEPROM_ADDRESS_DATA_RANGE_END_ADDRESS
          then readNextStorageAddress lastSlotStore
          else EEPROM_ADDRESS_DATA_RANGE_START_ADDRESS) ∧
      (SOL_getDataPacket (storeDataPacket lastSlotStore ⟨1, 2, 3, 4, 5, 6, 7⟩)
          (writeAddress lastSlotStore)).toBytes
        = data_packet_t.toBytes ⟨1, 2, 3, 4, 5, 6, 7⟩ ∧
      readNextStorageAddress (storeDataPacket lastSlotStore ⟨1, 2, 3, 4, 5, 6, 7⟩)
        = writeAddress lastSlotStore + sizeof_data_packet_t ∧
      cursorAligned
        (readNextStorageAddress (storeDataPacket lastSlotStore ⟨1, 2, 3, 4, 5, 6, 7⟩)) ∧
      EEPROM_ADDRESS_DATA_RANGE_START_ADDRESS + sizeof_data_packet_t
        ≤ readNextStorageAddress (storeDataPacket lastSlotStore ⟨1, 2, 3, 4, 5, 6, 7⟩) :=
  append_cursor lastSlotStore ⟨1, 2, 3, 4, 5, 6, 7⟩ (by decide)

/-- C5: the cursor reset of `SOL_upload` is idempotent. For every store, a
second reset right after the first leaves the store as the first left it, and
the datapoint count is 0 after each of the two. -/
theorem reset_idempotent (s : Store) :
    resetNextStorageAddress (resetNextStorageAddress s) = resetNextStorageAddress s ∧
      datapoints (resetNextStorageAddress s) = 0 ∧
      datapoints (resetNextStorageAddress (resetNextStorageAddress s)) = 0 := by
  have hr : ∀ t : Store, readNextStorageAddress (resetNextStorageAddress t) = 111 + 28 * 0 :=
    fun t => readNext_writeCursor t _ (by decide)
  refine ⟨?_, datapoints_aligned _ 0 (by omega) (hr s), datapoints_aligned _ 0 (by omega) (hr _)⟩
  funext a
  unfold resetNextStorageAddress
  rw [writeCursor_apply, writeCursor_apply]
  split
  · rfl
  · split <;> rfl

/-! ## The wake cycle of SOL_V2 -/

theorem set_time_from_ntp_eeprom (inp : Inputs) (st : State) :
    (SOL_set_time_from_ntp inp st).eeprom = st.eeprom := by
  unfold SOL_set_time_from_ntp
  simp only
  split
  · split
    · split <;> rfl
    · rfl
  · rfl

theorem startProvisioning_eeprom (inp : Inputs) (st : State) :
    (SOL_startProvisioning inp st).eeprom
      = match inp.portal with
        | some (connected_ssid, connected_pswd) =>
          resetNextStorageAddress
            (persistCredentials layout st.eeprom connected_ssid connected_pswd)
        | none => st.eeprom := by
  unfold SOL_startProvisioning
  simp only
  split
  · rw [set_time_from_ntp_eeprom]
  · rfl

/-- The EEPROM after one wake cycle. -/
theorem task_eeprom (st : State) (inp : Inputs) :
    (SOL_task st inp).eeprom
      = if inp.touch then
          match inp.portal with
          | some (connected_ssid, connected_pswd) =>
            resetNextStorageAddress
              (persistCredentials layout st.eeprom connected_ssid connected_pswd)
          | none => st.eeprom
        else if SOL_readEEPROMByte st.eeprom EEPROM_ADDRESS_WIFI_CREDENTIALS_AVAILABLE = 1 then
          if datapoints (storeDataPacket st.eeprom (generatedPacket inp st.lastNTPTime
                ((st.sleepCount + 1) % 4294967296) st.device_ID)) ≥ SENSE_COUNT_TO_SEND
              ∧ inp.connect = true then
            resetNextStorageAddress (storeDataPacket st.eeprom (generatedPacket inp
              st.lastNTPTime ((st.sleepCount + 1) % 4294967296) st.device_ID))
          else
            storeDataPacket st.eeprom (generatedPacket inp st.lastNTPTime
              ((st.sleepCount + 1) % 4294967296) st.device_ID)
        else st.eeprom := by
  unfold SOL_task SOL_deepsleep
  simp only
  by_cases ht : inp.touch = true
  · simp only [ht, if_true]
    rw [startProvisioning_eeprom]
  · simp only [ht, if_false, Bool.false_eq_true]
    rw [hasWiFiCredentials_fst]
    unfold SOL_upload SOL_generateDataPacket
    simp only [set_time_from_ntp_eeprom]
    have hl : layout.EEPROM_ADDRESS_WIFI_CREDENTIALS_AVAILABLE
        = EEPROM_ADDRESS_WIFI_CREDENTIALS_AVAILABLE := rfl
    rw [hl]
    split_ifs <;> simp_all

theorem readNext_reset (s : Store) :
    readNextStorageAddress (resetNextStorageAddress s) = 111 :=
  readNext_writeCursor s _ (by decide)

theorem cursorAligned_store (s : Store) (data : data_packet_t)
    (hc : cursorAligned (readNextStorageAddress s)) :
    cursorAligned (readNextStorageAddress (storeDataPacket s data)) := by
  obtain ⟨h1, h2, h3⟩ := hc
  simp only [EEPROM_ADDRESS_DATA_RANGE_START_ADDRESS, EEPROM_ADDRESS_DATA_RANGE_END_ADDRESS,
    sizeof_data_packet_t, cursorAligned] at *
  rw [readNext_storeDataPacket]
  have hb := writeAddress_bound s
  by_cases hr : readNextStorageAddress s + 28 < 4000
  · rw [writeAddress_of_room _ hr]
    omega
  · rw [writeAddress_of_full _ (by omega)]
    omega

/-- One wake cycle keeps the cursor condition: if the availability flag is 1
afterwards, the cursor is aligned inside the range. -/
theorem task_cursor (st : State) (inp : Inputs)
    (h : SOL_readEEPROMByte st.eeprom EEPROM_ADDRESS_WIFI_CREDENTIALS_AVAILABLE = 1 →
      cursorAligned (readNextStorageAddress st.eeprom)) :
    SOL_readEEPROMByte (SOL_task st inp).eeprom EEPROM_ADDRESS_WIFI_CREDENTIALS_AVAILABLE = 1 →
      cursorAligned (readNextStorageAddress (SOL_task st inp).eeprom) := by
  rw [task_eeprom]
  have h111 : cursorAligned 111 := by decide
  split_ifs with ht hf hd
  · split
    · intro _
      rw [readNext_reset]
      exact h111
    · exact h
  · intro _
    rw [readNext_reset]
    exact h111
  · intro _
    exact cursorAligned_store _ _ (h hf)
  · exact h

/-- C3: SOL_V2 cursor invariant. In every state reached from a store whose
availability flag byte is not 1 by complete wake cycles of `SOL_task`, with
any inputs, whenever the flag is 1 the persisted cursor `c` satisfies
start <= c < end and `c - start` is a multiple of `sizeof(data_packet_t)`. -/
theorem cursor_invariant (st : State) (cycles : List Inputs)
    (h0 : SOL_readEEPROMByte st.eeprom EEPROM_ADDRESS_WIFI_CREDENTIALS_AVAILABLE ≠ 1) :
    SOL_readEEPROMByte (runCycles st cycles).eeprom EEPROM_ADDRESS_WIFI_CREDENTIALS_AVAILABLE = 1 →
      EEPROM_ADDRESS_DATA_RANGE_START_ADDRESS ≤ readNextStorageAddress (runCycles st cycles).eeprom ∧
      readNextStorageAddress (runCycles st cycles).eeprom < EEPROM_ADDRESS_DATA_RANGE_END_ADDRESS ∧
      (readNextStorageAddress (runCycles st cycles).eeprom
          - EEPROM_ADDRESS_DATA_RANGE_START_ADDRESS) % sizeof_data_packet_t = 0 := by
  have key : ∀ (cs : List Inputs) (s : State),
      (SOL_readEEPROMByte s.eeprom EEPROM_ADDRESS_WIFI_CREDENTIALS_AVAILABLE = 1 →
        cursorAligned (readNextStorageAddress s.eeprom)) →
      SOL_readEEPROMByte (runCycles s cs).eeprom EEPROM_ADDRESS_WIFI_CREDENTIALS_AVAILABLE = 1 →
        cursorAligned (readNextStorageAddress (runCycles s cs).eeprom) := by
    intro cs
    induction cs with
    | nil => exact fun s h => h
    | cons c cs ih => exact fun s h => ih (SOL_task s c) (task_cursor s c h)
  exact key cycles st fun h => absurd h h0

theorem cursor_invariant_witness :
    EEPROM_ADDRESS_DATA_RANGE_START_ADDRESS
        ≤ readNextStorageAddress (runCycles erasedState provisionThenSample).eeprom ∧
      readNextStorageAddress (runCycles erasedState provisionThenSample).eeprom
        < EEPROM_ADDRESS_DATA_RANGE_END_ADDRESS ∧
      (readNextStorageAddress (runCycles erasedState provisionThenSample).eeprom
          - EEPROM_ADDRESS_DATA_RANGE_START_ADDRESS) % sizeof_data_packet_t = 0 :=
  cursor_invariant erasedState provisionThenSample (by decide) (by decide)

end V2

/-! ## Credential store -/

theorem persist_eq_applyWrites (L : Layout) (s : Store) (ssid pswd : List Nat) :
    persistCredentials L s ssid pswd = applyWrites s (credentialWrites L ssid pswd) := by
  simp [persistCredentials, credentialWrites, applyWrites, SOL_writeEEPROMNByte,
    List.foldl_append]

theorem V2.layout_flagSeparate : V2.layout.flagSeparate := by
  refine ⟨by decide, by decide, fun i hi => ?_, fun i hi => ?_⟩ <;>
    simp only [V2.layout, V2.EEPROM_ADDRESS_WIFI_PSWD_START, V2.EEPROM_ADDRESS_WIFI_SSID_START,
      V2.EEPROM_ADDRESS_WIFI_CREDENTIALS_AVAILABLE] <;>
    omega

theorem mem_writesNByte (address : Nat) (data : List Nat) (size : Nat) (w : Nat × Nat)
    (h : w ∈ writesNByte address data size) : ∃ i, i < size ∧ w.1 = address + i := by
  simp only [writesNByte, List.mem_map, List.mem_range] at h
  obtain ⟨i, hi, rfl⟩ := h
  exact ⟨i, hi, rfl⟩

/-- The writes of the persistence step are those before the flag write,
followed by the flag write. -/
theorem credentialWrites_eq (L : Layout) (ssid pswd : List Nat) :
    credentialWrites L ssid pswd
      = (credentialWrites L ssid pswd).dropLast
          ++ [(L.EEPROM_ADDRESS_WIFI_CREDENTIALS_AVAILABLE, 1)] := by
  unfold credentialWrites
  simp only [List.dropLast_concat]

/-- No write before the flag write lands on the flag. -/
theorem dropLast_credentialWrites_flag (L : Layout) (hL : L.flagSeparate) (ssid pswd : List Nat)
    (w : Nat × Nat) (h : w ∈ (credentialWrites L ssid pswd).dropLast) :
    L.EEPROM_ADDRESS_WIFI_CREDENTIALS_AVAILABLE % 65536 ≠ w.1 % 65536 := by
  obtain ⟨h1, h2, h3, h4⟩ := hL
  unfold credentialWrites at h
  simp only [List.dropLast_concat, List.mem_append, List.mem_cons, List.mem_singleton,
    List.not_mem_nil, or_false] at h
  rcases h with ((h | h) | h) | h
  · rw [h]; exact fun e => h1 e.symm
  · rw [h]; exact fun e => h2 e.symm
  · obtain ⟨i, hi, e⟩ := mem_writesNByte _ _ _ _ h
    rw [e]
    exact fun e' => h3 i (by omega) e'.symm
  · obtain ⟨i, hi, e⟩ := mem_writesNByte _ _ _ _ h
    rw [e]
    exact fun e' => h4 i (by omega) e'.symm

/-- Before the flag write the flag byte is the one the store started with. -/
theorem flag_before_flag_write (L : Layout) (hL : L.flagSeparate) (s : Store)
    (ssid pswd : List Nat) (k : Nat) (hk : k < (credentialWrites L ssid pswd).length) :
    SOL_readEEPROMByte (applyWrites s ((credentialWrites L ssid pswd).take k))
        L.EEPROM_ADDRESS_WIFI_CREDENTIALS_AVAILABLE
      = SOL_readEEPROMByte s L.EEPROM_ADDRESS_WIFI_CREDENTIALS_AVAILABLE := by
  unfold SOL_readEEPROMByte
  rw [applyWrites_frame]
  intro w hw
  apply dropLast_credentialWrites_flag L hL ssid pswd
  rw [credentialWrites_eq, List.take_append_of_le_length] at hw
  · exact List.mem_of_mem_take hw
  · rw [List.length_dropLast]
    omega

/-- C7: credential persistence is atomic with respect to the availability
flag. For a layout in which the flag has an address of its own (that of
`SOL_V2.h` is one, `V2.layout_flagSeparate`; the header of the first
generation is not among the sources), from a store whose flag byte is not 1,
after any prefix of the byte writes of the persistence step that stops before
the flag write `SOL_hasWiFiCredentials` returns 0. The flag write is the last
write of the step, the step is exactly this write sequence, and in SOL_V2 the
two writes that follow it (the cursor reset) are outside the credential
fields, which end at 0x006C. -/
theorem persistence_atomic (L : Layout) (hL : L.flagSeparate) (s : Store)
    (ssid pswd : List Nat) (g : Credentials) (k : Nat)
    (hs : SOL_readEEPROMByte s L.EEPROM_ADDRESS_WIFI_CREDENTIALS_AVAILABLE ≠ 1)
    (hk : k < (credentialWrites L ssid pswd).length) :
    (SOL_hasWiFiCredentials L (applyWrites s ((credentialWrites L ssid pswd).take k)) g).1 = 0 ∧
      (credentialWrites L ssid pswd).getLast?
        = some (L.EEPROM_ADDRESS_WIFI_CREDENTIALS_AVAILABLE, 1) ∧
      persistCredentials L s ssid pswd = applyWrites s (credentialWrites L ssid pswd) ∧
      V2.resetNextStorageAddress (persistCredentials V2.layout s ssid pswd)
        = applyWrites s (credentialWrites V2.layout ssid pswd ++ V2.cursorResetWrites) ∧
      ∀ w ∈ V2.cursorResetWrites, V2.EEPROM_ADDRESS_WIFI_PSWD_LENGTH < w.1 ∧ w.1 < 65536 := by
  refine ⟨?_, ?_, persist_eq_applyWrites L s ssid pswd, ?_, by decide⟩
  · rw [hasWiFiCredentials_fst, flag_before_flag_write L hL s ssid pswd k hk, if_neg hs]
  · rw [credentialWrites_eq, List.getLast?_concat]
  · rw [applyWrites_append, ← persist_eq_applyWrites]
    rfl

theorem loadBytes_apply (s : Store) (start n : Nat) (buf : Nat → Nat) (j : Nat) :
    loadBytes s start n buf j = if j < n then SOL_readEEPROMByte s (start + j) else buf j := by
  induction n with
  | zero => simp [loadBytes]
  | succ n ih =>
    unfold loadBytes at ih ⊢
    rw [List.range_succ, List.foldl_append, List.foldl_cons, List.foldl_nil]
    by_cases hj : j = n
    · subst hj
      simp
    · rw [Function.update_noteq hj, ih]
      by_cases hlt : j < n
      · rw [if_pos hlt, if_pos (by omega)]
      · rw [if_neg hlt, if_neg (by omega)]

/-- The EEPROM of SOL_V2 after the persistence step, byte by byte. The cases
are in the reverse of the write order: a later write wins. -/
theorem V2.persist_apply (s : Store) (ssid pswd : List Nat) (a : Nat) :
    persistCredentials V2.layout s ssid pswd a
      = if a = 0 then 1
        else if 1 ≤ a ∧ a < 1 + ssid.length % 256 then ssid.getD (a - 1) 0 % 256
        else if 66 ≤ a ∧ a < 66 + pswd.length % 256 then pswd.getD (a - 66) 0 % 256
        else if a = 107 then ssid.length % 256
        else if a = 108 then pswd.length % 256
        else s a := by
  have hs := Nat.mod_lt ssid.length (by norm_num : 0 < 256)
  have hp := Nat.mod_lt pswd.length (by norm_num : 0 < 256)
  unfold persistCredentials
  simp only [V2.layout, V2.EEPROM_ADDRESS_WIFI_CREDENTIALS_AVAILABLE,
    V2.EEPROM_ADDRESS_WIFI_SSID_START, V2.EEPROM_ADDRESS_WIFI_PSWD_START,
    V2.EEPROM_ADDRESS_WIFI_SSID_LENGTH, V2.EEPROM_ADDRESS_WIFI_PSWD_LENGTH]
  by_cases h0 : a = 0
  · subst h0
    simp [SOL_writeEEPROMByte]
  rw [if_neg h0, write_other _ _ _ _ (by omega)]
  by_cases h1 : 1 ≤ a ∧ a < 1 + ssid.length % 256
  · rw [if_pos h1]
    have := writeN_hit
      (SOL_writeEEPROMNByte (SOL_writeEEPROMByte (SOL_writeEEPROMByte s 108 (pswd.length % 256))
        107 (ssid.length % 256)) 66 pswd (pswd.length % 256))
      1 ssid (ssid.length % 256) (a - 1) (by omega) (by omega)
    rw [show (1 + (a - 1)) % 65536 = a by omega] at this
    exact this
  rw [if_neg h1, writeN_frame _ _ _ _ _ (by intro i hi; omega)]
  by_cases h2 : 66 ≤ a ∧ a < 66 + pswd.length % 256
  · rw [if_pos h2]
    have := writeN_hit
      (SOL_writeEEPROMByte (SOL_writeEEPROMByte s 108 (pswd.length % 256))
        107 (ssid.length % 256))
      66 pswd (pswd.length % 256) (a - 66) (by omega) (by omega)
    rw [show (66 + (a - 66)) % 65536 = a by omega] at this
    exact this
  rw [if_neg h2, writeN_frame _ _ _ _ _ (by intro i hi; omega)]
  by_cases h3 : a = 107
  · subst h3
    simp [SOL_writeEEPROMByte]
  rw [if_neg h3, write_other _ _ _ _ (by omega)]
  by_cases h4 : a = 108
  · subst h4
    simp [SOL_writeEEPROMByte]
  rw [if_neg h4, write_other _ _ _ _ (by omega)]

/-- Within the fields of the layout of SOL_V2 (an SSID of at most 64 bytes, a
password of at most 41 bytes, the room between 0x0042 and 0x006A) the
credentials are read back as persisted. -/
theorem V2.credential_roundtrip_within_fields (s : Store) (ssid pswd : List Nat)
    (hs : ssid.length ≤ 64) (hp : pswd.length ≤ 41)
    (hbs : ∀ c ∈ ssid, c < 256) (hbp : ∀ c ∈ pswd, c < 256) :
    loadedCredentials V2.layout (persistCredentials V2.layout s ssid pswd)
      = (1, ssid.length, ssid, pswd.length, pswd) := by
  have e1 : ssid.length % 256 = ssid.length := Nat.mod_eq_of_lt (by omega)
  have e2 : pswd.length % 256 = pswd.length := Nat.mod_eq_of_lt (by omega)
  have hflag : SOL_readEEPROMByte (persistCredentials V2.layout s ssid pswd) 0 = 1 := by
    simp [SOL_readEEPROMByte, V2.persist_apply]
  have hsl : SOL_readEEPROMByte (persistCredentials V2.layout s ssid pswd) 107
      = ssid.length := by
    unfold SOL_readEEPROMByte
    rw [V2.persist_apply, if_neg (by decide), if_neg (by omega), if_neg (by omega),
      if_pos (by decide)]
    omega
  have hpl : SOL_readEEPROMByte (persistCredentials V2.layout s ssid pswd) 108
      = pswd.length := by
    unfold SOL_readEEPROMByte
    rw [V2.persist_apply, if_neg (by decide), if_neg (by omega), if_neg (by omega),
      if_neg (by decide), if_pos (by decide)]
    omega
  have hsb : ∀ i (hi : i < ssid.length),
      SOL_readEEPROMByte (persistCredentials V2.layout s ssid pswd) (1 + i) = ssid[i] := by
    intro i hi
    unfold SOL_readEEPROMByte
    rw [show (1 + i) % 65536 = 1 + i by omega, V2.persist_apply, if_neg (by omega),
      if_pos (by omega), show 1 + i - 1 = i by omega, List.getD_eq_getElem _ 0 hi]
    have := hbs ssid[i] (List.getElem_mem hi)
    omega
  have hpb : ∀ i (hi : i < pswd.length),
      SOL_readEEPROMByte (persistCredentials V2.layout s ssid pswd) (66 + i) = pswd[i] := by
    intro i hi
    unfold SOL_readEEPROMByte
    rw [show (66 + i) % 65536 = 66 + i by omega, V2.persist_apply, if_neg (by omega),
      if_neg (by omega), if_pos (by omega), show 66 + i - 66 = i by omega,
      List.getD_eq_getElem _ 0 hi]
    have := hbp pswd[i] (List.getElem_mem hi)
    omega
  unfold loadedCredentials SOL_hasWiFiCredentials
  simp only [V2.layout, V2.EEPROM_ADDRESS_WIFI_CREDENTIALS_AVAILABLE,
    V2.EEPROM_ADDRESS_WIFI_SSID_START, V2.EEPROM_ADDRESS_WIFI_PSWD_START,
    V2.EEPROM_ADDRESS_WIFI_SSID_LENGTH, V2.EEPROM_ADDRESS_WIFI_PSWD_LENGTH] at *
  rw [hflag, hsl, hpl]
  simp only [if_true, if_neg (show ¬ ssid.length > 64 by omega),
    if_neg (show ¬ pswd.length > 64 by omega), Prod.mk.injEq, true_and]
  refine ⟨?_, ?_⟩
  · apply List.ext_getElem
    · simp
    · intro i h1 h2
      simp only [List.getElem_map, List.getElem_range, loadBytes_apply, if_pos h2]
      exact hsb i h2
  · apply List.ext_getElem
    · simp
    · intro i h1 h2
      simp only [List.getElem_map, List.getElem_range, loadBytes_apply, if_pos h2]
      exact hpb i h2

theorem persistence_atomic_witness :
    (SOL_hasWiFiCredentials V2.layout
        (applyWrites V2.erased
          ((credentialWrites V2.layout (bytes "MyNet") (bytes "secret123")).take 16))
        noCredentials).1 = 0 ∧
      (credentialWrites V2.layout (bytes "MyNet") (bytes "secret123")).getLast?
        = some (V2.layout.EEPROM_ADDRESS_WIFI_CREDENTIALS_AVAILABLE, 1) ∧
      persistCredentials V2.layout V2.erased (bytes "MyNet") (bytes "secret123")
        = applyWrites V2.erased (credentialWrites V2.layout (bytes "MyNet") (bytes "secret123")) ∧
      V2.resetNextStorageAddress
          (persistCredentials V2.layout V2.erased (bytes "MyNet") (bytes "secret123"))
        = applyWrites V2.erased
            (credentialWrites V2.layout (bytes "MyNet") (bytes "secret123")
              ++ V2.cursorResetWrites) ∧
      ∀ w ∈ V2.cursorResetWrites, V2.EEPROM_ADDRESS_WIFI_PSWD_LENGTH < w.1 ∧ w.1 < 65536 :=
  persistence_atomic V2.layout V2.layout_flagSeparate V2.erased (bytes "MyNet")
    (bytes "secret123") noCredentials 16 (by decide) (by decide)

/-- C6 fails on the code for a 42-byte password: the password field of the
layout ends at 0x006A (41 bytes), so the 42nd password byte is written over
the SSID length at 0x006B, after the length was written. With SSID "MyNet"
and a password of 42 letters `a` (0x61), `SOL_hasWiFiCredentials` returns 1
and loads `ssid_length` = 64 (0x61 clamped) instead of 5; the pair of the
spec, ("MyNet", "secret123"), is read back as persisted. -/
theorem credential_roundtrip_long_password :
    loadedCredentials V2.layout
        (persistCredentials V2.layout V2.erased (bytes "MyNet") (bytes "secret123"))
      = (1, 5, bytes "MyNet", 9, bytes "secret123") ∧
    (List.replicate 42 97).length ≤ 64 ∧
    SOL_readEEPROMByte
        (persistCredentials V2.layout V2.erased (bytes "MyNet") (List.replicate 42 97))
        V2.EEPROM_ADDRESS_WIFI_SSID_LENGTH = 97 ∧
    (loadedCredentials V2.layout
        (persistCredentials V2.layout V2.erased (bytes "MyNet") (List.replicate 42 97))).1 = 1 ∧
    (loadedCredentials V2.layout
        (persistCredentials V2.layout V2.erased (bytes "MyNet") (List.replicate 42 97))).2.1 = 64 ∧
    (loadedCredentials V2.layout
        (persistCredentials V2.layout V2.erased (bytes "MyNet") (List.replicate 42 97))).2.2.1
      ≠ bytes "MyNet" := by
  decide

/-- C8 as stated fails when credentials are replaced: the flag stays 1 during
the rewrite. From a store that holds ("Old", "oldpw"), after the first write
of the persistence of ("MyNet", "secret123") (the password length)
`SOL_hasWiFiCredentials` returns 1 and loads the old SSID with the new
password length 9 and the old password bytes followed by erased bytes: neither
the old pair nor the new one. -/
theorem partial_credentials_counterexample :
    loadedCredentials V2.layout V2.oldCredentialsStore = (1, 3, bytes "Old", 5, bytes "oldpw") ∧
    loadedCredentials V2.layout
        (persistCredentials V2.layout V2.oldCredentialsStore (bytes "MyNet") (bytes "secret123"))
      = (1, 5, bytes "MyNet", 9, bytes "secret123") ∧
    loadedCredentials V2.layout
        (applyWrites V2.oldCredentialsStore
          ((credentialWrites V2.layout (bytes "MyNet") (bytes "secret123")).take 1))
      = (1, 3, bytes "Old", 9, bytes "oldpw" ++ [255, 255, 255, 255]) ∧
    loadedCredentials V2.layout
        (applyWrites V2.oldCredentialsStore
          ((credentialWrites V2.layout (bytes "MyNet") (bytes "secret123")).take 1))
      ≠ loadedCredentials V2.layout V2.oldCredentialsStore ∧
    loadedCredentials V2.layout
        (applyWrites V2.oldCredentialsStore
          ((credentialWrites V2.layout (bytes "MyNet") (bytes "secret123")).take 1))
      ≠ loadedCredentials V2.layout
          (persistCredentials V2.layout V2.oldCredentialsStore (bytes "MyNet")
            (bytes "secret123")) := by
  refine ⟨by decide, by decide, by decide, ?_, ?_⟩
  · rw [show loadedCredentials V2.layout (applyWrites V2.oldCredentialsStore
        ((credentialWrites V2.layout (bytes "MyNet") (bytes "secret123")).take 1))
        = (1, 3, bytes "Old", 9, bytes "oldpw" ++ [255, 255, 255, 255]) by decide,
      show loadedCredentials V2.layout V2.oldCredentialsStore
        = (1, 3, bytes "Old", 5, bytes "oldpw") by decide]
    decide
  · rw [show loadedCredentials V2.layout (applyWrites V2.oldCredentialsStore
        ((credentialWrites V2.layout (bytes "MyNet") (bytes "secret123")).take 1))
        = (1, 3, bytes "Old", 9, bytes "oldpw" ++ [255, 255, 255, 255]) by decide,
      show loadedCredentials V2.layout (persistCredentials V2.layout V2.oldCredentialsStore
          (bytes "MyNet") (bytes "secret123"))
        = (1, 5, bytes "MyNet", 9, bytes "secret123") by decide]
    decide

/-- C8, amended: for a layout in which the flag has an address of its own, from
a store whose flag byte is not 1, at every point of the write sequence of the
persistence step at which `SOL_hasWiFiCredentials` returns 1 the whole
sequence, flag write included, has been carried out, and what is loaded is
what is loaded from the fully persisted store. -/
theorem partial_credentials (L : Layout) (hL : L.flagSeparate) (s : Store)
    (ssid pswd : List Nat) (g : Credentials) (k : Nat)
    (hs : SOL_readEEPROMByte s L.EEPROM_ADDRESS_WIFI_CREDENTIALS_AVAILABLE ≠ 1)
    (h1 : (SOL_hasWiFiCredentials L
      (applyWrites s ((credentialWrites L ssid pswd).take k)) g).1 = 1) :
    (credentialWrites L ssid pswd).length ≤ k ∧
      SOL_hasWiFiCredentials L (applyWrites s ((credentialWrites L ssid pswd).take k)) g
        = SOL_hasWiFiCredentials L (persistCredentials L s ssid pswd) g := by
  have hk : (credentialWrites L ssid pswd).length ≤ k := by
    by_contra hlt
    rw [hasWiFiCredentials_fst, flag_before_flag_write L hL s ssid pswd k (by omega),
      if_neg hs] at h1
    exact absurd h1 (by decide)
  refine ⟨hk, ?_⟩
  rw [List.take_of_length_le hk, persist_eq_applyWrites]

theorem partial_credentials_witness :
    (credentialWrites V2.layout (bytes "MyNet") (bytes "secret123")).length ≤ 17 ∧
      SOL_hasWiFiCredentials V2.layout
          (applyWrites V2.erased
            ((credentialWrites V2.layout (bytes "MyNet") (bytes "secret123")).take 17))
          noCredentials
        = SOL_hasWiFiCredentials V2.layout
            (persistCredentials V2.layout V2.erased (bytes "MyNet") (bytes "secret123"))
            noCredentials :=
  partial_credentials V2.layout V2.layout_flagSeparate V2.erased (bytes "MyNet")
    (bytes "secret123") noCredentials 17 (by decide) (by decide)

/-! ## Provisioning of the first generation -/

namespace V1

theorem bytes_amp : bytes "&" = [38] := rfl

theorem bytes_ssid : bytes "SSID=" = [83, 83, 73, 68, 61] := rfl

theorem bytes_password : bytes "PASSWORD=" = [80, 65, 83, 83, 87, 79, 82, 68, 61] := rfl

theorem endsWith_iff (line : List Nat) (text : String) :
    endsWith line text = true ↔ bytes text <:+ line := by
  simp [endsWith]

theorem assembleSsid_eq (c : Nat) (line ns np : List Nat) (ss ps : Nat) (stp : Bool) :
    assembleSsid c ⟨line, ns, np, ss, ps, stp⟩
      = ⟨line, if ss = 1 ∧ endsWith line "&" = false then ns ++ [c] else ns, np,
          if endsWith line "SSID=" = true then 1
          else if ss = 1 ∧ endsWith line "&" = true then 2 else ss,
          ps, stp⟩ := by
  unfold assembleSsid
  cases ha : endsWith line "&" <;> cases hs : endsWith line "SSID=" <;>
    by_cases h1 : ss = 1 <;> simp [h1, ha, hs]

theorem assemblePswd_eq (c : Nat) (line ns np : List Nat) (ss ps : Nat) (stp : Bool) :
    assemblePswd c ⟨line, ns, np, ss, ps, stp⟩
      = ⟨line, ns, if ps = 1 ∧ endsWith line "&" = false then np ++ [c] else np, ss,
          if endsWith line "PASSWORD=" = true then 1
          else if ps = 1 ∧ endsWith line "&" = true then 2 else ps,
          stp⟩ := by
  unfold assemblePswd
  cases ha : endsWith line "&" <;> cases hp : endsWith line "PASSWORD=" <;>
    by_cases h1 : ps = 1 <;> simp [h1, ha, hp]

/-- What a character other than line feed and carriage return does to the
capture, in terms of the three tests on the extended line. -/
theorem captureChar_plain (c : Nat) (line ns np : List Nat) (ss ps : Nat) (stp : Bool)
    (h10 : c ≠ 10) (h13 : c ≠ 13) :
    captureChar c ⟨line, ns, np, ss, ps, stp⟩ =
      ⟨line ++ [c],
        if ss = 1 ∧ endsWith (line ++ [c]) "&" = false then ns ++ [c] else ns,
        if ps = 1 ∧ endsWith (line ++ [c]) "&" = false then np ++ [c] else np,
        if endsWith (line ++ [c]) "SSID=" = true then 1
        else if ss = 1 ∧ endsWith (line ++ [c]) "&" = true then 2 else ss,
        if endsWith (line ++ [c]) "PASSWORD=" = true then 1
        else if ps = 1 ∧ endsWith (line ++ [c]) "&" = true then 2 else ps,
        stp⟩ := by
  unfold captureChar readLine
  simp only [h10, false_and, if_false, ne_eq, h13, not_false_eq_true, if_true]
  rw [assembleSsid_eq, assemblePswd_eq]

theorem endsWith_amp_snoc (line : List Nat) (c : Nat) :
    endsWith (line ++ [c]) "&" = decide (c = 38) := by
  rw [Bool.eq_iff_iff, endsWith_iff, bytes_amp, decide_eq_true_iff]
  constructor
  · intro h
    have := List.suffix_of_suffix_length_le h (List.suffix_append line [c]) (by simp)
    simp [List.suffix_cons_iff] at this
    omega
  · rintro rfl
    exact List.suffix_append line [38]

theorem endsWith_ssid_snoc (line : List Nat) (c : Nat) (hc : c ≠ 61) :
    endsWith (line ++ [c]) "SSID=" = false := by
  rw [Bool.eq_false_iff, Ne, endsWith_iff, bytes_ssid]
  intro h
  have := List.suffix_of_suffix_length_le (List.suffix_append line [c]) h (by simp)
  simp [List.suffix_cons_iff] at this
  omega

theorem endsWith_password_snoc (line : List Nat) (c : Nat) (hc : c ≠ 61) :
    endsWith (line ++ [c]) "PASSWORD=" = false := by
  rw [Bool.eq_false_iff, Ne, endsWith_iff, bytes_password]
  intro h
  have := List.suffix_of_suffix_length_le (List.suffix_append line [c]) h (by simp)
  simp [List.suffix_cons_iff] at this
  omega

/-- A line that starts with "SSID=" ends with "PASSWORD=" only if the part
after "SSID=" does. -/
theorem password_suffix_peel (x : List Nat)
    (h : bytes "PASSWORD=" <:+ bytes "SSID=" ++ x) : bytes "PASSWORD=" <:+ x := by
  rw [bytes_password, bytes_ssid] at *
  simpa [List.suffix_cons_iff] using h

/-- A line whose end is "&PASSWORD=" followed by `x` ends with "SSID=" only if
`x` does. -/
theorem ssid_suffix_peel (front x : List Nat)
    (h : bytes "SSID=" <:+ front ++ (38 :: (bytes "PASSWORD=" ++ x))) : bytes "SSID=" <:+ x := by
  have h2 := List.suffix_of_suffix_length_le h
    (List.suffix_append front (38 :: (bytes "PASSWORD=" ++ x)))
    (by simp [bytes_ssid, bytes_password])
  rw [bytes_password, bytes_ssid] at *
  simpa [List.suffix_cons_iff] using h2

theorem captureChar_capB (s1 : List Nat) (c : Nat) (h38 : c ≠ 38) (h10 : c ≠ 10)
    (h13 : c ≠ 13) (hp : ¬ bytes "PASSWORD=" <:+ s1 ++ [c]) :
    captureChar c (capB s1) = capB (s1 ++ [c]) := by
  have hp' : endsWith (bytes "SSID=" ++ s1 ++ [c]) "PASSWORD=" = false := by
    rw [Bool.eq_false_iff, Ne, endsWith_iff, List.append_assoc]
    exact fun h => hp (password_suffix_peel _ h)
  unfold capB
  rw [captureChar_plain _ _ _ _ _ _ _ h10 h13, endsWith_amp_snoc, hp']
  simp [h38]

theorem captureChar_capB_amp (s : List Nat) : captureChar 38 (capB s) = capC s [] := by
  unfold capB capC
  rw [captureChar_plain _ _ _ _ _ _ _ (by decide) (by decide), endsWith_amp_snoc,
    endsWith_ssid_snoc _ _ (by decide), endsWith_password_snoc _ _ (by decide)]
  simp

theorem captureChar_capC (s w : List Nat) (c : Nat) (h61 : c ≠ 61) (h38 : c ≠ 38)
    (h10 : c ≠ 10) (h13 : c ≠ 13) :
    captureChar c (capC s w) = capC s (w ++ [c]) := by
  unfold capC
  rw [captureChar_plain _ _ _ _ _ _ _ h10 h13, endsWith_amp_snoc,
    endsWith_ssid_snoc _ _ h61, endsWith_password_snoc _ _ h61]
  simp [h38]

theorem captureChar_capC_eq (s : List Nat) :
    captureChar 61 (capC s [80, 65, 83, 83, 87, 79, 82, 68]) = capD s [] := by
  have e : bytes "SSID=" ++ (s ++ 38 :: [80, 65, 83, 83, 87, 79, 82, 68]) ++ [61]
      = bytes "SSID=" ++ (s ++ (38 :: (bytes "PASSWORD=" ++ []))) := by
    simp [bytes_password]
  have hs : endsWith (bytes "SSID=" ++ (s ++ (38 :: (bytes "PASSWORD=" ++ [])))) "SSID="
      = false := by
    rw [Bool.eq_false_iff, Ne, endsWith_iff, ← List.append_assoc]
    intro h
    have := ssid_suffix_peel _ _ h
    simp [bytes_ssid] at this
  have hp : endsWith (bytes "SSID=" ++ (s ++ (38 :: (bytes "PASSWORD=" ++ [])))) "PASSWORD="
      = true := by
    rw [endsWith_iff, List.append_nil, ← List.append_assoc,
      show bytes "SSID=" ++ s ++ 38 :: bytes "PASSWORD="
        = (bytes "SSID=" ++ s ++ [38]) ++ bytes "PASSWORD=" by simp]
    exact List.suffix_append _ _
  unfold capC capD
  rw [captureChar_plain _ _ _ _ _ _ _ (by decide) (by decide), endsWith_amp_snoc, e, hs, hp]
  simp

theorem captureChar_capD (s p1 : List Nat) (c : Nat) (h38 : c ≠ 38) (h10 : c ≠ 10)
    (h13 : c ≠ 13) (hs : ¬ bytes "SSID=" <:+ p1 ++ [c]) :
    captureChar c (capD s p1) = capD s (p1 ++ [c]) := by
  have e : bytes "SSID=" ++ (s ++ 38 :: (bytes "PASSWORD=" ++ p1)) ++ [c]
      = bytes "SSID=" ++ (s ++ (38 :: (bytes "PASSWORD=" ++ (p1 ++ [c])))) := by
    simp
  have hs' : endsWith (bytes "SSID=" ++ (s ++ (38 :: (bytes "PASSWORD=" ++ (p1 ++ [c])))))
      "SSID=" = false := by
    rw [Bool.eq_false_iff, Ne, endsWith_iff, ← List.append_assoc]
    exact fun h => hs (ssid_suffix_peel _ _ h)
  unfold capD
  rw [captureChar_plain _ _ _ _ _ _ _ h10 h13, endsWith_amp_snoc, e, hs']
  simp [h38]

theorem captureChar_capD_amp (s p : List Nat) : captureChar 38 (capD s p) = capE s p := by
  have e : bytes "SSID=" ++ (s ++ 38 :: (bytes "PASSWORD=" ++ p)) ++ [38]
      = bytes "SSID=" ++ (s ++ (38 :: (bytes "PASSWORD=" ++ (p ++ [38])))) := by
    simp
  unfold capD capE
  rw [captureChar_plain _ _ _ _ _ _ _ (by decide) (by decide), endsWith_amp_snoc,
    endsWith_ssid_snoc _ _ (by decide), endsWith_password_snoc _ _ (by decide), e]
  simp

theorem clientLoop_finished (L : Layout) (xs : List Nat) (st : Client)
    (h : st.finished ≠ 0) : clientLoop L xs st = st := by
  cases xs with
  | nil => rfl
  | cons c cs => simp [clientLoop, h]

/-- A character after which the password capture is not terminated only moves
the capture on. -/
theorem clientLoop_step (L : Layout) (e : Store) (cap : Capture) (c : Nat) (rest : List Nat)
    (hst : cap.stopped = false) (hq : (captureChar c cap).pswd_state ≠ 2) :
    clientLoop L (c :: rest) ⟨e, 0, cap⟩ = clientLoop L rest ⟨e, 0, captureChar c cap⟩ := by
  rw [clientLoop]
  simp [hst, clientChar, hq]

/-- The character that terminates both captures makes the loop persist them
and stop. -/
theorem clientLoop_last (L : Layout) (e : Store) (cap : Capture) (c : Nat) (s p : List Nat)
    (hst : cap.stopped = false) (h : captureChar c cap = capE s p) :
    clientLoop L [c] ⟨e, 0, cap⟩ = ⟨persistCredentials L e s p, 1, capE s p⟩ := by
  rw [clientLoop, clientLoop]
  simp [hst, clientChar, h, capE]

theorem clientLoop_capB (L : Layout) (e : Store) (rest : List Nat) (s2 : List Nat) :
    ∀ s1 : List Nat, (∀ c ∈ s2, c ≠ 38 ∧ c ≠ 10 ∧ c ≠ 13) →
      ¬ bytes "PASSWORD=" <:+: s1 ++ s2 →
      clientLoop L (s2 ++ rest) ⟨e, 0, capB s1⟩ = clientLoop L rest ⟨e, 0, capB (s1 ++ s2)⟩ := by
  induction s2 with
  | nil => intro s1 _ _; simp
  | cons c s2 ih =>
    intro s1 hc hp
    obtain ⟨h38, h10, h13⟩ := hc c (List.mem_cons_self _ _)
    have hsuf : ¬ bytes "PASSWORD=" <:+ s1 ++ [c] := by
      rintro ⟨u, hu⟩
      exact hp ⟨u, s2, by rw [hu]; simp⟩
    have hstep := captureChar_capB s1 c h38 h10 h13 hsuf
    rw [List.cons_append, clientLoop_step L e _ c _ rfl (by rw [hstep]; exact (by decide : (0 : Nat) ≠ 2)), hstep,
      ih (s1 ++ [c]) (fun d hd => hc d (List.mem_cons_of_mem _ hd)) (by simpa using hp)]
    simp

theorem clientLoop_capC (L : Layout) (e : Store) (s : List Nat) (rest : List Nat)
    (w2 : List Nat) :
    ∀ w1 : List Nat, (∀ c ∈ w2, c ≠ 61 ∧ c ≠ 38 ∧ c ≠ 10 ∧ c ≠ 13) →
      clientLoop L (w2 ++ rest) ⟨e, 0, capC s w1⟩
        = clientLoop L rest ⟨e, 0, capC s (w1 ++ w2)⟩ := by
  induction w2 with
  | nil => intro w1 _; simp
  | cons c w2 ih =>
    intro w1 hc
    obtain ⟨h61, h38, h10, h13⟩ := hc c (List.mem_cons_self _ _)
    have hstep := captureChar_capC s w1 c h61 h38 h10 h13
    rw [List.cons_append, clientLoop_step L e _ c _ rfl (by rw [hstep]; exact (by decide : (0 : Nat) ≠ 2)), hstep,
      ih (w1 ++ [c]) (fun d hd => hc d (List.mem_cons_of_mem _ hd))]
    simp

theorem clientLoop_capD (L : Layout) (e : Store) (s : List Nat) (rest : List Nat)
    (p2 : List Nat) :
    ∀ p1 : List Nat, (∀ c ∈ p2, c ≠ 38 ∧ c ≠ 10 ∧ c ≠ 13) →
      ¬ bytes "SSID=" <:+: p1 ++ p2 →
      clientLoop L (p2 ++ rest) ⟨e, 0, capD s p1⟩
        = clientLoop L rest ⟨e, 0, capD s (p1 ++ p2)⟩ := by
  induction p2 with
  | nil => intro p1 _ _; simp
  | cons c p2 ih =>
    intro p1 hc hp
    obtain ⟨h38, h10, h13⟩ := hc c (List.mem_cons_self _ _)
    have hsuf : ¬ bytes "SSID=" <:+ p1 ++ [c] := by
      rintro ⟨u, hu⟩
      exact hp ⟨u, p2, by rw [hu]; simp⟩
    have hstep := captureChar_capD s p1 c h38 h10 h13 hsuf
    rw [List.cons_append, clientLoop_step L e _ c _ rfl (by rw [hstep]; exact (by decide : (1 : Nat) ≠ 2)), hstep,
      ih (p1 ++ [c]) (fun d hd => hc d (List.mem_cons_of_mem _ hd)) (by simpa using hp)]
    simp

/-- The per-character loop on a well-formed request: both strings are captured
and persisted. -/
theorem clientLoop_request (L : Layout) (e : Store) (s p : List Nat)
    (hs : ∀ c ∈ s, c ≠ 38 ∧ c ≠ 10 ∧ c ≠ 13) (hp : ∀ c ∈ p, c ≠ 38 ∧ c ≠ 10 ∧ c ≠ 13)
    (hsp : ¬ bytes "PASSWORD=" <:+: s) (hps : ¬ bytes "SSID=" <:+: p) :
    clientLoop L (bytes "SSID=" ++ s ++ bytes "&PASSWORD=" ++ p ++ bytes "&")
        ⟨e, 0, freshCapture⟩
      = ⟨persistCredentials L e s p, 1, capE s p⟩ := by
  have e1 : bytes "SSID=" ++ s ++ bytes "&PASSWORD=" ++ p ++ bytes "&"
      = 83 :: 83 :: 73 :: 68 :: 61 ::
        (s ++ (38 :: ([80, 65, 83, 83, 87, 79, 82, 68] ++ (61 :: (p ++ [38]))))) := by
    rw [bytes_ssid, bytes_amp, show bytes "&PASSWORD=" = [38, 80, 65, 83, 83, 87, 79, 82, 68, 61]
      from rfl]
    simp
  have hA : ∀ rest, clientLoop L (83 :: 83 :: 73 :: 68 :: 61 :: rest) ⟨e, 0, freshCapture⟩
      = clientLoop L rest ⟨e, 0, capB []⟩ := by
    intro rest
    rw [clientLoop_step L e _ 83 _ rfl (by decide), clientLoop_step L e _ 83 _ (by decide) (by decide),
      clientLoop_step L e _ 73 _ (by decide) (by decide),
      clientLoop_step L e _ 68 _ (by decide) (by decide),
      clientLoop_step L e _ 61 _ (by decide) (by decide)]
    congr 2
  rw [e1, hA, clientLoop_capB L e _ s [] hs (by simpa using hsp), List.nil_append,
    clientLoop_step L e _ 38 _ rfl (by rw [captureChar_capB_amp]; exact (by decide : (0 : Nat) ≠ 2)), captureChar_capB_amp,
    clientLoop_capC L e s _ _ [] (by decide), List.nil_append,
    clientLoop_step L e _ 61 _ rfl (by rw [captureChar_capC_eq]; exact (by decide : (1 : Nat) ≠ 2)), captureChar_capC_eq,
    clientLoop_capD L e s _ p [] hp (by simpa using hps), List.nil_append]
  exact clientLoop_last L e _ 38 s p rfl (captureChar_capD_amp s p)

/-- After the persistence step `SOL_hasWiFiCredentials` returns 1, whatever the
layout: the flag write is the last one. -/
theorem hasWiFiCredentials_persist (L : Layout) (e : Store) (ssid pswd : List Nat)
    (g : Credentials) :
    (SOL_hasWiFiCredentials L (persistCredentials L e ssid pswd) g).1 = 1 := by
  rw [hasWiFiCredentials_fst]
  unfold persistCredentials
  simp only [read_write_same]
  rfl

theorem startProvisioning_single (L : Layout) (e : Store) (stream : List Nat) :
    SOL_startProvisioning L e [stream]
      = ⟨(clientLoop L stream ⟨e, 0, freshCapture⟩).eeprom,
          (clientLoop L stream ⟨e, 0, freshCapture⟩).finished,
          (clientLoop L stream ⟨e, 0, freshCapture⟩).cap.net_ssid,
          (clientLoop L stream ⟨e, 0, freshCapture⟩).cap.net_pswd⟩ := rfl

/-- C9 as stated fails: a carriage return is not added to `current_line`, so
the password "SSID\r=x" (no "&", no newline, no "SSID=" in it) makes the line
end with "SSID=" and restarts the SSID capture; the SSID captured for
"MyNet" is then "MyNetx". -/
theorem provisioning_capture_counterexample :
    (38 ∉ bytes "MyNet" ∧ 10 ∉ bytes "MyNet" ∧ ¬ bytes "PASSWORD=" <:+: bytes "MyNet") ∧
    (38 ∉ bytes "SSID\r=x" ∧ 10 ∉ bytes "SSID\r=x" ∧ ¬ bytes "SSID=" <:+: bytes "SSID\r=x") ∧
    (SOL_startProvisioning V2.layout V2.erased
        [request (bytes "MyNet") (bytes "SSID\r=x")]).finished = 1 ∧
    (SOL_startProvisioning V2.layout V2.erased
        [request (bytes "MyNet") (bytes "SSID\r=x")]).net_ssid = bytes "MyNetx" ∧
    (SOL_startProvisioning V2.layout V2.erased
        [request (bytes "MyNet") (bytes "SSID\r=x")]).net_ssid ≠ bytes "MyNet" := by
  refine ⟨by decide, by decide, by decide, by decide, by decide⟩

/-- C9, amended: for every SSID `s` (the empty one included) and password `p`
without "&", line feed and carriage return, with no "PASSWORD=" in `s` and no
"SSID=" in `p`, the per-character loop of `SOL_startProvisioning` fed
"SSID=" ++ s ++ "&PASSWORD=" ++ p ++ "&" from a fresh connection captures
`net_ssid = s` and `net_pswd = p`, persists them and sets `finished = 1`, and
`SOL_hasWiFiCredentials` returns 1 afterwards. -/
theorem provisioning_capture (L : Layout) (e : Store) (s p : List Nat) (g : Credentials)
    (hs : ∀ c ∈ s, c ≠ 38 ∧ c ≠ 10 ∧ c ≠ 13) (hp : ∀ c ∈ p, c ≠ 38 ∧ c ≠ 10 ∧ c ≠ 13)
    (hsp : ¬ bytes "PASSWORD=" <:+: s) (hps : ¬ bytes "SSID=" <:+: p) :
    (SOL_startProvisioning L e [request s p]).net_ssid = s ∧
      (SOL_startProvisioning L e [request s p]).net_pswd = p ∧
      (SOL_startProvisioning L e [request s p]).finished = 1 ∧
      (SOL_startProvisioning L e [request s p]).eeprom = persistCredentials L e s p ∧
      (SOL_hasWiFiCredentials L (SOL_startProvisioning L e [request s p]).eeprom g).1 = 1 := by
  have h : SOL_startProvisioning L e [request s p]
      = ⟨persistCredentials L e s p, 1, s, p⟩ := by
    rw [startProvisioning_single, request, clientLoop_request L e s p hs hp hsp hps]
    rfl
  rw [h]
  exact ⟨rfl, rfl, rfl, rfl, hasWiFiCredentials_persist L e s p g⟩

theorem provisioning_capture_witness :
    (SOL_startProvisioning V2.layout V2.erased
        [request (bytes "MyNet") (bytes "secret123")]).net_ssid = bytes "MyNet" ∧
      (SOL_startProvisioning V2.layout V2.erased
        [request (bytes "MyNet") (bytes "secret123")]).net_pswd = bytes "secret123" ∧
      (SOL_startProvisioning V2.layout V2.erased
        [request (bytes "MyNet") (bytes "secret123")]).finished = 1 ∧
      (SOL_startProvisioning V2.layout V2.erased
          [request (bytes "MyNet") (bytes "secret123")]).eeprom
        = persistCredentials V2.layout V2.erased (bytes "MyNet") (bytes "secret123") ∧
      (SOL_hasWiFiCredentials V2.layout
        (SOL_startProvisioning V2.layout V2.erased
          [request (bytes "MyNet") (bytes "secret123")]).eeprom noCredentials).1 = 1 :=
  provisioning_capture V2.layout V2.erased (bytes "MyNet") (bytes "secret123") noCredentials
    (by decide) (by decide) (by decide) (by decide)

/-- What any character does to the capture. -/
theorem captureChar_eq (c : Nat) (line ns np : List Nat) (ss ps : Nat) (stp : Bool) :
    captureChar c ⟨line, ns, np, ss, ps, stp⟩ =
      if c = 10 ∧ line.length = 0 then ⟨line, ns, np, ss, ps, true⟩
      else
        ⟨if c = 10 then [] else if c ≠ 13 then line ++ [c] else line,
          if ss = 1 ∧ endsWith (if c = 10 then [] else if c ≠ 13 then line ++ [c] else line) "&"
            = false then ns ++ [c] else ns,
          if ps = 1 ∧ endsWith (if c = 10 then [] else if c ≠ 13 then line ++ [c] else line) "&"
            = false then np ++ [c] else np,
          if endsWith (if c = 10 then [] else if c ≠ 13 then line ++ [c] else line) "SSID="
            = true then 1
          else if ss = 1 ∧
            endsWith (if c = 10 then [] else if c ≠ 13 then line ++ [c] else line) "&" = true
          then 2 else ss,
          if endsWith (if c = 10 then [] else if c ≠ 13 then line ++ [c] else line) "PASSWORD="
            = true then 1
          else if ps = 1 ∧
            endsWith (if c = 10 then [] else if c ≠ 13 then line ++ [c] else line) "&" = true
          then 2 else ps,
          stp⟩ := by
  unfold captureChar readLine
  by_cases h : c = 10 ∧ line.length = 0
  · rw [if_pos h, if_pos h]
  · rw [if_neg h, if_neg h]
    by_cases h10 : c = 10
    · simp only [h10, if_true]
      rw [assembleSsid_eq, assemblePswd_eq]
    · simp only [h10, if_false]
      by_cases h13 : c = 13
      · subst h13
        simp only [ne_eq, not_true_eq_false, if_false]
        rw [assembleSsid_eq, assemblePswd_eq]
      · simp only [h13, ne_eq, not_false_eq_true, if_true]
        rw [assembleSsid_eq, assemblePswd_eq]

/-- The line buffer is always the end of what was received, carriage returns
left out; and a capture that has started has seen its token there. -/
theorem captured_invariant (received : List Nat) :
    (captured received).current_line <:+ withoutCR received ∧
      ((captured received).ssid_state ≠ 0 → bytes "SSID=" <:+: withoutCR received) ∧
      ((captured received).pswd_state ≠ 0 → bytes "PASSWORD=" <:+: withoutCR received) := by
  induction received using List.reverseRecOn with
  | nil => exact ⟨List.suffix_refl _, fun h => absurd rfl h, fun h => absurd rfl h⟩
  | append_singleton r c ih =>
    obtain ⟨h1, h2, h3⟩ := ih
    have hstep : captured (r ++ [c]) = captureChar c (captured r) := by
      simp [captured, List.foldl_append]
    rw [hstep]
    generalize captured r = cap at h1 h2 h3
    obtain ⟨line, ns, np, ss, ps, stp⟩ := cap
    simp only at h1 h2 h3
    have hmono : ∀ tok : List Nat, tok <:+: withoutCR r → tok <:+: withoutCR (r ++ [c]) := by
      intro tok h
      unfold withoutCR at *
      rw [List.filter_append]
      exact h.trans (List.prefix_append _ _).isInfix
    have hline : (if c = 10 then [] else if c ≠ 13 then line ++ [c] else line)
        <:+ withoutCR (r ++ [c]) := by
      unfold withoutCR at *
      rw [List.filter_append]
      by_cases h10 : c = 10
      · rw [if_pos h10]
        exact List.nil_suffix
      · by_cases h13 : c = 13
        · simp only [h10, if_false, h13, ne_eq, not_true_eq_false, decide_False,
            List.filter_cons_of_neg, List.filter_nil, List.append_nil, Bool.false_eq_true,
            not_false_eq_true]
          exact h1
        · simp only [h10, if_false, h13, ne_eq, not_false_eq_true, if_true, decide_True,
            List.filter_cons_of_pos, List.filter_nil]
          obtain ⟨u, hu⟩ := h1
          exact ⟨u, by rw [← hu]; simp⟩
    rw [captureChar_eq]
    by_cases h : c = 10 ∧ line.length = 0
    · rw [if_pos h]
      have : line = [] := List.length_eq_zero.mp h.2
      subst this
      exact ⟨List.nil_suffix, fun hh => hmono _ (h2 hh), fun hh => hmono _ (h3 hh)⟩
    · rw [if_neg h]
      refine ⟨hline, ?_, ?_⟩
      · simp only
        intro hh
        by_cases htok : endsWith (if c = 10 then [] else if c ≠ 13 then line ++ [c] else line)
            "SSID=" = true
        · exact ((endsWith_iff _ _).mp htok).isInfix.trans hline.isInfix
        · rw [if_neg htok] at hh
          apply hmono _ (h2 _)
          intro h0
          rw [h0] at hh
          simp at hh
      · simp only
        intro hh
        by_cases htok : endsWith (if c = 10 then [] else if c ≠ 13 then line ++ [c] else line)
            "PASSWORD=" = true
        · exact ((endsWith_iff _ _).mp htok).isInfix.trans hline.isInfix
        · rw [if_neg htok] at hh
          apply hmono _ (h3 _)
          intro h0
          rw [h0] at hh
          simp at hh

/-- A stream without the token "SSID=", or without the token "PASSWORD=",
never terminates both captures. -/
theorem bothTerminated_of_token (stream : List Nat)
    (h : ¬ bytes "SSID=" <:+: withoutCR stream ∨ ¬ bytes "PASSWORD=" <:+: withoutCR stream) :
    bothTerminated stream = false := by
  unfold bothTerminated
  rw [List.any_eq_false]
  intro r hr
  have hpre : withoutCR r <+: withoutCR stream :=
    List.IsPrefix.filter _ ((List.mem_inits r stream).mp hr)
  obtain ⟨-, h2, h3⟩ := captured_invariant r
  intro hb
  simp only [Bool.and_eq_true, Bool.not_eq_true', beq_iff_eq] at hb
  rcases h with h | h
  · exact h ((h2 (by rw [hb.1.2]; decide)).trans hpre.isInfix)
  · exact h ((h3 (by rw [hb.2]; decide)).trans hpre.isInfix)

/-- As long as the two captures are never both terminated the per-character
loop leaves the EEPROM and `finished` alone. -/
theorem clientLoop_quiet (L : Layout) (e : Store) (stream : List Nat) :
    ∀ cap : Capture,
      (∀ r, r <+: stream → r ≠ [] →
        ¬ ((r.foldl (fun st c => captureChar c st) cap).stopped = false ∧
            (r.foldl (fun st c => captureChar c st) cap).ssid_state = 2 ∧
            (r.foldl (fun st c => captureChar c st) cap).pswd_state = 2)) →
      (clientLoop L stream ⟨e, 0, cap⟩).eeprom = e ∧
        (clientLoop L stream ⟨e, 0, cap⟩).finished = 0 := by
  induction stream with
  | nil => intro cap _; exact ⟨rfl, rfl⟩
  | cons c cs ih =>
    intro cap h
    rw [clientLoop]
    by_cases hst : cap.stopped = true
    · simp [hst]
    · have h1 := h [c] (by simp) (by simp)
      simp only [List.foldl_cons, List.foldl_nil] at h1
      have hc : clientChar L c ⟨e, 0, cap⟩ = ⟨e, 0, captureChar c cap⟩ := by
        unfold clientChar
        rw [if_neg]
        intro hh
        apply h1
        simpa [and_comm] using hh
      simp only [ne_eq, not_true_eq_false, hst, or_self, if_false, hc]
      apply ih
      intro r hr hne
      have := h (c :: r) (by simpa using hr) (by simp)
      simpa using this

/-- A list that ends with "&" and has a part `y` at its end that is not empty:
the "&" is in `y`. -/
theorem last_amp_mem (x y u : List Nat) (h : x ++ y = u ++ [38]) (hne : y ≠ []) : 38 ∈ y := by
  obtain ⟨y', z, rfl⟩ := (List.eq_nil_or_concat y).resolve_left hne
  rw [List.concat_eq_append] at h ⊢
  rw [← List.append_assoc] at h
  have hz : [z] = [38] := List.append_inj_right' h rfl
  have : z = 38 := by simpa using hz
  subst this
  simp

/-- A token with an "&" after it, carriage returns left out, is what `ampAfter`
tests. -/
theorem ampAfter_intro (tok : String) (stream a b : List Nat)
    (h : withoutCR stream = a ++ bytes tok ++ b) (hb : 38 ∈ b) : ampAfter tok stream = true := by
  unfold ampAfter
  rw [List.any_eq_true]
  refine ⟨bytes tok ++ b, ?_, ?_⟩
  · rw [List.mem_tails, h, List.append_assoc]
    exact List.suffix_append _ _
  · simp [hb]

/-- A token that occurs before the end of a stream ending in "&" has an "&"
after it. -/
theorem amp_after_token (tok w : List Nat) (ht : tok <:+: w) (hw : [38] <:+ w)
    (htok : 38 ∉ tok) (ht0 : tok ≠ []) : ∃ a b, w = a ++ tok ++ b ∧ 38 ∈ b := by
  obtain ⟨a, b, hab⟩ := ht
  obtain ⟨u, hu⟩ := hw
  refine ⟨a, b, hab.symm, ?_⟩
  have h1 : a ++ (tok ++ b) = u ++ [38] := by rw [hu, ← hab, List.append_assoc]
  by_cases hb : b = []
  · subst hb
    rw [List.append_nil] at h1
    exact absurd (last_amp_mem a tok u h1 ht0) htok
  · have := last_amp_mem a (tok ++ b) u h1 (by simp [hb])
    rcases List.mem_append.mp this with h | h
    · exact absurd h htok
    · exact h

/-- A capture that is terminated has seen its token, carriage returns left
out, and an "&" after it. -/
theorem captured_terminated (received : List Nat) :
    ((captured received).ssid_state = 2 →
        ∃ a b, withoutCR received = a ++ bytes "SSID=" ++ b ∧ 38 ∈ b) ∧
      ((captured received).pswd_state = 2 →
        ∃ a b, withoutCR received = a ++ bytes "PASSWORD=" ++ b ∧ 38 ∈ b) := by
  induction received using List.reverseRecOn with
  | nil => exact ⟨fun h => absurd h (by decide), fun h => absurd h (by decide)⟩
  | append_singleton r c ih =>
    obtain ⟨i1, i2⟩ := ih
    obtain ⟨k1, k2, k3⟩ := captured_invariant r
    have k4 := (captured_invariant (r ++ [c])).1
    have hstep : captured (r ++ [c]) = captureChar c (captured r) := by
      simp [captured, List.foldl_append]
    rw [hstep] at k4 ⊢
    generalize captured r = cap at i1 i2 k1 k2 k3 k4
    obtain ⟨line, ns, np, ss, ps, stp⟩ := cap
    simp only at i1 i2 k1 k2 k3
    have hmono : ∀ tok : List Nat, (∃ a b, withoutCR r = a ++ tok ++ b ∧ 38 ∈ b) →
        ∃ a b, withoutCR (r ++ [c]) = a ++ tok ++ b ∧ 38 ∈ b := by
      rintro tok ⟨a, b, h, hb⟩
      refine ⟨a, b ++ withoutCR [c], ?_, List.mem_append_left _ hb⟩
      unfold withoutCR at *
      rw [List.filter_append, h]
      simp
    have hinf : ∀ tok : List Nat, tok <:+: withoutCR r → tok <:+: withoutCR (r ++ [c]) := by
      intro tok h
      unfold withoutCR at *
      rw [List.filter_append]
      exact h.trans (List.prefix_append _ _).isInfix
    rw [captureChar_eq] at k4 ⊢
    by_cases h : c = 10 ∧ line.length = 0
    · rw [if_pos h]
      exact ⟨fun hh => hmono _ (i1 hh), fun hh => hmono _ (i2 hh)⟩
    · rw [if_neg h] at k4 ⊢
      simp only at k4 ⊢
      generalize (if c = 10 then [] else if c ≠ 13 then line ++ [c] else line) = line1 at k4 ⊢
      refine ⟨?_, ?_⟩
      · intro hh
        by_cases htok : endsWith line1 "SSID=" = true
        · rw [if_pos htok] at hh
          exact absurd hh (by decide)
        · rw [if_neg htok] at hh
          by_cases hamp : ss = 1 ∧ endsWith line1 "&" = true
          · have hw : [38] <:+ withoutCR (r ++ [c]) := by
              have := (endsWith_iff _ _).mp hamp.2
              rw [bytes_amp] at this
              exact this.trans k4
            exact amp_after_token _ _ (hinf _ (k2 (by rw [hamp.1]; decide))) hw (by decide)
              (by decide)
          · rw [if_neg hamp] at hh
            exact hmono _ (i1 hh)
      · intro hh
        by_cases htok : endsWith line1 "PASSWORD=" = true
        · rw [if_pos htok] at hh
          exact absurd hh (by decide)
        · rw [if_neg htok] at hh
          by_cases hamp : ps = 1 ∧ endsWith line1 "&" = true
          · have hw : [38] <:+ withoutCR (r ++ [c]) := by
              have := (endsWith_iff _ _).mp hamp.2
              rw [bytes_amp] at this
              exact this.trans k4
            exact amp_after_token _ _ (hinf _ (k3 (by rw [hamp.1]; decide))) hw (by decide)
              (by decide)
          · rw [if_neg hamp] at hh
            exact hmono _ (i2 hh)

/-- A stream in which, carriage returns left out, no "&" follows the token
"SSID=", or none follows the token "PASSWORD=", never terminates both
captures. -/
theorem bothTerminated_of_amp (stream : List Nat)
    (h : ampAfter "SSID=" stream = false ∨ ampAfter "PASSWORD=" stream = false) :
    bothTerminated stream = false := by
  unfold bothTerminated
  rw [List.any_eq_false]
  intro r hr
  obtain ⟨u, hu⟩ := (List.mem_inits r stream).mp hr
  have hpre : ∀ tok : String, (∃ a b, withoutCR r = a ++ bytes tok ++ b ∧ 38 ∈ b) →
      ampAfter tok stream = true := by
    rintro tok ⟨a, b, hab, hb⟩
    apply ampAfter_intro tok stream a (b ++ withoutCR u) _ (List.mem_append_left _ hb)
    rw [← hu]
    unfold withoutCR at *
    rw [List.filter_append, hab]
    simp
  obtain ⟨h2, h3⟩ := captured_terminated r
  intro hb
  simp only [Bool.and_eq_true, Bool.not_eq_true', beq_iff_eq] at hb
  rcases h with h | h
  · rw [hpre _ (h2 hb.1.2)] at h
    exact absurd h (by decide)
  · rw [hpre _ (h3 hb.2)] at h
    exact absurd h (by decide)

/-- C10 as stated fails: the stream `SS\rID=MyNet&PASS\rWORD=secret123&`
contains neither the token "SSID=" nor the token "PASSWORD=", yet
`SOL_startProvisioning` of `SOL.cpp` drops the carriage returns from
`current_line`, tests the tokens there, terminates both captures and persists
("MyNet", "secret123"): `finished` is 1 and the flag byte, 255 before, is 1. -/
theorem provisioning_persists_nothing_counterexample :
    ¬ bytes "SSID=" <:+: splitTokenRequest ∧
      ¬ bytes "PASSWORD=" <:+: splitTokenRequest ∧
      (SOL_startProvisioning V2.layout V2.erased [splitTokenRequest]).finished = 1 ∧
      (SOL_startProvisioning V2.layout V2.erased [splitTokenRequest]).net_ssid
        = bytes "MyNet" ∧
      (SOL_startProvisioning V2.layout V2.erased [splitTokenRequest]).net_pswd
        = bytes "secret123" ∧
      SOL_readEEPROMByte V2.erased V2.layout.EEPROM_ADDRESS_WIFI_CREDENTIALS_AVAILABLE = 255 ∧
      SOL_readEEPROMByte (SOL_startProvisioning V2.layout V2.erased [splitTokenRequest]).eeprom
        V2.layout.EEPROM_ADDRESS_WIFI_CREDENTIALS_AVAILABLE = 1 ∧
      (SOL_hasWiFiCredentials V2.layout
        (SOL_startProvisioning V2.layout V2.erased [splitTokenRequest]).eeprom
        noCredentials).1 = 1 := by
  refine ⟨by decide, by decide, by decide, by decide, by decide, by decide, by decide,
    by decide⟩

/-- C10, amended: first-generation provisioning persists nothing unless
capture completes. For every sequence of client connections and every byte
stream on them in which the SSID capture and the PASSWORD capture are never
both terminated, in particular for every stream that, with its carriage
returns left out, never contains the token "SSID=" or never contains the
token "PASSWORD=", or has no "&" after the token "SSID=" or none after the
token "PASSWORD=", `SOL_startProvisioning` makes no EEPROM write: it returns
with `finished = 0` and the EEPROM it started with, byte for byte. -/
theorem provisioning_persists_nothing (L : Layout) (e : Store) (clients : List (List Nat))
    (h : ∀ stream ∈ clients,
      bothTerminated stream = false ∨ ¬ bytes "SSID=" <:+: withoutCR stream ∨
        ¬ bytes "PASSWORD=" <:+: withoutCR stream ∨
        ampAfter "SSID=" stream = false ∨ ampAfter "PASSWORD=" stream = false) :
    (SOL_startProvisioning L e clients).eeprom = e ∧
      (SOL_startProvisioning L e clients).finished = 0 := by
  have h' : ∀ stream ∈ clients, bothTerminated stream = false := by
    intro stream hs
    rcases h stream hs with hb | ht | ht | ha | ha
    · exact hb
    · exact bothTerminated_of_token stream (Or.inl ht)
    · exact bothTerminated_of_token stream (Or.inr ht)
    · exact bothTerminated_of_amp stream (Or.inl ha)
    · exact bothTerminated_of_amp stream (Or.inr ha)
  have key : ∀ (cs : List (List Nat)) (pr : Provisioned),
      (∀ stream ∈ cs, bothTerminated stream = false) → pr.eeprom = e → pr.finished = 0 →
      (cs.foldl (serveClient L) pr).eeprom = e ∧ (cs.foldl (serveClient L) pr).finished = 0 := by
    intro cs
    induction cs with
    | nil => exact fun pr _ h1 h2 => ⟨h1, h2⟩
    | cons stream cs ih =>
      intro pr hcs h1 h2
      have hq := hcs stream (List.mem_cons_self _ _)
      have hloop := clientLoop_quiet L e stream freshCapture (by
        intro r hr _
        unfold bothTerminated at hq
        rw [List.any_eq_false] at hq
        have := hq r ((List.mem_inits r stream).mpr hr)
        simpa [captured, and_assoc] using this)
      rw [List.foldl_cons]
      apply ih _ (fun s hs => hcs s (List.mem_cons_of_mem _ hs))
      · simp only [serveClient, h2, ne_eq, not_true_eq_false, if_false, h1]
        exact hloop.1
      · simp only [serveClient, h2, ne_eq, not_true_eq_false, if_false, h1]
        exact hloop.2
  exact key clients _ h' rfl rfl

theorem provisioning_persists_nothing_witness :
    (∀ stream ∈ incompleteRequests,
      ampAfter "SSID=" stream = false ∨ ampAfter "PASSWORD=" stream = false) ∧
      (SOL_startProvisioning V2.layout V2.erased incompleteRequests).eeprom = V2.erased ∧
      (SOL_startProvisioning V2.layout V2.erased incompleteRequests).finished = 0 :=
  ⟨by decide,
    provisioning_persists_nothing V2.layout V2.erased incompleteRequests (by decide)⟩

end V1

/-! ## Events of the wake cycle of SOL_V2 -/

namespace V2

theorem set_time_from_ntp_trace (inp : Inputs) (st : State) :
    (SOL_set_time_from_ntp inp st).trace = st.trace ++ ntpEvents inp st.eeprom := by
  unfold SOL_set_time_from_ntp ntpEvents
  simp only
  rw [hasWiFiCredentials_fst]
  have hl : layout.EEPROM_ADDRESS_WIFI_CREDENTIALS_AVAILABLE
      = EEPROM_ADDRESS_WIFI_CREDENTIALS_AVAILABLE := rfl
  rw [hl]
  by_cases hf : SOL_readEEPROMByte st.eeprom EEPROM_ADDRESS_WIFI_CREDENTIALS_AVAILABLE = 1
  · simp only [hf, if_true, ne_eq, one_ne_zero, not_false_eq_true]
    split
    · split <;> simp
    · simp
  · simp [hf]

theorem set_time_from_ntp_sleepCount (inp : Inputs) (st : State) :
    (SOL_set_time_from_ntp inp st).sleepCount = st.sleepCount := by
  unfold SOL_set_time_from_ntp
  simp only
  split
  · split
    · split <;> rfl
    · rfl
  · rfl

/-- The trace after one wake cycle. -/
theorem task_trace (st : State) (inp : Inputs) :
    (SOL_task st inp).trace
      = st.trace ++
        ((if inp.touch then
            Event.startProvisioning ::
              (match inp.portal with
              | some (connected_ssid, connected_pswd) =>
                ntpEvents inp (resetNextStorageAddress
                  (persistCredentials layout st.eeprom connected_ssid connected_pswd))
              | none => [])
          else if SOL_readEEPROMByte st.eeprom EEPROM_ADDRESS_WIFI_CREDENTIALS_AVAILABLE = 1 then
            Event.generateDataPacket (taskPacket st inp) ::
              (if datapoints (storeDataPacket st.eeprom (taskPacket st inp))
                  ≥ SENSE_COUNT_TO_SEND then
                Event.connectToWiFi inp.connect ::
                  (if inp.connect = true then
                    Event.upload :: ntpEvents inp
                      (resetNextStorageAddress (storeDataPacket st.eeprom (taskPacket st inp)))
                  else [])
              else [])
          else [])
          ++ [Event.deepsleep SLEEP_TIME_SECONDS]) := by
  unfold SOL_task SOL_deepsleep taskPacket
  simp only
  by_cases ht : inp.touch = true
  · simp only [ht, if_true]
    unfold SOL_startProvisioning
    simp only
    split
    · rw [set_time_from_ntp_trace]
      simp
    · simp
  · simp only [ht, if_false, Bool.false_eq_true]
    rw [hasWiFiCredentials_fst]
    unfold SOL_upload SOL_generateDataPacket
    simp only [set_time_from_ntp_trace]
    have hl : layout.EEPROM_ADDRESS_WIFI_CREDENTIALS_AVAILABLE
        = EEPROM_ADDRESS_WIFI_CREDENTIALS_AVAILABLE := rfl
    rw [hl]
    split_ifs <;> simp_all

theorem cycleEvents_eq (st : State) (inp : Inputs) :
    cycleEvents st inp
      = (if inp.touch then
            Event.startProvisioning ::
              (match inp.portal with
              | some (connected_ssid, connected_pswd) =>
                ntpEvents inp (resetNextStorageAddress
                  (persistCredentials layout st.eeprom connected_ssid connected_pswd))
              | none => [])
          else if SOL_readEEPROMByte st.eeprom EEPROM_ADDRESS_WIFI_CREDENTIALS_AVAILABLE = 1 then
            Event.generateDataPacket (taskPacket st inp) ::
              (if datapoints (storeDataPacket st.eeprom (taskPacket st inp))
                  ≥ SENSE_COUNT_TO_SEND then
                Event.connectToWiFi inp.connect ::
                  (if inp.connect = true then
                    Event.upload :: ntpEvents inp
                      (resetNextStorageAddress (storeDataPacket st.eeprom (taskPacket st inp)))
                  else [])
              else [])
          else [])
          ++ [Event.deepsleep SLEEP_TIME_SECONDS] := by
  unfold cycleEvents
  rw [task_trace, List.drop_left]

theorem flag_reset (s : Store) :
    SOL_readEEPROMByte (resetNextStorageAddress s) EEPROM_ADDRESS_WIFI_CREDENTIALS_AVAILABLE
      = SOL_readEEPROMByte s EEPROM_ADDRESS_WIFI_CREDENTIALS_AVAILABLE := by
  unfold SOL_readEEPROMByte resetNextStorageAddress
  rw [writeCursor_apply]
  simp [EEPROM_ADDRESS_WIFI_CREDENTIALS_AVAILABLE]

theorem flag_persist (s : Store) (ssid pswd : List Nat) :
    SOL_readEEPROMByte (persistCredentials layout s ssid pswd)
      EEPROM_ADDRESS_WIFI_CREDENTIALS_AVAILABLE = 1 := by
  unfold SOL_readEEPROMByte
  rw [show EEPROM_ADDRESS_WIFI_CREDENTIALS_AVAILABLE % 65536 = 0 from rfl, persist_apply,
    if_pos rfl]

theorem datapoints_reset (s : Store) : datapoints (resetNextStorageAddress s) = 0 :=
  datapoints_aligned _ 0 (by omega) (readNext_reset s)

/-- C13: SOL_V2 wake-cause dispatch. For every state, when the wake cause is
the touchpad the events of `SOL_task` start with `SOL_startProvisioning` and
end with `SOL_deepsleep`, and none of them is a run of `SOL_generateDataPacket`
or of `SOL_upload`; if the configuration portal succeeds, at the end of the
cycle `SOL_hasWiFiCredentials` returns 1 and the datapoint count is 0. -/
theorem touch_dispatch (st : State) (inp : Inputs) (g : Credentials)
    (ht : inp.touch = true) :
    (cycleEvents st inp).head? = some Event.startProvisioning ∧
      (cycleEvents st inp).getLast? = some (Event.deepsleep SLEEP_TIME_SECONDS) ∧
      (∀ e ∈ cycleEvents st inp, e.isGenerateDataPacket = false ∧ e.isUpload = false) ∧
      (inp.portal.isSome = true →
        (SOL_hasWiFiCredentials layout (SOL_task st inp).eeprom g).1 = 1 ∧
          datapoints (SOL_task st inp).eeprom = 0) := by
  rw [cycleEvents_eq, task_eeprom, if_pos ht, if_pos ht]
  refine ⟨rfl, List.getLast?_concat _, ?_, ?_⟩
  · intro e he
    simp only [List.cons_append, List.mem_cons, List.mem_append, List.not_mem_nil,
      or_false] at he
    rcases he with rfl | he | rfl
    · exact ⟨rfl, rfl⟩
    · split at he
      · unfold ntpEvents at he
        simp only [List.mem_cons] at he
        rcases he with rfl | he
        · exact ⟨rfl, rfl⟩
        · split at he
          · simp only [List.mem_singleton] at he
            subst he
            exact ⟨rfl, rfl⟩
          · simp at he
      · simp at he
    · exact ⟨rfl, rfl⟩
  · intro hp
    cases hportal : inp.portal with
    | none => rw [hportal] at hp; simp at hp
    | some sp =>
      obtain ⟨ssid, pswd⟩ := sp
      simp only
      refine ⟨?_, datapoints_reset _⟩
      rw [hasWiFiCredentials_fst]
      have := flag_reset (persistCredentials layout st.eeprom ssid pswd)
      rw [flag_persist] at this
      exact if_pos this

theorem touch_dispatch_witness :
    (cycleEvents erasedState (touchWake (bytes "MyNet") (bytes "secret123"))).head?
        = some Event.startProvisioning ∧
      (cycleEvents erasedState (touchWake (bytes "MyNet") (bytes "secret123"))).getLast?
        = some (Event.deepsleep SLEEP_TIME_SECONDS) ∧
      (∀ e ∈ cycleEvents erasedState (touchWake (bytes "MyNet") (bytes "secret123")),
        e.isGenerateDataPacket = false ∧ e.isUpload = false) ∧
      ((touchWake (bytes "MyNet") (bytes "secret123")).portal.isSome = true →
        (SOL_hasWiFiCredentials layout
          (SOL_task erasedState (touchWake (bytes "MyNet") (bytes "secret123"))).eeprom
          noCredentials).1 = 1 ∧
          datapoints
            (SOL_task erasedState (touchWake (bytes "MyNet") (bytes "secret123"))).eeprom = 0) :=
  touch_dispatch erasedState (touchWake (bytes "MyNet") (bytes "secret123")) noCredentials rfl

/-- C14: SOL_V2 without credentials. For every state whose availability flag
byte is not 1 and every wake cause other than the touchpad, one run of
`SOL_task` leaves the EEPROM as it was, byte for byte, and its only event is
`SOL_deepsleep`: no record, no cursor update, no connection attempt. -/
theorem no_credentials_no_write (st : State) (inp : Inputs)
    (hf : SOL_readEEPROMByte st.eeprom EEPROM_ADDRESS_WIFI_CREDENTIALS_AVAILABLE ≠ 1)
    (ht : inp.touch = false) :
    (SOL_task st inp).eeprom = st.eeprom ∧
      cycleEvents st inp = [Event.deepsleep SLEEP_TIME_SECONDS] ∧
      ∀ e ∈ cycleEvents st inp, e.isConnectToWiFi = false := by
  have he : cycleEvents st inp = [Event.deepsleep SLEEP_TIME_SECONDS] := by
    rw [cycleEvents_eq, if_neg (by simp [ht]), if_neg hf]
    rfl
  refine ⟨?_, he, ?_⟩
  · rw [task_eeprom, if_neg (by simp [ht]), if_neg hf]
  · rw [he]
    intro e h
    simp only [List.mem_singleton] at h
    subst h
    rfl

theorem no_credentials_no_write_witness :
    (SOL_task erasedState timerWakeOnline).eeprom = erasedState.eeprom ∧
      cycleEvents erasedState timerWakeOnline = [Event.deepsleep SLEEP_TIME_SECONDS] ∧
      ∀ e ∈ cycleEvents erasedState timerWakeOnline, e.isConnectToWiFi = false :=
  no_credentials_no_write erasedState timerWakeOnline (by decide) rfl

/-- C15: SOL_V2 upload threshold. For every timer-wake run of `SOL_task` with
credentials available exactly one record is appended (one run of
`SOL_generateDataPacket`, whose storage step is the only write to the record
range), and if the datapoint count after that append is below
`SENSE_COUNT_TO_SEND` no event of the cycle is a call of `SOL_connectToWiFi`
and the EEPROM is left as the append left it. -/
theorem upload_threshold (st : State) (inp : Inputs)
    (ht : inp.touch = false)
    (hf : SOL_readEEPROMByte st.eeprom EEPROM_ADDRESS_WIFI_CREDENTIALS_AVAILABLE = 1) :
    (cycleEvents st inp).filter Event.isGenerateDataPacket
        = [Event.generateDataPacket (taskPacket st inp)] ∧
      ((SOL_task st inp).eeprom = storeDataPacket st.eeprom (taskPacket st inp) ∨
        (SOL_task st inp).eeprom
          = resetNextStorageAddress (storeDataPacket st.eeprom (taskPacket st inp))) ∧
      (datapoints (storeDataPacket st.eeprom (taskPacket st inp)) < SENSE_COUNT_TO_SEND →
        (∀ e ∈ cycleEvents st inp, e.isConnectToWiFi = false) ∧
          (SOL_task st inp).eeprom = storeDataPacket st.eeprom (taskPacket st inp)) := by
  have hev := cycleEvents_eq st inp
  have hee := task_eeprom st inp
  rw [if_neg (by simp [ht]), if_pos hf] at hev hee
  refine ⟨?_, ?_, ?_⟩
  · rw [hev]
    unfold ntpEvents
    split_ifs <;> simp [Event.isGenerateDataPacket]
  · rw [hee]
    unfold taskPacket
    split_ifs
    · exact Or.inr rfl
    · exact Or.inl rfl
  · intro hlt
    have hnot : ¬ datapoints (storeDataPacket st.eeprom (taskPacket st inp))
        ≥ SENSE_COUNT_TO_SEND := by omega
    refine ⟨?_, ?_⟩
    · rw [hev, if_neg hnot]
      intro e he
      simp only [List.cons_append, List.nil_append, List.mem_cons, List.not_mem_nil,
        or_false] at he
      rcases he with rfl | rfl <;> rfl
    · rw [hee]
      unfold taskPacket at hnot
      rw [if_neg (fun h => hnot h.1)]
      rfl

theorem upload_threshold_witness :
    (cycleEvents provisionedState timerWakeOnline).filter Event.isGenerateDataPacket
        = [Event.generateDataPacket (taskPacket provisionedState timerWakeOnline)] ∧
      ((SOL_task provisionedState timerWakeOnline).eeprom
          = storeDataPacket provisionedState.eeprom
              (taskPacket provisionedState timerWakeOnline) ∨
        (SOL_task provisionedState timerWakeOnline).eeprom
          = resetNextStorageAddress (storeDataPacket provisionedState.eeprom
              (taskPacket provisionedState timerWakeOnline))) ∧
      (datapoints (storeDataPacket provisionedState.eeprom
            (taskPacket provisionedState timerWakeOnline)) < SENSE_COUNT_TO_SEND →
        (∀ e ∈ cycleEvents provisionedState timerWakeOnline, e.isConnectToWiFi = false) ∧
          (SOL_task provisionedState timerWakeOnline).eeprom
            = storeDataPacket provisionedState.eeprom
                (taskPacket provisionedState timerWakeOnline)) :=
  upload_threshold provisionedState timerWakeOnline rfl (by decide)

/-- The retained variables after a timer wake whose connection attempt is not
made or fails: `sleepCount` is incremented and `lastNTPTime` is kept. -/
theorem task_retained (st : State) (inp : Inputs) (ht : inp.touch = false)
    (hc : inp.connect = false) :
    (SOL_task st inp).sleepCount = (st.sleepCount + 1) % 4294967296 ∧
      (SOL_task st inp).lastNTPTime = st.lastNTPTime := by
  unfold SOL_task SOL_deepsleep SOL_generateDataPacket
  simp only [ht, hc, Bool.false_eq_true, if_false]
  split_ifs <;> exact ⟨rfl, rfl⟩

/-- C17: SOL_V2 connection failure is non-fatal and loses nothing. For every
timer-wake run of `SOL_task` in which the datapoint count after the append
reaches the threshold and `SOL_connectToWiFi` returns 0, the EEPROM at the end
of the cycle is the EEPROM right after the append (so the datapoint count and
every stored record are the same), the events are the append, the failed
connection attempt and `SOL_deepsleep`, `sleepCount` keeps its incremented
value and `lastNTPTime` is unchanged. -/
theorem failed_connection_keeps_log (st : State) (inp : Inputs)
    (ht : inp.touch = false)
    (hf : SOL_readEEPROMByte st.eeprom EEPROM_ADDRESS_WIFI_CREDENTIALS_AVAILABLE = 1)
    (hd : SENSE_COUNT_TO_SEND ≤ datapoints (storeDataPacket st.eeprom (taskPacket st inp)))
    (hc : inp.connect = false) :
    (SOL_task st inp).eeprom = storeDataPacket st.eeprom (taskPacket st inp) ∧
      datapoints (SOL_task st inp).eeprom
        = datapoints (storeDataPacket st.eeprom (taskPacket st inp)) ∧
      pendingRecords (SOL_task st inp).eeprom
        = pendingRecords (storeDataPacket st.eeprom (taskPacket st inp)) ∧
      cycleEvents st inp
        = [Event.generateDataPacket (taskPacket st inp), Event.connectToWiFi false,
            Event.deepsleep SLEEP_TIME_SECONDS] ∧
      (SOL_task st inp).sleepCount = (st.sleepCount + 1) % 4294967296 ∧
      (SOL_task st inp).lastNTPTime = st.lastNTPTime := by
  have hee : (SOL_task st inp).eeprom = storeDataPacket st.eeprom (taskPacket st inp) := by
    rw [task_eeprom, if_neg (by simp [ht]), if_pos hf, if_neg (by simp [hc])]
    rfl
  refine ⟨hee, by rw [hee], by rw [hee], ?_, task_retained st inp ht hc⟩
  rw [cycleEvents_eq, if_neg (by simp [ht]), if_pos hf, if_pos hd, hc]
  rfl

theorem flag_storeDataPacket (s : Store) (data : data_packet_t)
    (hw : 0 < writeAddress s) :
    SOL_readEEPROMByte (storeDataPacket s data) EEPROM_ADDRESS_WIFI_CREDENTIALS_AVAILABLE
      = SOL_readEEPROMByte s EEPROM_ADDRESS_WIFI_CREDENTIALS_AVAILABLE := by
  unfold SOL_readEEPROMByte
  rw [show EEPROM_ADDRESS_WIFI_CREDENTIALS_AVAILABLE % 65536 = 0 from rfl,
    storeDataPacket_frame s data 0 (Or.inl hw) (by decide) (by decide)]

/-- A timer wake with credentials, from a log of `k` records that does not
wrap: the record is appended, the flag stays 1, and the count becomes `k + 1`. -/
theorem task_append (st : State) (inp : Inputs) (k : Nat) (hk : k + 1 ≤ 138)
    (hf : SOL_readEEPROMByte st.eeprom EEPROM_ADDRESS_WIFI_CREDENTIALS_AVAILABLE = 1)
    (hc : readNextStorageAddress st.eeprom = 111 + 28 * k) :
    SOL_readEEPROMByte (storeDataPacket st.eeprom (taskPacket st inp))
        EEPROM_ADDRESS_WIFI_CREDENTIALS_AVAILABLE = 1 ∧
      readNextStorageAddress (storeDataPacket st.eeprom (taskPacket st inp))
        = 111 + 28 * (k + 1) ∧
      datapoints (storeDataPacket st.eeprom (taskPacket st inp)) = k + 1 := by
  have hw : writeAddress st.eeprom = 111 + 28 * k := by
    rw [writeAddress_of_room _ (by omega), hc]
  have hn : readNextStorageAddress (storeDataPacket st.eeprom (taskPacket st inp))
      = 111 + 28 * (k + 1) := by
    rw [readNext_storeDataPacket, hw]
    omega
  refine ⟨?_, hn, datapoints_aligned _ (k + 1) hk hn⟩
  rw [flag_storeDataPacket _ _ (by omega), hf]

/-- A timer wake below the threshold: only the append happens. -/
theorem task_below (st : State) (inp : Inputs) (k : Nat) (hk : k + 1 < 4)
    (ht : inp.touch = false)
    (hf : SOL_readEEPROMByte st.eeprom EEPROM_ADDRESS_WIFI_CREDENTIALS_AVAILABLE = 1)
    (hc : readNextStorageAddress st.eeprom = 111 + 28 * k) :
    SOL_readEEPROMByte (SOL_task st inp).eeprom EEPROM_ADDRESS_WIFI_CREDENTIALS_AVAILABLE = 1 ∧
      readNextStorageAddress (SOL_task st inp).eeprom = 111 + 28 * (k + 1) ∧
      cycleEvents st inp
        = [Event.generateDataPacket (taskPacket st inp), Event.deepsleep SLEEP_TIME_SECONDS] := by
  obtain ⟨h1, h2, h3⟩ := task_append st inp k (by omega) hf hc
  have hnot : ¬ datapoints (storeDataPacket st.eeprom (taskPacket st inp))
      ≥ SENSE_COUNT_TO_SEND := by
    rw [h3, SENSE_COUNT_TO_SEND]; omega
  have hee : (SOL_task st inp).eeprom = storeDataPacket st.eeprom (taskPacket st inp) := by
    rw [task_eeprom, if_neg (by simp [ht]), if_pos hf]
    unfold taskPacket at hnot
    rw [if_neg (fun h => hnot h.1)]
    rfl
  refine ⟨by rw [hee, h1], by rw [hee, h2], ?_⟩
  rw [cycleEvents_eq, if_neg (by simp [ht]), if_pos hf, if_neg hnot]
  rfl

/-- The threshold cycle: the fourth record is appended and the connection is
attempted; when it succeeds the upload and the time resynchronisation follow,
and the latter attempts a connection of its own. -/
theorem task_threshold (st : State) (inp : Inputs)
    (ht : inp.touch = false)
    (hf : SOL_readEEPROMByte st.eeprom EEPROM_ADDRESS_WIFI_CREDENTIALS_AVAILABLE = 1)
    (hc : readNextStorageAddress st.eeprom = 111 + 28 * 3) :
    cycleEvents st inp
        = Event.generateDataPacket (taskPacket st inp) :: Event.connectToWiFi inp.connect ::
            ((if inp.connect = true then
                [Event.upload, Event.set_time_from_ntp, Event.connectToWiFi inp.ntpConnect]
              else []) ++ [Event.deepsleep SLEEP_TIME_SECONDS]) ∧
      (inp.connect = true → datapoints (SOL_task st inp).eeprom = 0) := by
  obtain ⟨h1, h2, h3⟩ := task_append st inp 3 (by omega) hf hc
  have hge : datapoints (storeDataPacket st.eeprom (taskPacket st inp))
      ≥ SENSE_COUNT_TO_SEND := by
    rw [h3]; exact (by decide : 3 + 1 ≥ SENSE_COUNT_TO_SEND)
  refine ⟨?_, ?_⟩
  · rw [cycleEvents_eq, if_neg (by simp [ht]), if_pos hf, if_pos hge]
    by_cases hcn : inp.connect = true
    · rw [if_pos hcn, if_pos hcn]
      unfold ntpEvents
      rw [flag_reset, h1, if_pos rfl]
      rfl
    · rw [if_neg hcn, if_neg hcn]
      rfl
  · intro hcn
    rw [task_eeprom, if_neg (by simp [ht]), if_pos hf]
    unfold taskPacket at hge
    rw [if_pos ⟨hge, hcn⟩]
    exact datapoints_reset _

/-- C16 as stated fails when the connection succeeds: from a freshly
provisioned device (cursor at the start, flag 1), in the fourth timer wake the
connection attempt of `SOL_task` succeeds, `SOL_upload` runs and
`SOL_set_time_from_ntp` calls `SOL_connectToWiFi` again: two invocations in
the cycle, not one. -/
theorem threshold_cycle_counterexample :
    ((cycleEvents (runCycles provisionedState [timerWakeOnline, timerWakeOnline, timerWakeOnline])
        timerWakeOnline).filter Event.isConnectToWiFi).length = 2 ∧
      (cycleEvents (runCycles provisionedState [timerWakeOnline, timerWakeOnline, timerWakeOnline])
        timerWakeOnline).filter Event.isConnectToWiFi
        = [Event.connectToWiFi true, Event.connectToWiFi true] ∧
      readNextStorageAddress provisionedState.eeprom = EEPROM_ADDRESS_DATA_RANGE_START_ADDRESS ∧
      SOL_readEEPROMByte provisionedState.eeprom EEPROM_ADDRESS_WIFI_CREDENTIALS_AVAILABLE = 1 := by
  refine ⟨by decide, by decide, by decide, by decide⟩

/-- C16, amended: from an empty log (cursor at the start) with credentials
available, none of the first three consecutive timer-wake runs of `SOL_task`
calls `SOL_connectToWiFi`; in the fourth `SOL_task` calls it once, as the
first connection attempt of the cycle; when that attempt fails it is the only
call, and when it succeeds `SOL_set_time_from_ntp` calls `SOL_connectToWiFi`
once more after the upload, and the datapoint count at the end of the cycle
is 0. -/
theorem threshold_cycle (st : State) (i1 i2 i3 i4 : Inputs)
    (h1 : i1.touch = false) (h2 : i2.touch = false) (h3 : i3.touch = false)
    (h4 : i4.touch = false)
    (hf : SOL_readEEPROMByte st.eeprom EEPROM_ADDRESS_WIFI_CREDENTIALS_AVAILABLE = 1)
    (hc : readNextStorageAddress st.eeprom = EEPROM_ADDRESS_DATA_RANGE_START_ADDRESS) :
    (∀ e ∈ cycleEvents st i1, e.isConnectToWiFi = false) ∧
      (∀ e ∈ cycleEvents (runCycles st [i1]) i2, e.isConnectToWiFi = false) ∧
      (∀ e ∈ cycleEvents (runCycles st [i1, i2]) i3, e.isConnectToWiFi = false) ∧
      (cycleEvents (runCycles st [i1, i2, i3]) i4).filter Event.isConnectToWiFi
        = Event.connectToWiFi i4.connect ::
            (if i4.connect = true then [Event.connectToWiFi i4.ntpConnect] else []) ∧
      (i4.connect = true → datapoints (runCycles st [i1, i2, i3, i4]).eeprom = 0) := by
  have hq : ∀ (d : data_packet_t) (e : Event),
      e ∈ [Event.generateDataPacket d, Event.deepsleep SLEEP_TIME_SECONDS] →
        e.isConnectToWiFi = false := by
    intro d e he
    simp only [List.mem_cons, List.not_mem_nil, or_false] at he
    rcases he with rfl | rfl <;> rfl
  obtain ⟨f1, c1, e1⟩ := task_below st i1 0 (by omega) h1 hf hc
  obtain ⟨f2, c2, e2⟩ := task_below (SOL_task st i1) i2 1 (by omega) h2 f1 c1
  obtain ⟨f3, c3, e3⟩ := task_below (SOL_task (SOL_task st i1) i2) i3 2 (by omega) h3 f2 c2
  obtain ⟨e4, d4⟩ := task_threshold (SOL_task (SOL_task (SOL_task st i1) i2) i3) i4 h4 f3 c3
  refine ⟨?_, ?_, ?_, ?_, d4⟩
  · rw [e1]; exact hq _
  · show ∀ e ∈ cycleEvents (SOL_task st i1) i2, _
    rw [e2]; exact hq _
  · show ∀ e ∈ cycleEvents (SOL_task (SOL_task st i1) i2) i3, _
    rw [e3]; exact hq _
  · show (cycleEvents (SOL_task (SOL_task (SOL_task st i1) i2) i3) i4).filter _ = _
    rw [e4]
    by_cases hcn : i4.connect = true <;> simp [hcn, Event.isConnectToWiFi]

theorem threshold_cycle_witness :
    (∀ e ∈ cycleEvents provisionedState timerWakeOnline, e.isConnectToWiFi = false) ∧
      (∀ e ∈ cycleEvents (runCycles provisionedState [timerWakeOnline]) timerWakeOnline,
        e.isConnectToWiFi = false) ∧
      (∀ e ∈ cycleEvents (runCycles provisionedState [timerWakeOnline, timerWakeOnline])
        timerWakeOnline, e.isConnectToWiFi = false) ∧
      (cycleEvents (runCycles provisionedState [timerWakeOnline, timerWakeOnline, timerWakeOnline])
        timerWakeOnline).filter Event.isConnectToWiFi
        = Event.connectToWiFi timerWakeOnline.connect ::
            (if timerWakeOnline.connect = true then
              [Event.connectToWiFi timerWakeOnline.ntpConnect] else []) ∧
      (timerWakeOnline.connect = true →
        datapoints (runCycles provisionedState
          [timerWakeOnline, timerWakeOnline, timerWakeOnline, timerWakeOnline]).eeprom = 0) :=
  threshold_cycle provisionedState timerWakeOnline timerWakeOnline timerWakeOnline
    timerWakeOnline rfl rfl rfl rfl (by decide) (by decide)

theorem failed_connection_keeps_log_witness :
    (SOL_task threeSampled timerWake).eeprom
        = storeDataPacket threeSampled.eeprom (taskPacket threeSampled timerWake) ∧
      datapoints (SOL_task threeSampled timerWake).eeprom
        = datapoints (storeDataPacket threeSampled.eeprom (taskPacket threeSampled timerWake)) ∧
      pendingRecords (SOL_task threeSampled timerWake).eeprom
        = pendingRecords (storeDataPacket threeSampled.eeprom
            (taskPacket threeSampled timerWake)) ∧
      cycleEvents threeSampled timerWake
        = [Event.generateDataPacket (taskPacket threeSampled timerWake),
            Event.connectToWiFi false, Event.deepsleep SLEEP_TIME_SECONDS] ∧
      (SOL_task threeSampled timerWake).sleepCount
        = (threeSampled.sleepCount + 1) % 4294967296 ∧
      (SOL_task threeSampled timerWake).lastNTPTime = threeSampled.lastNTPTime :=
  failed_connection_keeps_log threeSampled timerWake rfl (by decide) (by decide) rfl

/-- C18 as stated fails: after a threshold cycle whose connection attempt
failed (count 4), the next timer wake adds one record (count 5) and attempts
the connection again. -/
theorem retry_policy_counterexample :
    (cycleEvents threeSampled timerWake).filter Event.isConnectToWiFi
        = [Event.connectToWiFi false] ∧
      datapoints afterFailedThreshold.eeprom = 4 ∧
      (cycleEvents afterFailedThreshold timerWake).filter Event.isGenerateDataPacket
        = [Event.generateDataPacket (taskPacket afterFailedThreshold timerWake)] ∧
      datapoints (SOL_task afterFailedThreshold timerWake).eeprom = 5 ∧
      (cycleEvents afterFailedThreshold timerWake).filter Event.isConnectToWiFi
        = [Event.connectToWiFi false] := by
  refine ⟨by decide, by decide, by decide, by decide, by decide⟩

/-- C18, amended: in a state with credentials whose datapoint count is at or
above `SENSE_COUNT_TO_SEND` (as a threshold cycle with a failed connection
leaves it) and whose log does not wrap at the next append, a timer-wake run of
`SOL_task` adds a single record and then attempts the connection right away;
when the attempt fails again the count has grown by one, so the attempt is
repeated in every following cycle while the count stays at or above the
threshold. -/
theorem retry_policy (st : State) (inp : Inputs)
    (ht : inp.touch = false)
    (hf : SOL_readEEPROMByte st.eeprom EEPROM_ADDRESS_WIFI_CREDENTIALS_AVAILABLE = 1)
    (ha : cursorAligned (readNextStorageAddress st.eeprom))
    (hr : readNextStorageAddress st.eeprom + sizeof_data_packet_t
      < EEPROM_ADDRESS_DATA_RANGE_END_ADDRESS)
    (hd : SENSE_COUNT_TO_SEND ≤ datapoints st.eeprom) :
    datapoints (storeDataPacket st.eeprom (taskPacket st inp)) = datapoints st.eeprom + 1 ∧
      (cycleEvents st inp).take 2
        = [Event.generateDataPacket (taskPacket st inp), Event.connectToWiFi inp.connect] ∧
      (inp.connect = false →
        datapoints (SOL_task st inp).eeprom = datapoints st.eeprom + 1) := by
  obtain ⟨a1, a2, a3⟩ := ha
  simp only [EEPROM_ADDRESS_DATA_RANGE_START_ADDRESS, EEPROM_ADDRESS_DATA_RANGE_END_ADDRESS,
    sizeof_data_packet_t] at a1 a2 a3 hr
  have hk : readNextStorageAddress st.eeprom
      = 111 + 28 * ((readNextStorageAddress st.eeprom - 111) / 28) := by omega
  have hkb : (readNextStorageAddress st.eeprom - 111) / 28 + 1 ≤ 138 := by omega
  have hd0 := datapoints_aligned st.eeprom _ (by omega) hk
  obtain ⟨h1, h2, h3⟩ := task_append st inp _ hkb hf hk
  have hge : datapoints (storeDataPacket st.eeprom (taskPacket st inp))
      ≥ SENSE_COUNT_TO_SEND := by
    rw [h3, ← hd0]; omega
  have hfirst : datapoints (storeDataPacket st.eeprom (taskPacket st inp))
      = datapoints st.eeprom + 1 := by rw [h3, ← hd0]
  refine ⟨hfirst, ?_, ?_⟩
  · rw [cycleEvents_eq, if_neg (by simp [ht]), if_pos hf, if_pos hge]
    rfl
  · intro hcn
    rw [task_eeprom, if_neg (by simp [ht]), if_pos hf, if_neg (by simp [hcn])]
    exact hfirst

theorem retry_policy_witness :
    datapoints (storeDataPacket afterFailedThreshold.eeprom
        (taskPacket afterFailedThreshold timerWake))
        = datapoints afterFailedThreshold.eeprom + 1 ∧
      (cycleEvents afterFailedThreshold timerWake).take 2
        = [Event.generateDataPacket (taskPacket afterFailedThreshold timerWake),
            Event.connectToWiFi timerWake.connect] ∧
      (timerWake.connect = false →
        datapoints (SOL_task afterFailedThreshold timerWake).eeprom
          = datapoints afterFailedThreshold.eeprom + 1) :=
  retry_policy afterFailedThreshold timerWake rfl (by decide) (by decide) (by decide)
    (by decide)

/-- No wake cycle of SOL_V2 calls `SOL_uploadDataPacket`. -/
theorem no_uploadDataPacket (st : State) (inp : Inputs) :
    (cycleEvents st inp).filter Event.isUploadDataPacket = [] := by
  rw [cycleEvents_eq]
  unfold ntpEvents
  split_ifs <;> first | rfl | (split <;> rfl)

/-- C19 fails on the code: in `SOL_upload` of `SOL_V2.cpp` the call of
`SOL_uploadDataPacket` is commented out. In the threshold cycle of a device
with three stored records and a connection that succeeds, four records are
pending after the append, the events of the cycle contain `SOL_upload` but no
call of `SOL_uploadDataPacket`, and the cursor is reset to the start, which
leaves no record pending. -/
theorem upload_hands_over_nothing :
    (pendingRecords (storeDataPacket threeSampled.eeprom
        (taskPacket threeSampled timerWakeOnline))).map List.length = some 4 ∧
      cycleEvents threeSampled timerWakeOnline
        = [Event.generateDataPacket (taskPacket threeSampled timerWakeOnline),
            Event.connectToWiFi true, Event.upload, Event.set_time_from_ntp,
            Event.connectToWiFi true, Event.deepsleep SLEEP_TIME_SECONDS] ∧
      (cycleEvents threeSampled timerWakeOnline).filter Event.isUploadDataPacket = [] ∧
      readNextStorageAddress (SOL_task threeSampled timerWakeOnline).eeprom
        = EEPROM_ADDRESS_DATA_RANGE_START_ADDRESS ∧
      pendingRecords (SOL_task threeSampled timerWakeOnline).eeprom = some [] := by
  refine ⟨by decide, by decide, by decide, by decide, by decide⟩

end V2

/-! ## Length of the credentials at persistence -/

/-- The data bytes that `SOL_writeEEPROMNByte` writes are the first `n` bytes of
the buffer. -/
theorem writesNByte_snd (address : Nat) (data : List Nat) (n : Nat) (hn : n ≤ data.length) :
    (writesNByte address data n).map Prod.snd = data.take n := by
  apply List.ext_getElem
  · simp [writesNByte, hn]
  · intro i h1 h2
    simp only [writesNByte, List.map_map, List.length_map, List.length_range] at h1
    simp [writesNByte, List.getD_eq_getElem?_getD, List.getElem?_eq_getElem (by omega : i < data.length)]

/-- The addresses that `SOL_writeEEPROMNByte` writes are consecutive from the
start address. -/
theorem writesNByte_fst (address : Nat) (data : List Nat) (n : Nat) :
    (writesNByte address data n).map Prod.fst = (List.range n).map (address + ·) := by
  simp [writesNByte]

/-- The limit of 64 is applied by `SOL_hasWiFiCredentials`, to the length bytes
read. -/
theorem hasWiFiCredentials_lengths (L : Layout) (e : Store) (g : Credentials)
    (h : (SOL_hasWiFiCredentials L e g).1 = 1) :
    (SOL_hasWiFiCredentials L e g).2.ssid_length
        = min (SOL_readEEPROMByte e L.EEPROM_ADDRESS_WIFI_SSID_LENGTH) 64 ∧
      (SOL_hasWiFiCredentials L e g).2.pswd_length
        = min (SOL_readEEPROMByte e L.EEPROM_ADDRESS_WIFI_PSWD_LENGTH) 64 := by
  rw [hasWiFiCredentials_fst] at h
  have hf : SOL_readEEPROMByte e L.EEPROM_ADDRESS_WIFI_CREDENTIALS_AVAILABLE = 1 := by
    by_contra hne
    rw [if_neg hne] at h
    exact absurd h (by decide)
  unfold SOL_hasWiFiCredentials
  simp only [hf, if_true]
  constructor <;> split <;> omega

/-- C11 as stated fails: for an SSID of 65 bytes (65 times the letter a) the
persistence step of `SOL_startProvisioning` writes the length byte 65, not 64,
and writes the 65th byte of the field as well, at the field start plus 64,
which held 255 before; the same holds for a password of 65 bytes. -/
theorem persistence_truncation_counterexample :
    (List.replicate 65 97).length = 65 ∧
    (V2.EEPROM_ADDRESS_WIFI_SSID_LENGTH, 65)
        ∈ credentialWrites V2.layout (List.replicate 65 97) (bytes "secret123") ∧
      (V2.EEPROM_ADDRESS_WIFI_SSID_START + 64, 97)
        ∈ credentialWrites V2.layout (List.replicate 65 97) (bytes "secret123") ∧
      SOL_readEEPROMByte
          (persistCredentials V2.layout V2.erased (List.replicate 65 97) (bytes "secret123"))
          V2.EEPROM_ADDRESS_WIFI_SSID_LENGTH = 65 ∧
      SOL_readEEPROMByte V2.erased (V2.EEPROM_ADDRESS_WIFI_SSID_START + 64) = 255 ∧
      SOL_readEEPROMByte
          (persistCredentials V2.layout V2.erased (List.replicate 65 97) (bytes "secret123"))
          (V2.EEPROM_ADDRESS_WIFI_SSID_START + 64) = 97 ∧
      (V2.EEPROM_ADDRESS_WIFI_PSWD_LENGTH, 65)
        ∈ credentialWrites V2.layout (bytes "MyNet") (List.replicate 65 97) ∧
      (V2.EEPROM_ADDRESS_WIFI_PSWD_START + 64, 97)
        ∈ credentialWrites V2.layout (bytes "MyNet") (List.replicate 65 97) := by
  refine ⟨by decide, by decide, by decide, by decide, by decide, by decide, by decide, by decide⟩

/-- C11, amended: the persistence step of `SOL_startProvisioning` (either
variant, the layout being a parameter) does not truncate. It writes, in this
order, the password length byte, the SSID length byte, the password bytes, the
SSID bytes and the flag; each length byte is the length of the field modulo
256 (`uint8_t len = length()`), and the bytes written for a field are its
first `length mod 256` bytes at consecutive addresses from the field start.
The limit of 64 is applied when the credentials are loaded:
`SOL_hasWiFiCredentials`, when it returns 1, sets each length to the minimum of
the stored length byte and 64. -/
theorem persistence_truncation (L : Layout) (s e : Store) (ssid pswd : List Nat)
    (g : Credentials) :
    persistCredentials L s ssid pswd
        = applyWrites s
            ((L.EEPROM_ADDRESS_WIFI_PSWD_LENGTH, pswd.length % 256) ::
              (L.EEPROM_ADDRESS_WIFI_SSID_LENGTH, ssid.length % 256) ::
              (writesNByte L.EEPROM_ADDRESS_WIFI_PSWD_START pswd (pswd.length % 256)
                ++ writesNByte L.EEPROM_ADDRESS_WIFI_SSID_START ssid (ssid.length % 256)
                ++ [(L.EEPROM_ADDRESS_WIFI_CREDENTIALS_AVAILABLE, 1)])) ∧
      (writesNByte L.EEPROM_ADDRESS_WIFI_PSWD_START pswd (pswd.length % 256)).map Prod.snd
        = pswd.take (pswd.length % 256) ∧
      (writesNByte L.EEPROM_ADDRESS_WIFI_PSWD_START pswd (pswd.length % 256)).map Prod.fst
        = (List.range (pswd.length % 256)).map (L.EEPROM_ADDRESS_WIFI_PSWD_START + ·) ∧
      (writesNByte L.EEPROM_ADDRESS_WIFI_SSID_START ssid (ssid.length % 256)).map Prod.snd
        = ssid.take (ssid.length % 256) ∧
      (writesNByte L.EEPROM_ADDRESS_WIFI_SSID_START ssid (ssid.length % 256)).map Prod.fst
        = (List.range (ssid.length % 256)).map (L.EEPROM_ADDRESS_WIFI_SSID_START + ·) ∧
      ((SOL_hasWiFiCredentials L e g).1 = 1 →
        (SOL_hasWiFiCredentials L e g).2.ssid_length
            = min (SOL_readEEPROMByte e L.EEPROM_ADDRESS_WIFI_SSID_LENGTH) 64 ∧
          (SOL_hasWiFiCredentials L e g).2.pswd_length
            = min (SOL_readEEPROMByte e L.EEPROM_ADDRESS_WIFI_PSWD_LENGTH) 64) := by
  refine ⟨?_, writesNByte_snd _ _ _ (Nat.mod_le _ _), writesNByte_fst _ _ _,
    writesNByte_snd _ _ _ (Nat.mod_le _ _), writesNByte_fst _ _ _,
    hasWiFiCredentials_lengths L e g⟩
  rw [persist_eq_applyWrites]
  rfl

theorem persistence_truncation_witness :
    (SOL_hasWiFiCredentials V2.layout
        (persistCredentials V2.layout V2.erased (List.replicate 65 97) (bytes "secret123"))
        noCredentials).2.ssid_length
      = min (SOL_readEEPROMByte
          (persistCredentials V2.layout V2.erased (List.replicate 65 97) (bytes "secret123"))
          V2.layout.EEPROM_ADDRESS_WIFI_SSID_LENGTH) 64 ∧
    (SOL_hasWiFiCredentials V2.layout
        (persistCredentials V2.layout V2.erased (List.replicate 65 97) (bytes "secret123"))
        noCredentials).2.pswd_length
      = min (SOL_readEEPROMByte
          (persistCredentials V2.layout V2.erased (List.replicate 65 97) (bytes "secret123"))
          V2.layout.EEPROM_ADDRESS_WIFI_PSWD_LENGTH) 64 :=
  (persistence_truncation V2.layout V2.erased
    (persistCredentials V2.layout V2.erased (List.replicate 65 97) (bytes "secret123"))
    (List.replicate 65 97) (bytes "secret123") noCredentials).2.2.2.2.2 (by decide)

/-! ## The wake cycle of the first generation -/

namespace V1

/-- One client that submits a well-formed request: the pair is persisted. -/
theorem startProvisioning_request (L : Layout) (e : Store) (s p : List Nat)
    (hs : ∀ c ∈ s, c ≠ 38 ∧ c ≠ 10 ∧ c ≠ 13) (hp : ∀ c ∈ p, c ≠ 38 ∧ c ≠ 10 ∧ c ≠ 13)
    (hsp : ¬ bytes "PASSWORD=" <:+: s) (hps : ¬ bytes "SSID=" <:+: p) :
    (SOL_startProvisioning L e [request s p]).eeprom = persistCredentials L e s p := by
  rw [startProvisioning_single, request, clientLoop_request L e s p hs hp hsp hps]

/-- Sampling without connection, when credentials are available. -/
theorem senseAndUpload_offline (cfg : Config) (inp : Inputs) (st : State)
    (hf : (SOL_hasWiFiCredentials cfg.layout st.eeprom st.cred).1 = 1)
    (hc : inp.connect = false) :
    senseAndUpload cfg inp st
      = some
          { eeprom := storeDataPacket cfg st.eeprom inp.data
            touched := st.touched
            cred := (SOL_hasWiFiCredentials cfg.layout st.eeprom st.cred).2
            device_ID := st.device_ID
            trace := st.trace ++ Event.generateDataPacket inp.data ::
              (if datapoints cfg (storeDataPacket cfg st.eeprom inp.data)
                    ≥ cfg.SENSE_COUNT_TO_SEND
                then [Event.connectToWiFi false] else []) } := by
  unfold senseAndUpload SOL_generateDataPacket
  simp only [hf, hc, ne_eq, one_ne_zero, not_false_eq_true, if_true, Bool.false_eq_true,
    if_false]
  split_ifs <;> simp

/-- A provisioning cycle of the first generation that persists credentials,
without connection: in the same cycle a record is stored. -/
theorem task_provisioned (cfg : Config) (st : State) (inp : Inputs) (x : List (List Nat))
    (P : Store) (hx : (SOL_startProvisioning cfg.layout st.eeprom x).eeprom = P)
    (hf : ∀ g, (SOL_hasWiFiCredentials cfg.layout P g).1 = 1) :
    (SOL_task cfg { st with touched := 1 } { inp with clients := x, connect := false })
      = some
          { eeprom := storeDataPacket cfg P inp.data
            touched := 0
            cred := (SOL_hasWiFiCredentials cfg.layout P st.cred).2
            device_ID := st.device_ID
            trace := st.trace ++ Event.startProvisioning :: Event.generateDataPacket inp.data ::
              ((if datapoints cfg (storeDataPacket cfg P inp.data) ≥ cfg.SENSE_COUNT_TO_SEND
                then [Event.connectToWiFi false] else [])
                ++ [Event.deepsleep cfg.SLEEP_TIME_SECONDS]) } := by
  have h1 : SOL_task cfg { st with touched := 1 } { inp with clients := x, connect := false }
      = (senseAndUpload cfg { inp with clients := x, connect := false }
          { eeprom := (SOL_startProvisioning cfg.layout st.eeprom x).eeprom
            touched := 0
            cred := st.cred
            device_ID := st.device_ID
            trace := st.trace ++ [Event.startProvisioning] }).map
          (SOL_deepsleep cfg.SLEEP_TIME_SECONDS) := rfl
  rw [h1, hx, senseAndUpload_offline _ _ _ (hf _) rfl]
  simp [SOL_deepsleep]

/-- C12 fails on the code: in `SOL_task` of `SOL.cpp` the test of
`SOL_hasWiFiCredentials` follows the provisioning without an `else`. A cycle
whose touch flag is set and whose client submits
`SSID=MyNet&PASSWORD=secret123&` (without connection afterwards) ends, from
every state and for every configuration, with a trace in which
`SOL_startProvisioning` is followed by `SOL_generateDataPacket`, and with the
record of the sweep stored after the credentials. With the example constants
and an empty log the credentials are available afterwards, and the persisted
cursor goes from 110 to 134, where the record is found. -/
theorem provisioning_cycle_samples (cfg : Config) (st : State) (inp : Inputs) :
    (SOL_task cfg { st with touched := 1 }
        { inp with clients := [request (bytes "MyNet") (bytes "secret123")],
                   connect := false }).map (fun st1 => st1.trace)
      = some (st.trace ++ Event.startProvisioning :: Event.generateDataPacket inp.data ::
          ((if datapoints cfg (storeDataPacket cfg
                (persistCredentials cfg.layout st.eeprom (bytes "MyNet") (bytes "secret123"))
                inp.data) ≥ cfg.SENSE_COUNT_TO_SEND
            then [Event.connectToWiFi false] else [])
            ++ [Event.deepsleep cfg.SLEEP_TIME_SECONDS])) ∧
      (SOL_task cfg { st with touched := 1 }
        { inp with clients := [request (bytes "MyNet") (bytes "secret123")],
                   connect := false }).map (fun st1 => st1.eeprom)
      = some (storeDataPacket cfg
          (persistCredentials cfg.layout st.eeprom (bytes "MyNet") (bytes "secret123"))
          inp.data) ∧
      readLastStorageAddress exampleConfig touchedState.eeprom = 110 ∧
      (SOL_task exampleConfig touchedState formSubmitted).map
          (fun st1 => readLastStorageAddress exampleConfig st1.eeprom) = some 134 ∧
      (SOL_task exampleConfig touchedState formSubmitted).map
          (fun st1 => SOL_getDataPacket exampleConfig st1.eeprom 134) = some (exampleImage 1) ∧
      (SOL_task exampleConfig touchedState formSubmitted).map
          (fun st1 => (SOL_hasWiFiCredentials exampleConfig.layout st1.eeprom noCredentials).1)
        = some 1 := by
  have h := task_provisioned cfg st inp [request (bytes "MyNet") (bytes "secret123")] _
    (startProvisioning_request cfg.layout st.eeprom (bytes "MyNet") (bytes "secret123")
      (by decide) (by decide) (by decide) (by decide))
    (hasWiFiCredentials_persist _ _ _ _)
  refine ⟨by rw [h]; rfl, by rw [h]; rfl, by decide, by decide, by decide, by decide⟩

/-- The persisted cursor of the first generation, by bytes. -/
theorem readLast_eq (cfg : Config) (s : Store) :
    readLastStorageAddress cfg s
      = SOL_readEEPROMByte s cfg.EEPROM_ADDRESS_LAST_STORAGE_ADDRESS
        + 256 * SOL_readEEPROMByte s (cfg.EEPROM_ADDRESS_LAST_STORAGE_ADDRESS + 1) := by
  simp [readLastStorageAddress, u16OfBytes, SOL_readEEPROMNByte, List.range_succ]

/-- A cursor written is the cursor read. -/
theorem readLast_writeCursor (cfg : Config) (s : Store) (v : Nat) (hv : v < 65536) :
    readLastStorageAddress cfg
      (SOL_writeEEPROMNByte s cfg.EEPROM_ADDRESS_LAST_STORAGE_ADDRESS (bytesOfU16 v) 2) = v := by
  have h0 := writeN_hit s cfg.EEPROM_ADDRESS_LAST_STORAGE_ADDRESS (bytesOfU16 v) 2 0
    (by omega) (by omega)
  have h1 := writeN_hit s cfg.EEPROM_ADDRESS_LAST_STORAGE_ADDRESS (bytesOfU16 v) 2 1
    (by omega) (by omega)
  rw [readLast_eq, SOL_readEEPROMByte, SOL_readEEPROMByte]
  rw [Nat.add_zero] at h0
  rw [h0, h1]
  simp [bytesOfU16]
  omega

/-- After the reset of `SOL_upload` the cursor is the range start minus one, in
16 bits. -/
theorem readLast_reset (cfg : Config) (s : Store) :
    readLastStorageAddress cfg (resetLastStorageAddress cfg s)
      = (cfg.EEPROM_ADDRESS_DATA_RANGE_START_ADDRESS + 65535) % 65536 :=
  readLast_writeCursor cfg s _ (Nat.mod_lt _ (by omega))

/-- The loop of `SOL_upload` ends when the counter cannot wrap before it passes
the cursor. -/
theorem uploadLoop_terminates (cfg : Config) (s : Store) (last : Nat)
    (hs : 0 < cfg.sizeof_data_packet_t) (hl : last + 1 + cfg.sizeof_data_packet_t < 65536) :
    ∀ fuel dp, last + 1 < fuel + dp → (uploadLoop cfg s last (fuel + 1) dp).isSome = true := by
  intro fuel
  induction fuel with
  | zero =>
    intro dp h
    rw [uploadLoop, if_neg (by omega)]
    rfl
  | succ n ih =>
    intro dp h
    rw [uploadLoop]
    split_ifs with hdp
    · have h2 : (dp + cfg.sizeof_data_packet_t) % 65536 = dp + cfg.sizeof_data_packet_t :=
        Nat.mod_eq_of_lt (by omega)
      rw [h2]
      simpa using ih _ (by omega)
    · rfl

/-- The read loop of `SOL_upload` ends for a cursor at least one record size
below the 16-bit limit. -/
theorem pendingImages_isSome (cfg : Config) (s : Store)
    (hs : 0 < cfg.sizeof_data_packet_t)
    (hl : readLastStorageAddress cfg s + 1 + cfg.sizeof_data_packet_t < 65536) :
    (pendingImages cfg s).isSome = true :=
  uploadLoop_terminates cfg s _ hs hl 65536 _ (by omega)

/-- After the reset the read loop of `SOL_upload` finds no record. -/
theorem pendingImages_reset (cfg : Config) (s : Store)
    (hs : 0 < cfg.sizeof_data_packet_t)
    (h0 : 0 < cfg.EEPROM_ADDRESS_DATA_RANGE_START_ADDRESS)
    (hS : cfg.EEPROM_ADDRESS_DATA_RANGE_START_ADDRESS + cfg.sizeof_data_packet_t < 65536) :
    pendingImages cfg (resetLastStorageAddress cfg s) = some [] := by
  rw [pendingImages, readLast_reset, uploadLoop, if_neg (by omega)]

/-- C20 as stated fails: with two records pending (cursor 158) and a server
that no call of `SOL_uploadDataPacket` reaches, `SOL_upload` of `SOL.cpp`
hands both images over, undelivered, and resets the cursor to 110, the range
start minus one; the read loop then finds no pending record. -/
theorem incomplete_transfer_counterexample :
    readLastStorageAddress exampleConfig twoPending.eeprom = 158 ∧
    pendingImages exampleConfig twoPending.eeprom = some [exampleImage 1, exampleImage 2] ∧
    (SOL_upload exampleConfig serverUnreachable twoPending).map (fun st => st.trace)
      = some [Event.upload, Event.uploadDataPacket (exampleImage 1) 7 false,
          Event.uploadDataPacket (exampleImage 2) 7 false] ∧
    (SOL_upload exampleConfig serverUnreachable twoPending).map
        (fun st => readLastStorageAddress exampleConfig st.eeprom) = some 110 ∧
    (SOL_upload exampleConfig serverUnreachable twoPending).map
        (fun st => pendingImages exampleConfig st.eeprom) = some (some []) := by
  refine ⟨by decide, by decide, by decide, by decide, by decide⟩

/-- C20, amended: `SOL_upload` of the first generation keeps nothing back.
When the record size is positive, the range start is positive and at least one
record size below the 16-bit limit, and so is the cursor plus one, the read
loop ends, every image read is handed to `SOL_uploadDataPacket` once whatever
the calls report (`delivered` is free), and the cursor is then reset to the
range start minus one without condition: afterwards the read loop finds no
pending record, so records whose transfer failed are dropped from the log. -/
theorem upload_resets_always (cfg : Config) (inp : Inputs) (st : State)
    (hs : 0 < cfg.sizeof_data_packet_t)
    (h0 : 0 < cfg.EEPROM_ADDRESS_DATA_RANGE_START_ADDRESS)
    (hS : cfg.EEPROM_ADDRESS_DATA_RANGE_START_ADDRESS + cfg.sizeof_data_packet_t < 65536)
    (hl : readLastStorageAddress cfg st.eeprom + 1 + cfg.sizeof_data_packet_t < 65536) :
    ∃ images, pendingImages cfg st.eeprom = some images ∧
      SOL_upload cfg inp st = some
        { st with
          eeprom := resetLastStorageAddress cfg st.eeprom
          trace := st.trace ++ Event.upload ::
            uploadEvents st.device_ID inp.delivered images } ∧
      readLastStorageAddress cfg (resetLastStorageAddress cfg st.eeprom)
        = cfg.EEPROM_ADDRESS_DATA_RANGE_START_ADDRESS - 1 ∧
      pendingImages cfg (resetLastStorageAddress cfg st.eeprom) = some [] := by
  obtain ⟨images, hi⟩ := Option.isSome_iff_exists.mp (pendingImages_isSome cfg st.eeprom hs hl)
  refine ⟨images, hi, ?_, ?_, pendingImages_reset cfg st.eeprom hs h0 hS⟩
  · rw [SOL_upload, hi]
    rfl
  · rw [readLast_reset]
    omega

theorem upload_resets_always_witness :
    ∃ images, pendingImages exampleConfig twoPending.eeprom = some images ∧
      SOL_upload exampleConfig serverUnreachable twoPending = some
        { twoPending with
          eeprom := resetLastStorageAddress exampleConfig twoPending.eeprom
          trace := twoPending.trace ++ Event.upload ::
            uploadEvents twoPending.device_ID serverUnreachable.delivered images } ∧
      readLastStorageAddress exampleConfig
          (resetLastStorageAddress exampleConfig twoPending.eeprom)
        = exampleConfig.EEPROM_ADDRESS_DATA_RANGE_START_ADDRESS - 1 ∧
      pendingImages exampleConfig (resetLastStorageAddress exampleConfig twoPending.eeprom)
        = some [] :=
  upload_resets_always exampleConfig serverUnreachable twoPending (by decide) (by decide)
    (by decide) (by decide)

end V1

/-! ## Datapoint count of the first generation -/

namespace V1

/-- After the storage step the persisted cursor is the address written. -/
theorem readLast_storeDataPacket (cfg : Config) (s : Store) (data : List Nat) :
    readLastStorageAddress cfg (storeDataPacket cfg s data) = newStorageAddress cfg s := by
  unfold storeDataPacket
  simp only
  apply readLast_writeCursor
  unfold newStorageAddress
  simp only
  split_ifs
  · exact Nat.mod_lt _ (by norm_num)
  · exact Nat.mod_lt _ (by norm_num)

/-- A storage step that does not wrap advances the cursor by one record size. -/
theorem newStorageAddress_of_room (cfg : Config) (s : Store)
    (hE : cfg.EEPROM_ADDRESS_DATA_RANGE_END_ADDRESS ≤ 65536)
    (hr : readLastStorageAddress cfg s + cfg.sizeof_data_packet_t + cfg.sizeof_data_packet_t
      < cfg.EEPROM_ADDRESS_DATA_RANGE_END_ADDRESS) :
    newStorageAddress cfg s = readLastStorageAddress cfg s + cfg.sizeof_data_packet_t := by
  unfold newStorageAddress
  simp only
  rw [Nat.mod_eq_of_lt (by omega), if_neg (by omega)]

/-- The cursor after appends that do not wrap. -/
theorem readLast_appendAll (cfg : Config)
    (hE : cfg.EEPROM_ADDRESS_DATA_RANGE_END_ADDRESS ≤ 65536) (images : List (List Nat)) :
    ∀ s : Store,
      readLastStorageAddress cfg s + (images.length + 1) * cfg.sizeof_data_packet_t
        < cfg.EEPROM_ADDRESS_DATA_RANGE_END_ADDRESS →
      readLastStorageAddress cfg (appendAll cfg s images)
        = readLastStorageAddress cfg s + images.length * cfg.sizeof_data_packet_t := by
  induction images with
  | nil => intro s _; simp [appendAll]
  | cons d ds ih =>
    intro s h
    have e1 : (ds.length + 1 + 1) * cfg.sizeof_data_packet_t
        = (ds.length + 1) * cfg.sizeof_data_packet_t + cfg.sizeof_data_packet_t := by ring
    have e2 : (ds.length + 1) * cfg.sizeof_data_packet_t
        = ds.length * cfg.sizeof_data_packet_t + cfg.sizeof_data_packet_t := by ring
    simp only [List.length_cons] at h ⊢
    have hn : readLastStorageAddress cfg (storeDataPacket cfg s d)
        = readLastStorageAddress cfg s + cfg.sizeof_data_packet_t := by
      rw [readLast_storeDataPacket, newStorageAddress_of_room cfg s hE (by omega)]
    show readLastStorageAddress cfg (appendAll cfg (storeDataPacket cfg s d) ds) = _
    rw [ih _ (by rw [hn]; omega), hn]
    omega

/-- The loop of `SOL_upload` over a log of `n - k + 1` remaining records. -/
theorem uploadLoop_length (cfg : Config) (s : Store) (n : Nat)
    (h1 : 1 ≤ cfg.EEPROM_ADDRESS_DATA_RANGE_START_ADDRESS)
    (hs : 0 < cfg.sizeof_data_packet_t)
    (hb : cfg.EEPROM_ADDRESS_DATA_RANGE_START_ADDRESS + (n + 1) * cfg.sizeof_data_packet_t
      < 65536) :
    ∀ j k fuel, j + k = n + 1 → 1 ≤ k → j < fuel →
      (uploadLoop cfg s
          (cfg.EEPROM_ADDRESS_DATA_RANGE_START_ADDRESS - 1 + n * cfg.sizeof_data_packet_t)
          fuel
          (cfg.EEPROM_ADDRESS_DATA_RANGE_START_ADDRESS + k * cfg.sizeof_data_packet_t)).map
        List.length = some j := by
  intro j
  induction j with
  | zero =>
    intro k fuel hjk hk hf
    obtain ⟨f, rfl⟩ : ∃ f, fuel = f + 1 := ⟨fuel - 1, by omega⟩
    have hk' : k = n + 1 := by omega
    subst hk'
    have e : (n + 1) * cfg.sizeof_data_packet_t
        = n * cfg.sizeof_data_packet_t + cfg.sizeof_data_packet_t := by ring
    rw [uploadLoop, if_neg (by omega)]
    rfl
  | succ j ih =>
    intro k fuel hjk hk hf
    obtain ⟨f, rfl⟩ : ∃ f, fuel = f + 1 := ⟨fuel - 1, by omega⟩
    have hle : k * cfg.sizeof_data_packet_t ≤ n * cfg.sizeof_data_packet_t :=
      Nat.mul_le_mul_right _ (by omega)
    have hle2 : (k + 1) * cfg.sizeof_data_packet_t ≤ (n + 1) * cfg.sizeof_data_packet_t :=
      Nat.mul_le_mul_right _ (by omega)
    have e : (k + 1) * cfg.sizeof_data_packet_t
        = k * cfg.sizeof_data_packet_t + cfg.sizeof_data_packet_t := by ring
    have hpos : 0 < k * cfg.sizeof_data_packet_t := Nat.mul_pos (by omega) hs
    rw [uploadLoop, if_pos (by omega)]
    have hm : (cfg.EEPROM_ADDRESS_DATA_RANGE_START_ADDRESS + k * cfg.sizeof_data_packet_t
        + cfg.sizeof_data_packet_t) % 65536
        = cfg.EEPROM_ADDRESS_DATA_RANGE_START_ADDRESS
          + (k + 1) * cfg.sizeof_data_packet_t := by
      rw [Nat.mod_eq_of_lt (by omega)]
      omega
    rw [hm, Option.map_map]
    have := ih (k + 1) f (by omega) (by omega) (by omega)
    rw [Option.map_eq_some'] at this ⊢
    obtain ⟨l, hl, hlen⟩ := this
    exact ⟨l, hl, by simp [hlen]⟩

/-- C21 fails on the code: the count of `SOL_task` in `SOL.cpp` is one short.
With the constants of the absent `SOL.h` as parameters (range start at least
1, record size at least 2, end address below 65536), after the reset of
`SOL_upload` and `n >= 1` appends that do not wrap the persisted cursor is
start - 1 + n * sizeof(data_packet_t), so the count `(last_storage_address -
EEPROM_ADDRESS_DATA_RANGE_START_ADDRESS) / sizeof(data_packet_t)` is `n - 1`,
not `n`, while the read loop of `SOL_upload` finds `n` records. -/
theorem pending_count_off_by_one (cfg : Config) (s : Store) (images : List (List Nat))
    (h1 : 1 ≤ cfg.EEPROM_ADDRESS_DATA_RANGE_START_ADDRESS)
    (h2 : 2 ≤ cfg.sizeof_data_packet_t)
    (hn : 1 ≤ images.length)
    (hE : cfg.EEPROM_ADDRESS_DATA_RANGE_END_ADDRESS < 65536)
    (hr : cfg.EEPROM_ADDRESS_DATA_RANGE_START_ADDRESS - 1
        + (images.length + 1) * cfg.sizeof_data_packet_t
      < cfg.EEPROM_ADDRESS_DATA_RANGE_END_ADDRESS) :
    readLastStorageAddress cfg (appendAll cfg (resetLastStorageAddress cfg s) images)
        = cfg.EEPROM_ADDRESS_DATA_RANGE_START_ADDRESS - 1
          + images.length * cfg.sizeof_data_packet_t ∧
      datapoints cfg (appendAll cfg (resetLastStorageAddress cfg s) images)
        = images.length - 1 ∧
      datapoints cfg (appendAll cfg (resetLastStorageAddress cfg s) images) ≠ images.length ∧
      (pendingImages cfg (appendAll cfg (resetLastStorageAddress cfg s) images)).map List.length
        = some images.length := by
  have hreset : readLastStorageAddress cfg (resetLastStorageAddress cfg s)
      = cfg.EEPROM_ADDRESS_DATA_RANGE_START_ADDRESS - 1 := by
    rw [readLast_reset]
    omega
  have hlast := readLast_appendAll cfg (by omega) images (resetLastStorageAddress cfg s)
    (by rw [hreset]; exact hr)
  rw [hreset] at hlast
  have e : (images.length + 1) * cfg.sizeof_data_packet_t
      = images.length * cfg.sizeof_data_packet_t + cfg.sizeof_data_packet_t := by ring
  have hpos : cfg.sizeof_data_packet_t ≤ images.length * cfg.sizeof_data_packet_t :=
    Nat.le_mul_of_pos_left _ hn
  have hd : datapoints cfg (appendAll cfg (resetLastStorageAddress cfg s) images)
      = images.length - 1 := by
    unfold datapoints
    rw [hlast]
    have e3 : (cfg.EEPROM_ADDRESS_DATA_RANGE_START_ADDRESS - 1
        + images.length * cfg.sizeof_data_packet_t + 4294967296
        - cfg.EEPROM_ADDRESS_DATA_RANGE_START_ADDRESS) % 4294967296
        = images.length * cfg.sizeof_data_packet_t - 1 := by omega
    rw [e3]
    have e4 : (images.length * cfg.sizeof_data_packet_t - 1) / cfg.sizeof_data_packet_t
        = images.length - 1 := by
      apply Nat.div_eq_of_lt_le
      · have : (images.length - 1) * cfg.sizeof_data_packet_t
            = images.length * cfg.sizeof_data_packet_t - cfg.sizeof_data_packet_t := by
          rw [Nat.sub_mul, Nat.one_mul]
        omega
      · have : (images.length - 1 + 1) * cfg.sizeof_data_packet_t
            = images.length * cfg.sizeof_data_packet_t := by
          rw [Nat.sub_add_cancel hn]
        omega
    rw [e4]
    have hlen : images.length ≤ images.length * cfg.sizeof_data_packet_t :=
      Nat.le_mul_of_pos_right _ (by omega)
    have hlt : images.length * cfg.sizeof_data_packet_t < 65536 := by omega
    exact Nat.mod_eq_of_lt
      (Nat.lt_of_le_of_lt (Nat.le_trans (Nat.sub_le _ _) hlen) hlt)
  refine ⟨hlast, hd, by rw [hd]; omega, ?_⟩
  unfold pendingImages
  rw [hlast]
  have hlen : images.length ≤ images.length * cfg.sizeof_data_packet_t :=
    Nat.le_mul_of_pos_right _ (by omega)
  have hb : cfg.EEPROM_ADDRESS_DATA_RANGE_START_ADDRESS
      + (images.length + 1) * cfg.sizeof_data_packet_t < 65536 := by omega
  have := uploadLoop_length cfg (appendAll cfg (resetLastStorageAddress cfg s) images)
    images.length h1 (by omega) hb images.length 1 65537 (by omega) (by omega) (by omega)
  rw [Nat.one_mul] at this
  rw [Nat.mod_eq_of_lt (by omega)]
  exact this

theorem pending_count_off_by_one_witness :
    readLastStorageAddress exampleConfig
        (appendAll exampleConfig (resetLastStorageAddress exampleConfig V2.erased)
          [exampleImage 1, exampleImage 2])
        = exampleConfig.EEPROM_ADDRESS_DATA_RANGE_START_ADDRESS - 1
          + [exampleImage 1, exampleImage 2].length * exampleConfig.sizeof_data_packet_t ∧
      datapoints exampleConfig
        (appendAll exampleConfig (resetLastStorageAddress exampleConfig V2.erased)
          [exampleImage 1, exampleImage 2])
        = [exampleImage 1, exampleImage 2].length - 1 ∧
      datapoints exampleConfig
        (appendAll exampleConfig (resetLastStorageAddress exampleConfig V2.erased)
          [exampleImage 1, exampleImage 2])
        ≠ [exampleImage 1, exampleImage 2].length ∧
      (pendingImages exampleConfig
        (appendAll exampleConfig (resetLastStorageAddress exampleConfig V2.erased)
          [exampleImage 1, exampleImage 2])).map List.length
        = some [exampleImage 1, exampleImage 2].length :=
  pending_count_off_by_one exampleConfig V2.erased [exampleImage 1, exampleImage 2]
    (by decide) (by decide) (by decide) (by decide) (by decide)

end V1

/-! ## The availability flag -/

/-- C23: `SOL_hasWiFiCredentials` (the same code in both variants, the layout
being a parameter) returns 1 if and only if the byte at
`EEPROM_ADDRESS_WIFI_CREDENTIALS_AVAILABLE` is exactly 1, and for every other
flag value it returns 0 and leaves the static variables as they were; when it
returns 1 the loaded `ssid_length` and `pswd_length` are at most 64. The
function only reads the EEPROM (the store is an input of its embedding, not
an output): `SOL_set_time_from_ntp`, whose only access to the EEPROM is its
call of `SOL_hasWiFiCredentials`, leaves the EEPROM as it was. -/
theorem hasWiFiCredentials_flag (L : Layout) (s : Store) (g : Credentials) (inp : V2.Inputs)
    (st : V2.State) :
    ((SOL_hasWiFiCredentials L s g).1 = 1
        ↔ SOL_readEEPROMByte s L.EEPROM_ADDRESS_WIFI_CREDENTIALS_AVAILABLE = 1) ∧
      (SOL_readEEPROMByte s L.EEPROM_ADDRESS_WIFI_CREDENTIALS_AVAILABLE ≠ 1 →
        SOL_hasWiFiCredentials L s g = (0, g)) ∧
      ((SOL_hasWiFiCredentials L s g).1 = 1 →
        (SOL_hasWiFiCredentials L s g).2.ssid_length ≤ 64 ∧
          (SOL_hasWiFiCredentials L s g).2.pswd_length ≤ 64) ∧
      (V2.SOL_set_time_from_ntp inp st).eeprom = st.eeprom := by
  refine ⟨?_, ?_, ?_, V2.set_time_from_ntp_eeprom inp st⟩
  · rw [hasWiFiCredentials_fst]
    split_ifs with h
    · exact ⟨fun _ => h, fun _ => rfl⟩
    · exact ⟨fun h0 => absurd h0 (by decide), fun h1 => absurd h1 h⟩
  · intro h
    unfold SOL_hasWiFiCredentials
    simp only [h, if_false]
  · intro h
    rw [hasWiFiCredentials_fst] at h
    have hf : SOL_readEEPROMByte s L.EEPROM_ADDRESS_WIFI_CREDENTIALS_AVAILABLE = 1 := by
      by_contra hne
      rw [if_neg hne] at h
      exact absurd h (by decide)
    unfold SOL_hasWiFiCredentials
    simp only [hf, if_true]
    constructor <;> split <;> omega

theorem hasWiFiCredentials_flag_witness :
    (SOL_readEEPROMByte (fun _ => 0) V2.layout.EEPROM_ADDRESS_WIFI_CREDENTIALS_AVAILABLE ≠ 1 ∧
      SOL_hasWiFiCredentials V2.layout (fun _ => 0) noCredentials = (0, noCredentials)) ∧
    (SOL_readEEPROMByte V2.erased V2.layout.EEPROM_ADDRESS_WIFI_CREDENTIALS_AVAILABLE ≠ 1 ∧
      SOL_hasWiFiCredentials V2.layout V2.erased noCredentials = (0, noCredentials)) ∧
    ((SOL_hasWiFiCredentials V2.layout V2.provisionedState.eeprom noCredentials).1 = 1 ∧
      (SOL_hasWiFiCredentials V2.layout V2.provisionedState.eeprom noCredentials).2.ssid_length
        ≤ 64 ∧
      (SOL_hasWiFiCredentials V2.layout V2.provisionedState.eeprom noCredentials).2.pswd_length
        ≤ 64) :=
  ⟨⟨by decide, (hasWiFiCredentials_flag V2.layout (fun _ => 0) noCredentials V2.timerWake
      V2.erasedState).2.1 (by decide)⟩,
    ⟨by decide, (hasWiFiCredentials_flag V2.layout V2.erased noCredentials V2.timerWake
      V2.erasedState).2.1 (by decide)⟩,
    ⟨by decide, (hasWiFiCredentials_flag V2.layout V2.provisionedState.eeprom noCredentials
      V2.timerWake V2.erasedState).2.2.1 (by decide)⟩⟩

namespace V2

/-! ## Retained counter and timestamps -/

/-- Provisioning leaves the retained counter as it is. -/
theorem startProvisioning_sleepCount (inp : Inputs) (st : State) :
    (SOL_startProvisioning inp st).sleepCount = st.sleepCount := by
  unfold SOL_startProvisioning
  simp only
  split
  · rw [set_time_from_ntp_sleepCount]
  · rfl

/-- The retained counter after one wake cycle: the incremented value, or 0
after a successful connection at the threshold. -/
theorem task_sleepCount (st : State) (inp : Inputs) :
    (SOL_task st inp).sleepCount
      = if inp.touch = false
            ∧ SOL_readEEPROMByte st.eeprom EEPROM_ADDRESS_WIFI_CREDENTIALS_AVAILABLE = 1
            ∧ datapoints (storeDataPacket st.eeprom (taskPacket st inp)) ≥ SENSE_COUNT_TO_SEND
            ∧ inp.connect = true then 0
        else (st.sleepCount + 1) % 4294967296 := by
  unfold SOL_task SOL_deepsleep taskPacket
  simp only
  by_cases ht : inp.touch = true
  · simp only [ht, if_true]
    rw [startProvisioning_sleepCount]
    simp
  · simp only [ht, if_false, Bool.false_eq_true]
    rw [hasWiFiCredentials_fst]
    unfold SOL_upload SOL_generateDataPacket
    have hl : layout.EEPROM_ADDRESS_WIFI_CREDENTIALS_AVAILABLE
        = EEPROM_ADDRESS_WIFI_CREDENTIALS_AVAILABLE := rfl
    rw [hl]
    split_ifs <;> simp_all

/-- A timer wake with credentials runs `SOL_generateDataPacket` once, on the
record built from the incremented counter. -/
theorem cycle_generates (st : State) (inp : Inputs) (ht : inp.touch = false)
    (hf : SOL_readEEPROMByte st.eeprom EEPROM_ADDRESS_WIFI_CREDENTIALS_AVAILABLE = 1) :
    (cycleEvents st inp).filter Event.isGenerateDataPacket
      = [Event.generateDataPacket (taskPacket st inp)] := by
  rw [cycleEvents_eq, if_neg (by simp [ht]), if_pos hf]
  unfold ntpEvents
  split_ifs <;> simp [Event.isGenerateDataPacket]

/-- The timestamp of the record of a timer wake. -/
theorem taskPacket_timestamp (st : State) (inp : Inputs) :
    (taskPacket st inp).timestamp
      = (st.lastNTPTime + ((st.sleepCount + 1) % 4294967296) * SLEEP_TIME_SECONDS)
          % 4294967296 := by
  unfold taskPacket generatedPacket
  simp only [Nat.add_mod_mod]

/-- C22: SOL_V2 timestamp and retained counter. `SOL_task` increments
`sleepCount` by 1 modulo 2^32 first: at the end of every run the counter is
that incremented value, except after a successful connection at the threshold
of a timer wake with credentials, where the cycle ends with `sleepCount = 0`.
In a timer-wake cycle with credentials the one record appended is
`taskPacket`, whose timestamp is (lastNTPTime + sleepCount *
SLEEP_TIME_SECONDS) mod 2^32 with the incremented counter and
`SLEEP_TIME_SECONDS = 30`. -/
theorem timestamp_counter (st : State) (inp : Inputs) :
    ((SOL_task st inp).sleepCount = (st.sleepCount + 1) % 4294967296 ∨
      (inp.touch = false
        ∧ SOL_readEEPROMByte st.eeprom EEPROM_ADDRESS_WIFI_CREDENTIALS_AVAILABLE = 1
        ∧ datapoints (storeDataPacket st.eeprom (taskPacket st inp)) ≥ SENSE_COUNT_TO_SEND
        ∧ inp.connect = true ∧ (SOL_task st inp).sleepCount = 0)) ∧
      (inp.touch = false →
        SOL_readEEPROMByte st.eeprom EEPROM_ADDRESS_WIFI_CREDENTIALS_AVAILABLE = 1 →
        (cycleEvents st inp).filter Event.isGenerateDataPacket
            = [Event.generateDataPacket (taskPacket st inp)] ∧
          ((SOL_task st inp).eeprom = storeDataPacket st.eeprom (taskPacket st inp) ∨
            (SOL_task st inp).eeprom
              = resetNextStorageAddress (storeDataPacket st.eeprom (taskPacket st inp)))) ∧
      (taskPacket st inp).timestamp
        = (st.lastNTPTime + ((st.sleepCount + 1) % 4294967296) * SLEEP_TIME_SECONDS)
            % 4294967296 ∧
      SLEEP_TIME_SECONDS = 30 := by
  refine ⟨?_, ?_, taskPacket_timestamp st inp, rfl⟩
  · rw [task_sleepCount]
    split_ifs with h
    · exact Or.inr ⟨h.1, h.2.1, h.2.2.1, h.2.2.2, rfl⟩
    · exact Or.inl rfl
  · intro ht hf
    refine ⟨cycle_generates st inp ht hf, ?_⟩
    rw [task_eeprom, if_neg (by simp [ht]), if_pos hf]
    unfold taskPacket
    split_ifs
    · exact Or.inr rfl
    · exact Or.inl rfl

theorem timestamp_counter_witness :
    (cycleEvents provisionedState timerWake).filter Event.isGenerateDataPacket
        = [Event.generateDataPacket (taskPacket provisionedState timerWake)] ∧
      ((SOL_task provisionedState timerWake).eeprom
          = storeDataPacket provisionedState.eeprom (taskPacket provisionedState timerWake) ∨
        (SOL_task provisionedState timerWake).eeprom
          = resetNextStorageAddress
              (storeDataPacket provisionedState.eeprom (taskPacket provisionedState timerWake))) :=
  (timestamp_counter provisionedState timerWake).2.1 rfl (by decide)

/-- When no upload intervenes, the next record is stamped one sleep period
later. -/
theorem timestamp_advances (st : State) (inp1 inp2 : Inputs)
    (hn : ¬ (inp1.touch = false
      ∧ SOL_readEEPROMByte st.eeprom EEPROM_ADDRESS_WIFI_CREDENTIALS_AVAILABLE = 1
      ∧ datapoints (storeDataPacket st.eeprom (taskPacket st inp1)) ≥ SENSE_COUNT_TO_SEND
      ∧ inp1.connect = true))
    (hl : (SOL_task st inp1).lastNTPTime = st.lastNTPTime)
    (ho : st.lastNTPTime + (st.sleepCount + 2) * SLEEP_TIME_SECONDS < 4294967296) :
    (taskPacket (SOL_task st inp1) inp2).timestamp
      = (taskPacket st inp1).timestamp + SLEEP_TIME_SECONDS := by
  rw [taskPacket_timestamp, taskPacket_timestamp, hl, task_sleepCount, if_neg hn]
  simp only [SLEEP_TIME_SECONDS] at *
  omega

/-- C25 fails on the code: `SOL_task` sets `sleepCount = 0` after
`SOL_set_time_from_ntp` whether or not `lastNTPTime` was updated. For two
consecutive timer-wake cycles that each append a record, when the first
reaches the threshold and connects and `lastNTPTime` is not changed, absent
32-bit overflow the first record is stamped lastNTPTime + (sleepCount + 1) *
SLEEP_TIME_SECONDS and the second lastNTPTime + SLEEP_TIME_SECONDS: the later
timestamp is not greater than the earlier one. -/
theorem timestamp_regress (st : State) (inp1 inp2 : Inputs)
    (ht1 : inp1.touch = false) (ht2 : inp2.touch = false)
    (hf1 : SOL_readEEPROMByte st.eeprom EEPROM_ADDRESS_WIFI_CREDENTIALS_AVAILABLE = 1)
    (hf2 : SOL_readEEPROMByte (SOL_task st inp1).eeprom
      EEPROM_ADDRESS_WIFI_CREDENTIALS_AVAILABLE = 1)
    (hd : datapoints (storeDataPacket st.eeprom (taskPacket st inp1)) ≥ SENSE_COUNT_TO_SEND)
    (hc : inp1.connect = true)
    (hl : (SOL_task st inp1).lastNTPTime = st.lastNTPTime)
    (ho : st.lastNTPTime + (st.sleepCount + 1) * SLEEP_TIME_SECONDS < 4294967296) :
    (cycleEvents st inp1).filter Event.isGenerateDataPacket
        = [Event.generateDataPacket (taskPacket st inp1)] ∧
      (cycleEvents (SOL_task st inp1) inp2).filter Event.isGenerateDataPacket
        = [Event.generateDataPacket (taskPacket (SOL_task st inp1) inp2)] ∧
      (SOL_task st inp1).sleepCount = 0 ∧
      (taskPacket st inp1).timestamp
        = st.lastNTPTime + (st.sleepCount + 1) * SLEEP_TIME_SECONDS ∧
      (taskPacket (SOL_task st inp1) inp2).timestamp = st.lastNTPTime + SLEEP_TIME_SECONDS ∧
      (taskPacket (SOL_task st inp1) inp2).timestamp ≤ (taskPacket st inp1).timestamp := by
  have hs : (SOL_task st inp1).sleepCount = 0 := by
    rw [task_sleepCount, if_pos ⟨ht1, hf1, hd, hc⟩]
  have e1 : (taskPacket st inp1).timestamp
      = st.lastNTPTime + (st.sleepCount + 1) * SLEEP_TIME_SECONDS := by
    rw [taskPacket_timestamp]
    simp only [SLEEP_TIME_SECONDS] at *
    omega
  have e2 : (taskPacket (SOL_task st inp1) inp2).timestamp
      = st.lastNTPTime + SLEEP_TIME_SECONDS := by
    rw [taskPacket_timestamp, hl, hs]
    simp only [SLEEP_TIME_SECONDS] at *
    omega
  refine ⟨cycle_generates st inp1 ht1 hf1, cycle_generates _ inp2 ht2 hf2, hs, e1, e2, ?_⟩
  rw [e1, e2]
  simp only [SLEEP_TIME_SECONDS]
  omega

theorem timestamp_regress_witness :
    (cycleEvents threeSampled timerWakeNoNtp).filter Event.isGenerateDataPacket
        = [Event.generateDataPacket (taskPacket threeSampled timerWakeNoNtp)] ∧
      (cycleEvents (SOL_task threeSampled timerWakeNoNtp) timerWake).filter
          Event.isGenerateDataPacket
        = [Event.generateDataPacket
            (taskPacket (SOL_task threeSampled timerWakeNoNtp) timerWake)] ∧
      (SOL_task threeSampled timerWakeNoNtp).sleepCount = 0 ∧
      (taskPacket threeSampled timerWakeNoNtp).timestamp
        = threeSampled.lastNTPTime + (threeSampled.sleepCount + 1) * SLEEP_TIME_SECONDS ∧
      (taskPacket (SOL_task threeSampled timerWakeNoNtp) timerWake).timestamp
        = threeSampled.lastNTPTime + SLEEP_TIME_SECONDS ∧
      (taskPacket (SOL_task threeSampled timerWakeNoNtp) timerWake).timestamp
        ≤ (taskPacket threeSampled timerWakeNoNtp).timestamp :=
  timestamp_regress threeSampled timerWakeNoNtp timerWake rfl rfl (by decide) (by decide)
    (by decide) rfl (by decide) (by decide)

/-! ## Range of the record write -/

/-- Complete wake cycles keep the cursor condition. -/
theorem runCycles_cursor (cs : List Inputs) (s : State)
    (h : SOL_readEEPROMByte s.eeprom EEPROM_ADDRESS_WIFI_CREDENTIALS_AVAILABLE = 1 →
      cursorAligned (readNextStorageAddress s.eeprom)) :
    SOL_readEEPROMByte (runCycles s cs).eeprom EEPROM_ADDRESS_WIFI_CREDENTIALS_AVAILABLE = 1 →
      cursorAligned (readNextStorageAddress (runCycles s cs).eeprom) := by
  induction cs generalizing s with
  | nil => exact h
  | cons c cs ih => exact ih (SOL_task s c) (task_cursor s c h)

/-- From an aligned cursor the write address is inside the record range. -/
theorem writeAddress_range (s : Store) (hc : cursorAligned (readNextStorageAddress s)) :
    111 ≤ writeAddress s ∧ writeAddress s + 28 < 4000 := by
  obtain ⟨h1, h2, h3⟩ := hc
  simp only [EEPROM_ADDRESS_DATA_RANGE_START_ADDRESS] at h1
  refine ⟨?_, writeAddress_bound s⟩
  by_cases hr : readNextStorageAddress s + 28 < 4000
  · rw [writeAddress_of_room _ hr]
    exact h1
  · rw [writeAddress_of_full _ (by omega)]

/-- C24: SOL_V2 append never writes outside the record-storage range. In
every state reached from a store whose availability flag is not 1 by complete
wake cycles of `SOL_task`, when the flag is 1 (the condition under which
`SOL_task` appends) every byte write of the record write of
`SOL_generateDataPacket` has an address `a` with start <= a < end; so the
record write changes no byte below the range start (flag, SSID and password
bytes, length bytes, cursor field), and the whole storage step changes none
of them but the two bytes of the cursor field. -/
theorem append_in_range (st : State) (cycles : List Inputs) (data : data_packet_t)
    (h0 : SOL_readEEPROMByte st.eeprom EEPROM_ADDRESS_WIFI_CREDENTIALS_AVAILABLE ≠ 1)
    (h1 : SOL_readEEPROMByte (runCycles st cycles).eeprom
      EEPROM_ADDRESS_WIFI_CREDENTIALS_AVAILABLE = 1) :
    (∀ w ∈ writesNByte (writeAddress (runCycles st cycles).eeprom) data.toBytes
          sizeof_data_packet_t,
        EEPROM_ADDRESS_DATA_RANGE_START_ADDRESS ≤ w.1 ∧
          w.1 < EEPROM_ADDRESS_DATA_RANGE_END_ADDRESS) ∧
      (∀ a, a < EEPROM_ADDRESS_DATA_RANGE_START_ADDRESS →
        SOL_writeEEPROMNByte (runCycles st cycles).eeprom
            (writeAddress (runCycles st cycles).eeprom) data.toBytes sizeof_data_packet_t a
          = (runCycles st cycles).eeprom a) ∧
      (∀ a, a < EEPROM_ADDRESS_DATA_RANGE_START_ADDRESS →
        a ≠ EEPROM_ADDRESS_NEXT_STORAGE_ADDRESS → a ≠ EEPROM_ADDRESS_NEXT_STORAGE_ADDRESS + 1 →
        storeDataPacket (runCycles st cycles).eeprom data a = (runCycles st cycles).eeprom a) := by
  have hc := runCycles_cursor cycles st (fun h => absurd h h0) h1
  obtain ⟨hw1, hw2⟩ := writeAddress_range _ hc
  simp only [EEPROM_ADDRESS_DATA_RANGE_START_ADDRESS, EEPROM_ADDRESS_DATA_RANGE_END_ADDRESS,
    sizeof_data_packet_t, EEPROM_ADDRESS_NEXT_STORAGE_ADDRESS]
  refine ⟨?_, ?_, ?_⟩
  · intro w hw
    simp only [writesNByte, List.mem_map, List.mem_range] at hw
    obtain ⟨i, hi, rfl⟩ := hw
    simp only
    omega
  · intro a ha
    apply writeN_frame
    intro i hi
    omega
  · intro a ha h2 h3
    exact storeDataPacket_frame _ data a (Or.inl (by omega)) h2 h3

theorem append_in_range_witness :
    (∀ w ∈ writesNByte (writeAddress (runCycles erasedState provisionThenSample).eeprom)
          (taskPacket (runCycles erasedState provisionThenSample) timerWake).toBytes
          sizeof_data_packet_t,
        EEPROM_ADDRESS_DATA_RANGE_START_ADDRESS ≤ w.1 ∧
          w.1 < EEPROM_ADDRESS_DATA_RANGE_END_ADDRESS) ∧
      (∀ a, a < EEPROM_ADDRESS_DATA_RANGE_START_ADDRESS →
        SOL_writeEEPROMNByte (runCycles erasedState provisionThenSample).eeprom
            (writeAddress (runCycles erasedState provisionThenSample).eeprom)
            (taskPacket (runCycles erasedState provisionThenSample) timerWake).toBytes
            sizeof_data_packet_t a
          = (runCycles erasedState provisionThenSample).eeprom a) ∧
      (∀ a, a < EEPROM_ADDRESS_DATA_RANGE_START_ADDRESS →
        a ≠ EEPROM_ADDRESS_NEXT_STORAGE_ADDRESS → a ≠ EEPROM_ADDRESS_NEXT_STORAGE_ADDRESS + 1 →
        storeDataPacket (runCycles erasedState provisionThenSample).eeprom
            (taskPacket (runCycles erasedState provisionThenSample) timerWake) a
          = (runCycles erasedState provisionThenSample).eeprom a) :=
  append_in_range erasedState provisionThenSample
    (taskPacket (runCycles erasedState provisionThenSample) timerWake) (by decide) (by decide)

end V2

/-! ## Real-time clock -/

namespace MCP7940

/-- What `getRTCTime` parses from the bytes that `setRTCTime` sends. -/
theorem parse_set (s m h d mo y : Nat) (hs : s ≤ 59) (hm : m ≤ 59) (hh : h ≤ 23)
    (hd : d ≤ 31) (hmo : mo ≤ 12) (hy : y ≤ 99) :
    parseRawData (setRTCTime s m h d mo y)
      = ⟨s, m, if h < 20 then h else h - 20, d, mo, y⟩ := by
  have e1 : ∀ s, s < 60 → (parseRawData (setRTCTime s 0 0 0 0 0)).seconds = s := by decide
  have e2 : ∀ s, s < 60 → (parseRawData (setRTCTime 0 s 0 0 0 0)).minutes = s := by decide
  have e3 : ∀ s, s < 24 →
      (parseRawData (setRTCTime 0 0 s 0 0 0)).hour = if s < 20 then s else s - 20 := by decide
  have e4 : ∀ s, s < 32 → (parseRawData (setRTCTime 0 0 0 s 0 0)).date = s := by decide
  have e5 : ∀ s, s < 13 → (parseRawData (setRTCTime 0 0 0 0 s 0)).month = s := by decide
  have e6 : ∀ s, s < 100 → (parseRawData (setRTCTime 0 0 0 0 0 s)).year = s := by decide
  have := e1 s (by omega)
  have := e2 m (by omega)
  have := e3 h (by omega)
  have := e4 d (by omega)
  have := e5 mo (by omega)
  have := e6 y (by omega)
  simp only [parseRawData, setRTCTime, List.getD_cons_zero, List.getD_cons_succ] at *
  simp_all

/-- C26 fails on the code: `setRTCTime` keeps one bit of the tens of the hour
(`ten_hour & 0x1`) and `getRTCTime` reads one bit back (`& 0x10`). For every
valid time and date the seconds, minutes, date, month and year parsed from the
bytes sent are the input values, and so is the hour below 20; for the hours 20
to 23 the hour parsed is the input minus 20. -/
theorem rtc_roundtrip_hour (s m h d mo y : Nat) (hs : s ≤ 59) (hm : m ≤ 59) (hh : h ≤ 23)
    (hd : d ≤ 31) (hmo : mo ≤ 12) (hy : y ≤ 99) :
    (parseRawData (setRTCTime s m h d mo y)).seconds = s ∧
      (parseRawData (setRTCTime s m h d mo y)).minutes = m ∧
      (parseRawData (setRTCTime s m h d mo y)).date = d ∧
      (parseRawData (setRTCTime s m h d mo y)).month = mo ∧
      (parseRawData (setRTCTime s m h d mo y)).year = y ∧
      (h < 20 → (parseRawData (setRTCTime s m h d mo y)).hour = h) ∧
      (20 ≤ h → (parseRawData (setRTCTime s m h d mo y)).hour = h - 20 ∧
        (parseRawData (setRTCTime s m h d mo y)).hour ≠ h) := by
  rw [parse_set s m h d mo y hs hm hh hd hmo hy]
  refine ⟨rfl, rfl, rfl, rfl, rfl, fun h1 => if_pos h1, fun h2 => ?_⟩
  simp only
  rw [if_neg (by omega)]
  exact ⟨rfl, by omega⟩

theorem rtc_roundtrip_hour_witness :
    setRTCTime 30 15 20 25 12 21 = [0xB0, 0x15, 0x00, 0x00, 0x25, 0x12, 0x21] ∧
      (parseRawData (setRTCTime 30 15 20 25 12 21)).hour = 20 - 20 ∧
      (parseRawData (setRTCTime 30 15 20 25 12 21)).hour ≠ 20 :=
  ⟨by decide, (rtc_roundtrip_hour 30 15 20 25 12 21 (by decide) (by decide) (by decide)
    (by decide) (by decide) (by decide)).2.2.2.2.2.2 (by decide)⟩

end MCP7940

end SOL
